import Mathlib

/-!
The port-mapping orchestration of fs-upnp-simple-igd.

A shallow embedding of `gst-libs/ext/fsupnp/fs-upnp-simple-igd.c`.

Modelling conventions.

* Heap objects (`struct Mapping`, `struct ProxyMapping`, `struct Proxy`, `GSource`,
  `GUPnPServiceProxyAction`) carry the address (`addr` / `id`) they were allocated at;
  pointer comparison in C is comparison of these addresses.  Fresh addresses are taken
  from the counter `next`.
* A `struct Mapping` is never written after `fs_upnp_simple_igd_add_port_real` has filled
  it, so `pm->mapping` is embedded as the record itself (with its address).  A
  `struct Proxy` is mutable, so the back pointer `pm->proxy` is stored as an address and
  resolved in the current state.
* The collaborators are part of the state: `sources` are the `GSource`s attached to the
  `GMainContext`, `actions` the GUPnP actions in flight, `notifies` the notify
  subscriptions, `log` the signals emitted and actions begun (in order), `criticals` the
  checks of `g_return_if_fail` that tripped.
* C functions taking a pointer to an object take the object and give back its new value;
  the `run_*` functions model the main loop delivering a callback whose `user_data` is a
  pointer: they resolve the pointer, call the handler and store the object back.
-/

namespace FsUpnp

/-! ## Collaborator data -/

/-- A `GError`: domain (quark, by its string), code and message. -/
structure GError where
  domain : String
  code : Nat
  message : String
deriving DecidableEq, Repr

/-- The error domain, `fs_upnp_simple_igd_get_error_domain` (lines 140-144). -/
def FS_UPNP_SIMPLE_IGD_ERROR : String := "fs-upnp-simple-igd-error"

/-- Modelled from the spec: the header `fs-upnp-simple-igd.h` with the error enumeration
is missing; the spec defines exactly one code, `RequestTimedOut`, taken as the first
enumerator. -/
def FS_UPNP_SIMPLE_IGD_ERROR_TIMEOUT : Nat := 0

/-- The signals of the object with their arguments (lines 187-260); the detail quark of
the two error signals is the domain of the error they carry. -/
inductive Signal where
  | new_external_ip (ip : String)
  | mapped_external_port (proto : String) (external_ip : String)
      (replaces_external_ip : Option String) (external_port : Nat) (local_ip : String)
      (local_port : Nat) (description : String)
  | error_mapping_port (error : GError) (proto : String) (external_port : Nat)
      (description : String)
  | error (error : GError)
deriving DecidableEq, Repr

/-- The remote procedure calls begun by this file, with their named arguments. -/
inductive Rpc where
  | GetExternalIPAddress
  | AddPortMapping (NewRemoteHost : String) (NewExternalPort : Nat) (NewProtocol : String)
      (NewInternalPort : Nat) (NewInternalClient : String) (NewEnabled : Bool)
      (NewPortMappingDescription : String) (NewLeaseDuration : Nat)
  | DeletePortMapping (NewRemoteHost : String) (NewExternalPort : Nat)
      (NewProtocol : String)
deriving DecidableEq, Repr

/-- A `GUPnPServiceProxy`, known by the UDN of its device. -/
structure GUPnPServiceProxy where
  udn : String
deriving DecidableEq, Repr

/-- The completion callbacks passed to `gupnp_service_proxy_begin_action`. -/
inductive Callback where
  | _service_proxy_got_external_ip_address
  | _service_proxy_added_port_mapping
  | _service_proxy_renewed_port_mapping
  | _service_proxy_delete_port_mapping
deriving DecidableEq, Repr

/-- The callbacks passed to `g_source_set_callback`. -/
inductive SourceFunc where
  | _service_proxy_add_mapping_timeout
  | _renew_mapping_timeout
deriving DecidableEq, Repr

/-- The `user_data` pointer of a callback: the instance, a `struct Proxy` or a
`struct ProxyMapping`. -/
inductive UserData where
  | self
  | prox (addr : Nat)
  | pm (addr : Nat)
deriving DecidableEq, Repr

/-- A GUPnP action in flight. -/
structure Action where
  id : Nat
  proxy : GUPnPServiceProxy
  rpc : Rpc
  callback : Callback
  user_data : UserData
deriving DecidableEq, Repr

/-- A timeout source attached to the main context; `interval` is in seconds. -/
structure GSource where
  id : Nat
  interval : Nat
  func : SourceFunc
  user_data : UserData
deriving DecidableEq, Repr

/-- What the outside sees, in order: a signal emitted, an action begun on a proxy. -/
inductive Effect where
  | emit (s : Signal)
  | call (proxy : GUPnPServiceProxy) (rpc : Rpc)
deriving DecidableEq, Repr

/-! ## The data model (lines 32-78) -/

/-- The record `struct Mapping` (lines 59-66), with its address. -/
structure Mapping where
  addr : Nat
  protocol : String
  external_port : Nat
  local_ip : String
  local_port : Nat
  lease_duration : Nat
  description : String
deriving DecidableEq, Repr

/-- The record `struct ProxyMapping` (lines 68-78), with its address; `proxy` is the
address of the owning `struct Proxy`, `action`, `timeout_src` and `renew_src` are handles
(`none` is `NULL`). -/
structure ProxyMapping where
  addr : Nat
  proxy : Nat
  mapping : Mapping
  action : Option Nat
  timeout_src : Option Nat
  mapped : Bool
  renew_src : Option Nat
deriving DecidableEq, Repr

/-- The record `struct Proxy` (lines 49-57), with its address; `parent` is the one
instance. -/
structure Proxy where
  addr : Nat
  proxy : GUPnPServiceProxy
  external_ip : Option String
  external_ip_action : Option Nat
  proxymappings : List ProxyMapping
deriving DecidableEq, Repr

/-- The instance: the fields of `FsUpnpSimpleIgdPrivate` (lines 32-47) that carry state,
and the state of the collaborators. -/
structure FsUpnpSimpleIgd where
  request_timeout : Nat
  service_proxies : List Proxy
  mappings : List Mapping
  sources : List GSource
  actions : List Action
  notifies : List Nat
  log : List Effect
  criticals : List String
  next : Nat
deriving DecidableEq, Repr

/-! ## Library primitives -/

/-- The early return of `g_return_if_fail (expr)`: the failed check is logged. -/
def g_critical (self : FsUpnpSimpleIgd) (expr : String) : FsUpnpSimpleIgd :=
  { self with criticals := self.criticals ++ [expr] }

/-- Emission of a signal, `g_signal_emit`: handlers run synchronously. -/
def g_signal_emit (self : FsUpnpSimpleIgd) (s : Signal) : FsUpnpSimpleIgd :=
  { self with log := self.log ++ [Effect.emit s] }

/-- Allocation, `g_slice_new0`: a fresh address. -/
def g_slice_new0 (self : FsUpnpSimpleIgd) : FsUpnpSimpleIgd × Nat :=
  ({ self with next := self.next + 1 }, self.next)

/-- Beginning of an action, `gupnp_service_proxy_begin_action`: the action is in flight
and its handle returned. -/
def gupnp_service_proxy_begin_action (self : FsUpnpSimpleIgd) (proxy : GUPnPServiceProxy)
    (rpc : Rpc) (callback : Callback) (user_data : UserData) : FsUpnpSimpleIgd × Nat :=
  ({ self with
      actions := self.actions ++ [⟨self.next, proxy, rpc, callback, user_data⟩]
      log := self.log ++ [Effect.call proxy rpc]
      next := self.next + 1 }, self.next)

/-- Cancellation, `gupnp_service_proxy_cancel_action`: the action is no longer in
flight. -/
def gupnp_service_proxy_cancel_action (self : FsUpnpSimpleIgd) (action : Nat) :
    FsUpnpSimpleIgd :=
  { self with actions := self.actions.filter (fun a => a.id ≠ action) }

/-- Completion, `gupnp_service_proxy_end_action`: the action is consumed; whether it
succeeded is the argument of the handler (`none`: success, `some error`: failure, GUPnP
always sets the error then). -/
def gupnp_service_proxy_end_action (self : FsUpnpSimpleIgd) (action : Nat) :
    FsUpnpSimpleIgd :=
  { self with actions := self.actions.filter (fun a => a.id ≠ action) }

/-- The three calls `g_timeout_source_new_seconds (interval)`, `g_source_set_callback`
and `g_source_attach` to the main context of the instance, always made together. -/
def g_timeout_source_attach (self : FsUpnpSimpleIgd) (interval : Nat) (func : SourceFunc)
    (user_data : UserData) : FsUpnpSimpleIgd × Nat :=
  ({ self with
      sources := self.sources ++ [⟨self.next, interval, func, user_data⟩]
      next := self.next + 1 }, self.next)

/-- Removal of a source from its context, `g_source_destroy`. -/
def g_source_destroy (self : FsUpnpSimpleIgd) (src : Nat) : FsUpnpSimpleIgd :=
  { self with sources := self.sources.filter (fun s => s.id ≠ src) }

/-- Swap-remove, `g_ptr_array_remove_index_fast`: the last element takes the place of
the removed one; an index out of range is refused by GLib and changes nothing. -/
def g_ptr_array_remove_index_fast {α : Type} (l : List α) (i : Nat) : List α :=
  if i < l.length then
    match l.getLast? with
    | some last => (l.set i last).dropLast
    | none => l
  else l

/-- Decrement of a `guint`: `j--` wraps below zero. -/
def guint_dec (j : Nat) : Nat := (j + 2 ^ 32 - 1) % 2 ^ 32

/-- Increment of a `guint`: `j++`. -/
def guint_inc (j : Nat) : Nat := (j + 1) % 2 ^ 32

/-! ## The object -/

/-- The instance after `fs_upnp_simple_igd_init` (lines 263-272): timeout of 5 seconds,
no proxy, no mapping. -/
def fs_upnp_simple_igd_init : FsUpnpSimpleIgd :=
  { request_timeout := 5, service_proxies := [], mappings := [], sources := [],
    actions := [], notifies := [], log := [], criticals := [], next := 0 }

/-- The setter of the property `request-timeout` in `fs_upnp_simple_igd_set_property`
(lines 407-409). -/
def fs_upnp_simple_igd_set_request_timeout (self : FsUpnpSimpleIgd) (value : Nat) :
    FsUpnpSimpleIgd :=
  { self with request_timeout := value }

/-- The function `stop_proxymapping` (lines 842-853). -/
def stop_proxymapping (self : FsUpnpSimpleIgd) (pm : ProxyMapping) :
    FsUpnpSimpleIgd × ProxyMapping :=
  let self := match pm.action with
    | some action => gupnp_service_proxy_cancel_action self action
    | none => self
  let pm := { pm with action := none }
  let self := match pm.timeout_src with
    | some src => g_source_destroy self src
    | none => self
  (self, { pm with timeout_src := none })

/-- The call `g_ptr_array_foreach (proxymappings, stop_proxymapping, NULL)`. -/
def stop_proxymappings (self : FsUpnpSimpleIgd) :
    List ProxyMapping → FsUpnpSimpleIgd × List ProxyMapping
  | [] => (self, [])
  | pm :: rest =>
    let r := stop_proxymapping self pm
    let rs := stop_proxymappings r.1 rest
    (rs.1, r.2 :: rs.2)

/-- The handler `_external_ip_address_changed` (lines 313-338): the loop over the
mappings of the proxy. -/
def external_ip_address_changed_loop (self : FsUpnpSimpleIgd) (prox : Proxy)
    (new_ip : String) : List ProxyMapping → FsUpnpSimpleIgd
  | [] => self
  | pm :: rest =>
    let self := if pm.mapped then
        g_signal_emit self (Signal.mapped_external_port pm.mapping.protocol new_ip
          prox.external_ip pm.mapping.external_port pm.mapping.local_ip
          pm.mapping.local_port pm.mapping.description)
      else self
    external_ip_address_changed_loop self prox new_ip rest

/-- The handler `_external_ip_address_changed` (lines 313-338), for a value that holds a
string. -/
def _external_ip_address_changed (self : FsUpnpSimpleIgd) (prox : Proxy)
    (new_ip : String) : FsUpnpSimpleIgd × Proxy :=
  let self := external_ip_address_changed_loop self prox new_ip prox.proxymappings
  (self, { prox with external_ip := some new_ip })

/-- The function `free_proxy` (lines 340-353); the `struct ProxyMapping`s are stopped
and the array holding them freed. -/
def free_proxy (self : FsUpnpSimpleIgd) (prox : Proxy) : FsUpnpSimpleIgd :=
  let self := match prox.external_ip_action with
    | some action => gupnp_service_proxy_cancel_action self action
    | none => self
  let self := { self with notifies := self.notifies.filter (fun n => n ≠ prox.addr) }
  (stop_proxymappings self prox.proxymappings).1

/-- The function `fs_upnp_simple_igd_gather` (lines 555-567). -/
def fs_upnp_simple_igd_gather (self : FsUpnpSimpleIgd) (prox : Proxy) :
    FsUpnpSimpleIgd × Proxy :=
  let r := gupnp_service_proxy_begin_action self prox.proxy Rpc.GetExternalIPAddress
    Callback._service_proxy_got_external_ip_address (UserData.prox prox.addr)
  let self := { r.1 with notifies := r.1.notifies ++ [prox.addr] }
  (self, { prox with external_ip_action := some r.2 })

/-- The handler `_service_proxy_added_port_mapping` (lines 610-653); `prox` is
`pm->proxy`, `error` the outcome of `gupnp_service_proxy_end_action`. -/
def _service_proxy_added_port_mapping (self : FsUpnpSimpleIgd) (prox : Proxy)
    (pm : ProxyMapping) (action : Nat) (error : Option GError) :
    FsUpnpSimpleIgd × ProxyMapping :=
  if pm.action = some action then
    let pm := { pm with action := none }
    let self := gupnp_service_proxy_end_action self action
    match error with
    | none =>
      let pm := { pm with mapped := true }
      let self := match prox.external_ip with
        | some external_ip =>
          g_signal_emit self (Signal.mapped_external_port pm.mapping.protocol external_ip
            none pm.mapping.external_port pm.mapping.local_ip pm.mapping.local_port
            pm.mapping.description)
        | none => self
      let r := g_timeout_source_attach self (pm.mapping.lease_duration / 2)
        SourceFunc._renew_mapping_timeout (UserData.pm pm.addr)
      let pm := { pm with renew_src := some r.2 }
      stop_proxymapping r.1 pm
    | some error =>
      let self := g_signal_emit self (Signal.error_mapping_port error pm.mapping.protocol
        pm.mapping.external_port pm.mapping.description)
      stop_proxymapping self pm
  else (g_critical self "pm->action == action", pm)

/-- The handler `_service_proxy_add_mapping_timeout` (lines 655-672); it returns `FALSE`,
the source is not run again. -/
def _service_proxy_add_mapping_timeout (self : FsUpnpSimpleIgd) (pm : ProxyMapping) :
    FsUpnpSimpleIgd × ProxyMapping :=
  let error : GError :=
    ⟨FS_UPNP_SIMPLE_IGD_ERROR, FS_UPNP_SIMPLE_IGD_ERROR_TIMEOUT, "Timeout while mapping port"⟩
  let r := stop_proxymapping self pm
  let self := g_signal_emit r.1 (Signal.error_mapping_port error r.2.mapping.protocol
    r.2.mapping.external_port r.2.mapping.description)
  (self, r.2)

/-- The function `fs_upnp_simple_igd_add_proxy_mapping` (lines 674-703). -/
def fs_upnp_simple_igd_add_proxy_mapping (self : FsUpnpSimpleIgd) (prox : Proxy)
    (mapping : Mapping) : FsUpnpSimpleIgd × Proxy :=
  let a := g_slice_new0 self
  let r := gupnp_service_proxy_begin_action a.1 prox.proxy
    (Rpc.AddPortMapping "" mapping.external_port mapping.protocol mapping.local_port
      mapping.local_ip true mapping.description mapping.lease_duration)
    Callback._service_proxy_added_port_mapping (UserData.pm a.2)
  let t := g_timeout_source_attach r.1 r.1.request_timeout
    SourceFunc._service_proxy_add_mapping_timeout (UserData.pm a.2)
  let pm : ProxyMapping :=
    { addr := a.2, proxy := prox.addr, mapping := mapping, action := some r.2,
      timeout_src := some t.2, mapped := false, renew_src := none }
  (t.1, { prox with proxymappings := prox.proxymappings ++ [pm] })

/-- The loop of `fs_upnp_simple_igd_add_port_real` over the proxies (lines 732-734). -/
def add_port_loop (self : FsUpnpSimpleIgd) (mapping : Mapping) :
    List Proxy → FsUpnpSimpleIgd × List Proxy
  | [] => (self, [])
  | prox :: rest =>
    let r := fs_upnp_simple_igd_add_proxy_mapping self prox mapping
    let rs := add_port_loop r.1 mapping rest
    (rs.1, r.2 :: rs.2)

/-- The function `fs_upnp_simple_igd_add_port_real` (lines 705-735); the strings are
pointers that may be `NULL`, `external_port` and `local_port` are `guint16` and
`lease_duration` is `guint32`.  The mapping is allocated before the checks. -/
def fs_upnp_simple_igd_add_port_real (self : FsUpnpSimpleIgd) (protocol : Option String)
    (external_port : Nat) (local_ip : Option String) (local_port : Nat)
    (lease_duration : Nat) (description : Option String) : FsUpnpSimpleIgd :=
  let a := g_slice_new0 self
  match protocol, local_ip with
  | some protocol, some local_ip =>
    if protocol = "UDP" ∨ protocol = "TCP" then
      let mapping : Mapping :=
        { addr := a.2, protocol := protocol, external_port := external_port,
          local_ip := local_ip, local_port := local_port,
          lease_duration := lease_duration,
          description := match description with
            | some d => d
            | none => "" }
      let self := { a.1 with mappings := a.1.mappings ++ [mapping] }
      let r := add_port_loop self mapping self.service_proxies
      { r.1 with service_proxies := r.2 }
    else g_critical a.1 "!strcmp (protocol, \"UDP\") || !strcmp (protocol, \"TCP\")"
  | _, _ => g_critical a.1 "protocol && local_ip"

/-- The loop of `_cp_service_avail` over the mappings (lines 437-439). -/
def cp_service_avail_loop (self : FsUpnpSimpleIgd) (prox : Proxy) :
    List Mapping → FsUpnpSimpleIgd × Proxy
  | [] => (self, prox)
  | mapping :: rest =>
    let r := fs_upnp_simple_igd_add_proxy_mapping self prox mapping
    cp_service_avail_loop r.1 r.2 rest

/-- The handler `_cp_service_avail` (lines 423-442). -/
def _cp_service_avail (self : FsUpnpSimpleIgd) (proxy : GUPnPServiceProxy) :
    FsUpnpSimpleIgd :=
  let a := g_slice_new0 self
  let prox : Proxy :=
    { addr := a.2, proxy := proxy, external_ip := none, external_ip_action := none,
      proxymappings := [] }
  let g := fs_upnp_simple_igd_gather a.1 prox
  let r := cp_service_avail_loop g.1 g.2 g.1.mappings
  { r.1 with service_proxies := r.1.service_proxies ++ [r.2] }

/-- The loop of `_cp_service_unavail` (lines 452-466): the UDN of `prox->proxy` is
compared with the UDN of `prox->proxy`; the argument `proxy` is not read. -/
def cp_service_unavail_loop (self : FsUpnpSimpleIgd) (proxy : GUPnPServiceProxy) :
    List Proxy → Nat → FsUpnpSimpleIgd
  | [], _ => self
  | prox :: rest, i =>
    if prox.proxy.udn = prox.proxy.udn then
      let r := stop_proxymappings self prox.proxymappings
      let self := free_proxy r.1 { prox with proxymappings := r.2 }
      { self with
        service_proxies := g_ptr_array_remove_index_fast self.service_proxies i }
    else cp_service_unavail_loop self proxy rest (i + 1)

/-- The handler `_cp_service_unavail` (lines 445-467). -/
def _cp_service_unavail (self : FsUpnpSimpleIgd) (proxy : GUPnPServiceProxy) :
    FsUpnpSimpleIgd :=
  cp_service_unavail_loop self proxy self.service_proxies 0

/-- The search loop of `fs_upnp_simple_igd_remove_port_real` (lines 782-791): the index
reached and the value of the local `mapping`, which keeps its initial value when no
element has the key. -/
def remove_port_find (protocol : String) (external_port : Nat) :
    List Mapping → Nat → Option Mapping → Nat × Option Mapping
  | [], i, mapping => (i, mapping)
  | tmpmapping :: rest, i, mapping =>
    if tmpmapping.external_port = external_port ∧ tmpmapping.protocol = protocol then
      (i, some tmpmapping)
    else remove_port_find protocol external_port rest (i + 1) mapping

/-- The body of the inner loop of `fs_upnp_simple_igd_remove_port_real` for a
`ProxyMapping` of the removed mapping (lines 805-820), before it is taken out of the
array. -/
def remove_port_stop (self : FsUpnpSimpleIgd) (prox : Proxy) (mapping : Mapping)
    (pm : ProxyMapping) : FsUpnpSimpleIgd :=
  let r := stop_proxymapping self pm
  let self := match r.2.renew_src with
    | some src => g_source_destroy r.1 src
    | none => r.1
  if r.2.mapped then
    (gupnp_service_proxy_begin_action self prox.proxy
      (Rpc.DeletePortMapping "" mapping.external_port mapping.protocol)
      Callback._service_proxy_delete_port_mapping UserData.self).1
  else self

/-- The inner loop of `fs_upnp_simple_igd_remove_port_real` (lines 800-824) from index
`j`, with `j` a `guint`: after a removal `j--` is followed by the `j++` of the loop.
`fuel` bounds the number of iterations; `none` when it runs out. -/
def remove_port_inner (mapping : Mapping) :
    Nat → FsUpnpSimpleIgd → Proxy → Nat → Option (FsUpnpSimpleIgd × Proxy)
  | 0, _, _, _ => none
  | fuel + 1, self, prox, j =>
    match prox.proxymappings[j]? with
    | none => some (self, prox)
    | some pm =>
      if pm.mapping.addr = mapping.addr then
        let self := remove_port_stop self prox mapping pm
        let prox := { prox with
          proxymappings := g_ptr_array_remove_index_fast prox.proxymappings j }
        remove_port_inner mapping fuel self prox (guint_inc (guint_dec j))
      else remove_port_inner mapping fuel self prox (guint_inc j)

/-- The outer loop of `fs_upnp_simple_igd_remove_port_real` (lines 796-825). -/
def remove_port_outer (mapping : Mapping) (self : FsUpnpSimpleIgd) :
    List Proxy → Option (FsUpnpSimpleIgd × List Proxy)
  | [] => some (self, [])
  | prox :: rest =>
    match remove_port_inner mapping (prox.proxymappings.length + 1) self prox 0 with
    | none => none
    | some r =>
      match remove_port_outer mapping r.1 rest with
      | none => none
      | some rs => some (rs.1, r.2 :: rs.2)

/-- The function `fs_upnp_simple_igd_remove_port_real` (lines 772-828).  The local
`mapping` is declared without initialiser: `mapping0` is the value it happens to hold.
The result is `none` only when an inner loop runs out of fuel. -/
def fs_upnp_simple_igd_remove_port_real (self : FsUpnpSimpleIgd)
    (protocol : Option String) (external_port : Nat) (mapping0 : Option Mapping) :
    Option FsUpnpSimpleIgd :=
  match protocol with
  | none => some (g_critical self "protocol")
  | some protocol =>
    let f := remove_port_find protocol external_port self.mappings 0 mapping0
    match f.2 with
    | none => some (g_critical self "mapping")
    | some mapping =>
      let self :=
        { self with mappings := g_ptr_array_remove_index_fast self.mappings f.1 }
      match remove_port_outer mapping self self.service_proxies with
      | none => none
      | some r => some { r.1 with service_proxies := r.2 }

/-! ## Delivery of callbacks -/

/-- All the `struct ProxyMapping`s reachable from the instance. -/
def proxymappings (self : FsUpnpSimpleIgd) : List ProxyMapping :=
  (self.service_proxies.map (fun prox => prox.proxymappings)).flatten

/-- Resolution of a pointer to a `struct ProxyMapping`. -/
def find_proxymapping (self : FsUpnpSimpleIgd) (addr : Nat) : Option ProxyMapping :=
  (proxymappings self).find? (fun pm => pm.addr = addr)

/-- Resolution of a pointer to a `struct Proxy`. -/
def find_proxy (self : FsUpnpSimpleIgd) (addr : Nat) : Option Proxy :=
  self.service_proxies.find? (fun prox => prox.addr = addr)

/-- Write of a `struct ProxyMapping` at its address. -/
def store_proxymapping (self : FsUpnpSimpleIgd) (pm : ProxyMapping) : FsUpnpSimpleIgd :=
  { self with service_proxies := self.service_proxies.map (fun prox =>
      { prox with proxymappings := prox.proxymappings.map (fun q =>
          if q.addr = pm.addr then pm else q) }) }

/-- Write of a `struct Proxy` at its address. -/
def store_proxy (self : FsUpnpSimpleIgd) (prox : Proxy) : FsUpnpSimpleIgd :=
  { self with service_proxies := self.service_proxies.map (fun q =>
      if q.addr = prox.addr then prox else q) }

/-- Delivery of the completion of `action` to `_service_proxy_added_port_mapping` with
`user_data` the address of a `struct ProxyMapping`; `none` when a pointer dangles. -/
def run_added_port_mapping (self : FsUpnpSimpleIgd) (action : Nat) (user_data : Nat)
    (error : Option GError) : Option FsUpnpSimpleIgd :=
  match find_proxymapping self user_data with
  | none => none
  | some pm =>
    match find_proxy self pm.proxy with
    | none => none
    | some prox =>
      let r := _service_proxy_added_port_mapping self prox pm action error
      some (store_proxymapping r.1 r.2)

/-- Firing of the request timeout: delivery to `_service_proxy_add_mapping_timeout`
with `user_data` the address of a `struct ProxyMapping`; `none` when it dangles. -/
def run_add_mapping_timeout (self : FsUpnpSimpleIgd) (user_data : Nat) :
    Option FsUpnpSimpleIgd :=
  match find_proxymapping self user_data with
  | none => none
  | some pm =>
    let r := _service_proxy_add_mapping_timeout self pm
    some (store_proxymapping r.1 r.2)

/-- Delivery of a change of `ExternalIPAddress` to `_external_ip_address_changed` with
`user_data` the address of a `struct Proxy`; `none` when it dangles. -/
def run_external_ip_address_changed (self : FsUpnpSimpleIgd) (user_data : Nat)
    (new_ip : String) : Option FsUpnpSimpleIgd :=
  match find_proxy self user_data with
  | none => none
  | some prox =>
    let r := _external_ip_address_changed self prox new_ip
    some (store_proxy r.1 r.2)

/-! ## External address, renewal and teardown -/

/-- The loop of `_service_proxy_got_external_ip_address` over the mappings of the proxy
(lines 528-537). -/
def got_external_ip_address_loop (self : FsUpnpSimpleIgd) (prox : Proxy) (ip : String) :
    List ProxyMapping → FsUpnpSimpleIgd
  | [] => self
  | pm :: rest =>
    let self := if pm.mapped then
        g_signal_emit self (Signal.mapped_external_port pm.mapping.protocol ip
          prox.external_ip pm.mapping.external_port pm.mapping.local_ip
          pm.mapping.local_port pm.mapping.description)
      else self
    got_external_ip_address_loop self prox ip rest

/-- The handler `_service_proxy_got_external_ip_address` (lines 508-553); `result` is the
outcome of `gupnp_service_proxy_end_action`: the value of `NewExternalIPAddress`, or the
error.  The failure branch reads `pm`, a name that is declared in the loop of the success
branch only and is not in scope there: what it stands for is the argument `pm`. -/
def _service_proxy_got_external_ip_address (self : FsUpnpSimpleIgd) (prox : Proxy)
    (action : Nat) (result : Except GError String) (pm : ProxyMapping) :
    FsUpnpSimpleIgd × Proxy :=
  if prox.external_ip_action = some action then
    let prox := { prox with external_ip_action := none }
    let self := gupnp_service_proxy_end_action self action
    match result with
    | Except.ok ip =>
      let self := got_external_ip_address_loop self prox ip prox.proxymappings
      let prox := { prox with external_ip := some ip }
      (g_signal_emit self (Signal.new_external_ip ip), prox)
    | Except.error error =>
      (g_signal_emit self (Signal.error_mapping_port error pm.mapping.protocol
        pm.mapping.external_port pm.mapping.description), prox)
  else (g_critical self "prox->external_ip_action == action", prox)

/-- The handler `_service_proxy_renewed_port_mapping` (lines 569-587); `error` is the
outcome of `gupnp_service_proxy_end_action`. -/
def _service_proxy_renewed_port_mapping (self : FsUpnpSimpleIgd) (pm : ProxyMapping)
    (action : Nat) (error : Option GError) : FsUpnpSimpleIgd :=
  let self := gupnp_service_proxy_end_action self action
  match error with
  | none => self
  | some error =>
    g_signal_emit self (Signal.error_mapping_port error pm.mapping.protocol
      pm.mapping.external_port pm.mapping.description)

/-- The handler `_renew_mapping_timeout` (lines 589-608); `prox` is `pm->proxy`.  The
handle of the action is dropped; the result `TRUE` keeps the source attached. -/
def _renew_mapping_timeout (self : FsUpnpSimpleIgd) (prox : Proxy) (pm : ProxyMapping) :
    FsUpnpSimpleIgd × Bool :=
  let r := gupnp_service_proxy_begin_action self prox.proxy
    (Rpc.AddPortMapping "" pm.mapping.external_port pm.mapping.protocol
      pm.mapping.local_port pm.mapping.local_ip true pm.mapping.description
      pm.mapping.lease_duration)
    Callback._service_proxy_renewed_port_mapping (UserData.pm pm.addr)
  (r.1, true)

/-- The first loop of `fs_upnp_simple_igd_dispose` (lines 287-292): `free_mapping` on the
element at index 0 and swap-remove, while the array is not empty.  `fuel` bounds the
number of iterations; `none` when it runs out. -/
def dispose_mappings : Nat → FsUpnpSimpleIgd → Option FsUpnpSimpleIgd
  | 0, _ => none
  | fuel + 1, self =>
    match self.mappings with
    | [] => some self
    | _ :: _ =>
      dispose_mappings fuel
        { self with mappings := g_ptr_array_remove_index_fast self.mappings 0 }

/-- The second loop of `fs_upnp_simple_igd_dispose` (lines 294-299): `free_proxy` on the
element at index 0 and swap-remove, while the array is not empty. -/
def dispose_proxies : Nat → FsUpnpSimpleIgd → Option FsUpnpSimpleIgd
  | 0, _ => none
  | fuel + 1, self =>
    match self.service_proxies with
    | [] => some self
    | prox :: _ =>
      let self := free_proxy self prox
      dispose_proxies fuel
        { self with
          service_proxies := g_ptr_array_remove_index_fast self.service_proxies 0 }

/-- The function `fs_upnp_simple_igd_dispose` (lines 274-310), the teardown of the
instance: the two loops, each with as much fuel as its array has elements, plus one. -/
def fs_upnp_simple_igd_dispose (self : FsUpnpSimpleIgd) : Option FsUpnpSimpleIgd :=
  match dispose_mappings (self.mappings.length + 1) self with
  | none => none
  | some self => dispose_proxies (self.service_proxies.length + 1) self

/-- Delivery of the completion of `action` to `_service_proxy_got_external_ip_address`
with `user_data` the address of a `struct Proxy`; `none` when it dangles. -/
def run_got_external_ip_address (self : FsUpnpSimpleIgd) (action : Nat) (user_data : Nat)
    (result : Except GError String) (pm : ProxyMapping) : Option FsUpnpSimpleIgd :=
  match find_proxy self user_data with
  | none => none
  | some prox =>
    let r := _service_proxy_got_external_ip_address self prox action result pm
    some (store_proxy r.1 r.2)

/-- Delivery of the completion of `action` to `_service_proxy_renewed_port_mapping` with
`user_data` the address of a `struct ProxyMapping`; the handler reads `pm->proxy->parent`:
`none` when one of the two pointers dangles. -/
def run_renewed_port_mapping (self : FsUpnpSimpleIgd) (action : Nat) (user_data : Nat)
    (error : Option GError) : Option FsUpnpSimpleIgd :=
  match find_proxymapping self user_data with
  | none => none
  | some pm =>
    match find_proxy self pm.proxy with
    | none => none
    | some _ => some (_service_proxy_renewed_port_mapping self pm action error)

/-- Firing of the renewal source `src`: delivery to `_renew_mapping_timeout` with
`user_data` the address of a `struct ProxyMapping`; the main loop destroys the source
when the callback returns `FALSE`.  `none` when a pointer dangles. -/
def run_renew_mapping_timeout (self : FsUpnpSimpleIgd) (src : Nat) (user_data : Nat) :
    Option FsUpnpSimpleIgd :=
  match find_proxymapping self user_data with
  | none => none
  | some pm =>
    match find_proxy self pm.proxy with
    | none => none
    | some prox =>
      let r := _renew_mapping_timeout self prox pm
      some (if r.2 then r.1 else g_source_destroy r.1 src)

/-- The first `n` firings of the renewal source `src` of the `ProxyMapping` at
`user_data`, one after the other. -/
def renewals (src user_data : Nat) : Nat → FsUpnpSimpleIgd → Option FsUpnpSimpleIgd
  | 0, self => some self
  | n + 1, self =>
    match run_renew_mapping_timeout self src user_data with
    | none => none
    | some self => renewals src user_data n self

/-- The time, in seconds after it was attached, at which the main loop dispatches a
timeout source of the given interval for the `k`-th time, as long as its callback
returns `TRUE`. -/
def g_timeout_due (interval k : Nat) : Nat := k * interval

/-! ## Scenarios -/

/-- The scenario of the specification: `add_port ("UDP", 5000, "10.0.0.5", 5000, 3600,
"voip")` on a new instance, then a device appears. -/
def scenario_device : FsUpnpSimpleIgd :=
  _cp_service_avail
    (fs_upnp_simple_igd_add_port_real fs_upnp_simple_igd_init (some "UDP") 5000
      (some "10.0.0.5") 5000 3600 (some "voip"))
    ⟨"uuid:igd-a"⟩

/-- The scenario continued: the device reports the external address `203.0.113.4` while
the request is in flight. -/
def scenario_ip : FsUpnpSimpleIgd :=
  match run_external_ip_address_changed scenario_device 1 "203.0.113.4" with
  | some self => self
  | none => scenario_device

/-- The mapping of the scenario. -/
def scenario_mapping : Mapping :=
  { addr := 0, protocol := "UDP", external_port := 5000, local_ip := "10.0.0.5",
    local_port := 5000, lease_duration := 3600, description := "voip" }

/-- The `ProxyMapping` of the scenario while its request is in flight. -/
def scenario_pm : ProxyMapping :=
  { addr := 3, proxy := 1, mapping := scenario_mapping, action := some 4,
    timeout_src := some 5, mapped := false, renew_src := none }

/-- The scenario continued: the request succeeds, the `ProxyMapping` is mapped. -/
def scenario_mapped : FsUpnpSimpleIgd :=
  match run_added_port_mapping scenario_ip 4 3 none with
  | some self => self
  | none => scenario_ip

/-- The scenario continued: a second device appears; its request is in flight while the
`ProxyMapping` of the first device is mapped. -/
def scenario_two_devices : FsUpnpSimpleIgd :=
  _cp_service_avail scenario_mapped ⟨"uuid:igd-b"⟩

/-- Two mappings, `("UDP", 5000)` then `("TCP", 80)`, added to a new instance before a
device appears: the `ProxyMapping` of the first is at index 0 of the array of the
device. -/
def scenario_two_mappings : FsUpnpSimpleIgd :=
  _cp_service_avail
    (fs_upnp_simple_igd_add_port_real
      (fs_upnp_simple_igd_add_port_real fs_upnp_simple_igd_init (some "UDP") 5000
        (some "10.0.0.5") 5000 3600 (some "voip"))
      (some "TCP") 80 (some "10.0.0.5") 8080 600 none)
    ⟨"uuid:igd-a"⟩

/-- The `ProxyMapping` of the scenario once it is mapped. -/
def scenario_pm_mapped : ProxyMapping :=
  { addr := 3, proxy := 1, mapping := scenario_mapping, action := none,
    timeout_src := none, mapped := true, renew_src := some 6 }

/-- The proxy of the scenario once its `ProxyMapping` is mapped: the external address
is cached and `GetExternalIPAddress` still pending. -/
def scenario_proxy_mapped : Proxy :=
  { addr := 1, proxy := ⟨"uuid:igd-a"⟩, external_ip := some "203.0.113.4",
    external_ip_action := some 2, proxymappings := [scenario_pm_mapped] }

/-- The proxy of the scenario while the request is in flight and no external address is
cached. -/
def scenario_proxy : Proxy :=
  { addr := 1, proxy := ⟨"uuid:igd-a"⟩, external_ip := none,
    external_ip_action := some 2, proxymappings := [scenario_pm] }

/-- A mapping with a lease of 100 seconds added to a new instance, a device appearing and
the request succeeding: the `ProxyMapping` at 3 is mapped, its renewal source is 6. -/
def scenario_lease : FsUpnpSimpleIgd :=
  match run_added_port_mapping
      (_cp_service_avail
        (fs_upnp_simple_igd_add_port_real fs_upnp_simple_igd_init (some "UDP") 6000
          (some "10.0.0.5") 6000 100 (some "game"))
        ⟨"uuid:igd-a"⟩) 4 3 none with
  | some self => self
  | none => fs_upnp_simple_igd_init

/-- The mapped `ProxyMapping` of the scenario with a lease of 100 seconds. -/
def scenario_lease_pm : ProxyMapping :=
  { addr := 3, proxy := 1,
    mapping := ⟨0, "UDP", 6000, "10.0.0.5", 6000, 100, "game"⟩,
    action := none, timeout_src := none, mapped := true, renew_src := some 6 }

/-- The scenario of two devices and one mapping: a second device appears while the
request of the first is in flight; the `ProxyMapping`s are at 3 (action 4, timeout 5) and
at 8 (action 9, timeout 10). -/
def scenario_two_requesting : FsUpnpSimpleIgd :=
  _cp_service_avail scenario_device ⟨"uuid:igd-b"⟩

/-- The scenario of two devices continued: the request of the first device fails. -/
def scenario_failed : FsUpnpSimpleIgd :=
  match run_added_port_mapping scenario_two_requesting 4 3
      (some ⟨"upnp", 718, "ConflictInMappingEntry"⟩) with
  | some self => self
  | none => scenario_two_requesting

/-- Two valid `add_port` calls with the key `("UDP", 5000)` on a new instance, the second
with another local port. -/
def scenario_duplicate : FsUpnpSimpleIgd :=
  fs_upnp_simple_igd_add_port_real
    (fs_upnp_simple_igd_add_port_real fs_upnp_simple_igd_init (some "UDP") 5000
      (some "10.0.0.5") 5000 3600 (some "voip"))
    (some "UDP") 5000 (some "10.0.0.5") 5001 3600 (some "voip")

/-- A mapping with a lease of one second added to a new instance, then a device appears:
the `ProxyMapping` is at 3, its request is the action 4 and its timeout the source 5. -/
def scenario_lease_one : FsUpnpSimpleIgd :=
  _cp_service_avail
    (fs_upnp_simple_igd_add_port_real fs_upnp_simple_igd_init (some "UDP") 7000
      (some "10.0.0.5") 7000 1 (some "probe"))
    ⟨"uuid:igd-a"⟩

/-- The `ProxyMapping` of the scenario with a lease of one second while its request is in
flight. -/
def scenario_lease_one_pm : ProxyMapping :=
  { addr := 3, proxy := 1,
    mapping := ⟨0, "UDP", 7000, "10.0.0.5", 7000, 1, "probe"⟩,
    action := some 4, timeout_src := some 5, mapped := false, renew_src := none }
/-! ## Vocabulary of the statements -/

/-- All the `struct ProxyMapping`s of a list of proxies. -/
def all_proxymappings (proxies : List Proxy) : List ProxyMapping :=
  (proxies.map (fun prox => prox.proxymappings)).flatten

/-- No `ProxyMapping` of `pms` referencing `mapping` holds the source `id`, as timeout or
as renewal. -/
def source_kept (mapping : Mapping) (pms : List ProxyMapping) (id : Nat) : Prop :=
  ∀ pm ∈ pms, pm.mapping.addr = mapping.addr →
    pm.timeout_src ≠ some id ∧ pm.renew_src ≠ some id

instance (mapping : Mapping) (pms : List ProxyMapping) (id : Nat) :
    Decidable (source_kept mapping pms id) := by
  unfold source_kept
  infer_instance

/-- No `ProxyMapping` of `pms` referencing `mapping` holds the action `id`. -/
def action_kept (mapping : Mapping) (pms : List ProxyMapping) (id : Nat) : Prop :=
  ∀ pm ∈ pms, pm.mapping.addr = mapping.addr → pm.action ≠ some id

instance (mapping : Mapping) (pms : List ProxyMapping) (id : Nat) :
    Decidable (action_kept mapping pms id) := by
  unfold action_kept
  infer_instance

/-- The `DeletePortMapping` calls on one proxy: one for each of its `ProxyMapping`s that
references `mapping` and is mapped. -/
def removed_calls (mapping : Mapping) (prox : Proxy) : List Effect :=
  List.replicate
    (prox.proxymappings.countP (fun pm => decide (pm.mapping.addr = mapping.addr) && pm.mapped))
    (Effect.call prox.proxy
      (Rpc.DeletePortMapping "" mapping.external_port mapping.protocol))

/-- What the loops of `fs_upnp_simple_igd_remove_port_real` over `proxies` do to the
collaborators, from `s` to `t`; the actions in flight afterwards are those from before
that no removed `ProxyMapping` holds, in their order, followed by `DeletePortMapping`
actions begun by the loops. -/
structure RemoveEffect (mapping : Mapping) (proxies : List Proxy)
    (s t : FsUpnpSimpleIgd) : Prop where
  log : t.log = s.log ++ (proxies.map (removed_calls mapping)).flatten
  sources : t.sources =
    s.sources.filter (fun x => decide (source_kept mapping (all_proxymappings proxies) x.id))
  actions : ∀ x ∈ t.actions,
    (x ∈ s.actions ∧ action_kept mapping (all_proxymappings proxies) x.id) ∨
    (x.rpc = Rpc.DeletePortMapping "" mapping.external_port mapping.protocol ∧
      s.next ≤ x.id)
  quiet : (∀ pm ∈ all_proxymappings proxies, pm.mapping.addr = mapping.addr →
      pm.mapped = false) →
    t.actions =
      s.actions.filter (fun x => decide (action_kept mapping (all_proxymappings proxies) x.id)) ∧
    t.next = s.next
  next_le : s.next ≤ t.next
  mappings : t.mappings = s.mappings
  request_timeout : t.request_timeout = s.request_timeout
  notifies : t.notifies = s.notifies
  criticals : t.criticals = s.criticals
  actions_eq : ∃ new,
    t.actions =
      s.actions.filter
        (fun x => decide (action_kept mapping (all_proxymappings proxies) x.id)) ++ new ∧
    ∀ x ∈ new,
      x.rpc = Rpc.DeletePortMapping "" mapping.external_port mapping.protocol ∧
      s.next ≤ x.id

/-- The call `AddPortMapping` for a mapping: `NewRemoteHost` empty, the external port, the
protocol, the local port as `NewInternalPort`, the local address as `NewInternalClient`,
`NewEnabled` true, the description and the lease duration. -/
def add_port_mapping_rpc (mapping : Mapping) : Rpc :=
  Rpc.AddPortMapping "" mapping.external_port mapping.protocol mapping.local_port
    mapping.local_ip true mapping.description mapping.lease_duration

/-- A `ProxyMapping` allocated at `addr` whose request is in flight: action `addr + 1`,
timeout source `addr + 2`, not mapped, no renewal source. -/
def requesting (addr proxy : Nat) (mapping : Mapping) : ProxyMapping :=
  { addr := addr, proxy := proxy, mapping := mapping, action := some (addr + 1),
    timeout_src := some (addr + 2), mapped := false, renew_src := none }

/-- The action of the request of the `ProxyMapping` allocated at `addr`. -/
def request_action (addr : Nat) (proxy : GUPnPServiceProxy) (mapping : Mapping) : Action :=
  { id := addr + 1, proxy := proxy, rpc := add_port_mapping_rpc mapping,
    callback := Callback._service_proxy_added_port_mapping, user_data := UserData.pm addr }

/-- The one-shot timeout source of the request of the `ProxyMapping` allocated at
`addr`. -/
def request_timeout_source (addr interval : Nat) : GSource :=
  { id := addr + 2, interval := interval,
    func := SourceFunc._service_proxy_add_mapping_timeout, user_data := UserData.pm addr }

/-- The `mapped-external-port` signals for a new external address `ip` of a proxy whose
cached address was `prev`: one for each mapped `ProxyMapping` of `pms`, in order, none for
the others. -/
def mapped_events (ip : String) (prev : Option String) (pms : List ProxyMapping) :
    List Effect :=
  (pms.filter (fun pm => pm.mapped)).map (fun pm =>
    Effect.emit (Signal.mapped_external_port pm.mapping.protocol ip prev
      pm.mapping.external_port pm.mapping.local_ip pm.mapping.local_port
      pm.mapping.description))

/-- The identity key of a mapping: protocol and external port. -/
def mapping_key (mapping : Mapping) : String × Nat :=
  (mapping.protocol, mapping.external_port)

/-- The states the instance can reach: from the new instance by valid `add_port` calls,
`remove_port` calls on keys that are in the registry (the arrays have a `guint` length),
devices appearing and disappearing, and the delivery of the callbacks of actions, of
sources and of the notification to objects that exist. -/
inductive Reachable : FsUpnpSimpleIgd → Prop where
  | init : Reachable fs_upnp_simple_igd_init
  | add_port (s : FsUpnpSimpleIgd) (protocol local_ip : String)
      (external_port local_port lease_duration : Nat) (description : Option String) :
      Reachable s → (protocol = "UDP" ∨ protocol = "TCP") →
      Reachable (fs_upnp_simple_igd_add_port_real s (some protocol) external_port
        (some local_ip) local_port lease_duration description)
  | remove_port (s t : FsUpnpSimpleIgd) (protocol : String) (external_port : Nat)
      (mapping0 : Option Mapping) :
      Reachable s →
      (∃ m ∈ s.mappings, m.external_port = external_port ∧ m.protocol = protocol) →
      (∀ prox ∈ s.service_proxies, prox.proxymappings.length < 2 ^ 32) →
      fs_upnp_simple_igd_remove_port_real s (some protocol) external_port mapping0 =
        some t →
      Reachable t
  | device_available (s : FsUpnpSimpleIgd) (proxy : GUPnPServiceProxy) :
      Reachable s → Reachable (_cp_service_avail s proxy)
  | device_unavailable (s : FsUpnpSimpleIgd) (proxy : GUPnPServiceProxy) :
      Reachable s → Reachable (_cp_service_unavail s proxy)
  | added_port_mapping (s t : FsUpnpSimpleIgd) (action user_data : Nat)
      (error : Option GError) :
      Reachable s → run_added_port_mapping s action user_data error = some t →
      Reachable t
  | add_mapping_timeout (s t : FsUpnpSimpleIgd) (user_data : Nat) :
      Reachable s → run_add_mapping_timeout s user_data = some t → Reachable t
  | renew_mapping_timeout (s t : FsUpnpSimpleIgd) (src user_data : Nat) :
      Reachable s → run_renew_mapping_timeout s src user_data = some t → Reachable t
  | renewed_port_mapping (s t : FsUpnpSimpleIgd) (action user_data : Nat)
      (error : Option GError) :
      Reachable s → run_renewed_port_mapping s action user_data error = some t →
      Reachable t
  | got_external_ip_address (s t : FsUpnpSimpleIgd) (action user_data : Nat)
      (result : Except GError String) (pm : ProxyMapping) :
      Reachable s → run_got_external_ip_address s action user_data result pm = some t →
      Reachable t
  | external_ip_address_changed (s t : FsUpnpSimpleIgd) (user_data : Nat)
      (new_ip : String) :
      Reachable s → run_external_ip_address_changed s user_data new_ip = some t →
      Reachable t

/-- The consistency of the objects of a state: the mappings of the registry, the proxies
and the `ProxyMapping`s are at pairwise different addresses allocated before; the
mappings referenced by the `ProxyMapping`s of each proxy are, up to their order, the
mappings of the registry, each once; each `ProxyMapping` names the proxy that owns
it. -/
structure Consistent (s : FsUpnpSimpleIgd) : Prop where
  mappings_nodup : (s.mappings.map (fun m => m.addr)).Nodup
  mappings_fresh : ∀ m ∈ s.mappings, m.addr < s.next
  proxies_nodup : (s.service_proxies.map (fun prox => prox.addr)).Nodup
  proxies_fresh : ∀ prox ∈ s.service_proxies, prox.addr < s.next
  pms_nodup : ((all_proxymappings s.service_proxies).map (fun pm => pm.addr)).Nodup
  pms_fresh : ∀ pm ∈ all_proxymappings s.service_proxies, pm.addr < s.next
  referenced : ∀ prox ∈ s.service_proxies,
    List.Perm (prox.proxymappings.map (fun pm => pm.mapping)) s.mappings
  owner : ∀ prox ∈ s.service_proxies, ∀ pm ∈ prox.proxymappings, pm.proxy = prox.addr

/-- What the consistency of a state depends on in its proxies: the address of each proxy
and, for each of its `ProxyMapping`s, the address, the owner and the mapping. -/
def skeleton (proxies : List Proxy) : List (Nat × List (Nat × Nat × Mapping)) :=
  proxies.map (fun prox =>
    (prox.addr, prox.proxymappings.map (fun pm => (pm.addr, pm.proxy, pm.mapping))))

/-- What the removal of the mapping `m` does to one proxy: its fields stay, and its
`ProxyMapping`s are, up to their order, those that do not reference `m`. -/
def RemovedFrom (m : Mapping) (prox prox' : Proxy) : Prop :=
  ∃ pms', prox' = { prox with proxymappings := pms' } ∧
    List.Perm pms' (prox.proxymappings.filter (fun pm => decide (pm.mapping.addr ≠ m.addr)))
/-! ## Lemmas on the resolution of pointers -/

theorem proxymappings_store (self : FsUpnpSimpleIgd) (pm : ProxyMapping) :
    proxymappings (store_proxymapping self pm) =
      (proxymappings self).map (fun q => if q.addr = pm.addr then pm else q) := by
  unfold proxymappings store_proxymapping
  simp only [List.map_map, List.map_flatten]
  rfl

theorem find_store_proxymapping (self : FsUpnpSimpleIgd) (pm q : ProxyMapping)
    (h : find_proxymapping self pm.addr = some q) :
    find_proxymapping (store_proxymapping self pm) pm.addr = some pm := by
  unfold find_proxymapping at *
  rw [proxymappings_store, List.find?_map]
  have : ((fun r : ProxyMapping => decide (r.addr = pm.addr)) ∘
      fun r => if r.addr = pm.addr then pm else r) = fun r => decide (r.addr = pm.addr) := by
    funext r
    by_cases hr : r.addr = pm.addr <;> simp [hr]
  rw [this, h]
  have hq : q.addr = pm.addr := by simpa using List.find?_some h
  simp [hq]

theorem find_proxymapping_addr (self : FsUpnpSimpleIgd) (p : Nat) (pm : ProxyMapping)
    (h : find_proxymapping self p = some pm) : pm.addr = p := by
  unfold find_proxymapping at h
  simpa using List.find?_some h

/-! ## Completion of the request -/

theorem added_port_mapping_ok (self : FsUpnpSimpleIgd) (prox : Proxy) (pm : ProxyMapping)
    (a t : Nat) (ha : pm.action = some a) (ht : pm.timeout_src = some t) :
    _service_proxy_added_port_mapping self prox pm a none =
      ({ self with
          sources := (self.sources ++ [GSource.mk self.next (pm.mapping.lease_duration / 2)
            SourceFunc._renew_mapping_timeout (UserData.pm pm.addr)]).filter
              (fun s => s.id ≠ t)
          actions := self.actions.filter (fun x => x.id ≠ a)
          log := self.log ++
            (match prox.external_ip with
             | some ip => [Effect.emit (Signal.mapped_external_port pm.mapping.protocol ip
                 none pm.mapping.external_port pm.mapping.local_ip pm.mapping.local_port
                 pm.mapping.description)]
             | none => [])
          next := self.next + 1 },
       { pm with action := none, timeout_src := none, mapped := true,
                 renew_src := some self.next }) := by
  unfold _service_proxy_added_port_mapping
  cases prox.external_ip <;>
    simp [ha, ht, stop_proxymapping, g_source_destroy, g_timeout_source_attach,
      g_signal_emit, gupnp_service_proxy_end_action]

/-- C1: when the completion of the `AddPortMapping` of a `ProxyMapping` whose action is
in flight and whose timeout is armed reports success, the `ProxyMapping` becomes mapped
with no action and no timeout, the timeout source is destroyed, a source calling
`_renew_mapping_timeout` every `lease_duration / 2` seconds is attached, and
`mapped-external-port` (protocol, cached address, no replaced address, external port,
local address, local port, description) is emitted once when the device has a cached
external address and not at all when it has none. -/
theorem added_port_mapping_success (self : FsUpnpSimpleIgd) (p a t : Nat)
    (pm : ProxyMapping) (prox : Proxy)
    (hpm : find_proxymapping self p = some pm)
    (hprox : find_proxy self pm.proxy = some prox)
    (ha : pm.action = some a) (ht : pm.timeout_src = some t) (hfresh : t < self.next) :
    ∃ self', run_added_port_mapping self a p none = some self' ∧
      find_proxymapping self' p = some { pm with
          action := none, timeout_src := none, mapped := true,
          renew_src := some self.next } ∧
      self'.sources = self.sources.filter (fun s => s.id ≠ t) ++
        [GSource.mk self.next (pm.mapping.lease_duration / 2)
          SourceFunc._renew_mapping_timeout (UserData.pm p)] ∧
      (∀ s ∈ self'.sources, s.id ≠ t) ∧
      self'.actions = self.actions.filter (fun x => x.id ≠ a) ∧
      (∀ ip, prox.external_ip = some ip →
        self'.log = self.log ++ [Effect.emit (Signal.mapped_external_port
          pm.mapping.protocol ip none pm.mapping.external_port pm.mapping.local_ip
          pm.mapping.local_port pm.mapping.description)]) ∧
      (prox.external_ip = none → self'.log = self.log) := by
  have hp : pm.addr = p := find_proxymapping_addr self p pm hpm
  subst hp
  have hne : self.next ≠ t := by omega
  refine ⟨_, by simp only [run_added_port_mapping, hpm, hprox]; rfl, ?_, ?_, ?_, ?_, ?_, ?_⟩
  · rw [added_port_mapping_ok self prox pm a t ha ht]
    exact find_store_proxymapping _ _ pm hpm
  · rw [added_port_mapping_ok self prox pm a t ha ht]
    simp [store_proxymapping, List.filter_append, hne]
  · rw [added_port_mapping_ok self prox pm a t ha ht]
    intro s hs
    simp only [store_proxymapping, List.mem_filter] at hs
    simpa using hs.2
  · rw [added_port_mapping_ok self prox pm a t ha ht]
    rfl
  · intro ip hip
    rw [added_port_mapping_ok self prox pm a t ha ht, hip]
    rfl
  · intro hip
    rw [added_port_mapping_ok self prox pm a t ha ht, hip]
    simp [store_proxymapping]

/-- The scenario of the specification for C1: the success of the request for
`("UDP", 5000, "10.0.0.5", 5000, 3600, "voip")` on a device whose cached external address
is `203.0.113.4` emits `mapped-external-port` with these values and attaches the renewal
source with an interval of 1800 seconds. -/
theorem added_port_mapping_success_witness :
    ∃ self', run_added_port_mapping scenario_ip 4 3 none = some self' ∧
      find_proxymapping self' 3 = some { scenario_pm with
          action := none, timeout_src := none, mapped := true, renew_src := some 6 } ∧
      self'.sources = [GSource.mk 6 1800 SourceFunc._renew_mapping_timeout (UserData.pm 3)] ∧
      self'.log = scenario_ip.log ++ [Effect.emit (Signal.mapped_external_port
          "UDP" "203.0.113.4" none 5000 "10.0.0.5" 5000 "voip")] := by
  obtain ⟨self', h1, h2, h3, _, _, h6, _⟩ :=
    added_port_mapping_success scenario_ip 3 4 5 scenario_pm
      ⟨1, ⟨"uuid:igd-a"⟩, some "203.0.113.4", some 2, [scenario_pm]⟩
      (by decide) (by decide) rfl rfl (by decide)
  exact ⟨self', h1, h2, h3, h6 "203.0.113.4" rfl⟩


theorem find_proxymapping_congr (s s' : FsUpnpSimpleIgd) (p : Nat)
    (h : s'.service_proxies = s.service_proxies) :
    find_proxymapping s' p = find_proxymapping s p := by
  unfold find_proxymapping proxymappings
  rw [h]

theorem stop_proxymapping_service_proxies (self : FsUpnpSimpleIgd) (pm : ProxyMapping) :
    (stop_proxymapping self pm).1.service_proxies = self.service_proxies := by
  unfold stop_proxymapping
  cases pm.action <;> cases pm.timeout_src <;> rfl

theorem add_mapping_timeout_service_proxies (self : FsUpnpSimpleIgd) (pm : ProxyMapping) :
    (_service_proxy_add_mapping_timeout self pm).1.service_proxies =
      self.service_proxies :=
  stop_proxymapping_service_proxies self pm

theorem find_proxy_store_proxymapping (self : FsUpnpSimpleIgd) (pm : ProxyMapping)
    (x : Nat) (prox : Proxy) (h : find_proxy self x = some prox) :
    ∃ prox', find_proxy (store_proxymapping self pm) x = some prox' := by
  unfold find_proxy at *
  simp only [store_proxymapping, List.find?_map]
  have : ((fun q : Proxy => decide (q.addr = x)) ∘ fun q : Proxy =>
      Proxy.mk q.addr q.proxy q.external_ip q.external_ip_action
        (q.proxymappings.map (fun r => if r.addr = pm.addr then pm else r))) =
      fun q => decide (q.addr = x) := by
    funext q
    rfl
  rw [this, h]
  exact ⟨_, rfl⟩

theorem store_proxymapping_idem (self : FsUpnpSimpleIgd) (pm : ProxyMapping) :
    store_proxymapping (store_proxymapping self pm) pm = store_proxymapping self pm := by
  simp only [store_proxymapping, List.map_map]
  congr 1
  apply List.map_congr_left
  intro prox _
  simp only [Function.comp, List.map_map]
  congr 1
  apply List.map_congr_left
  intro q _
  by_cases hq : q.addr = pm.addr <;> simp [hq]

theorem added_port_mapping_failed (self : FsUpnpSimpleIgd) (prox : Proxy)
    (pm : ProxyMapping) (a t : Nat) (error : GError)
    (ha : pm.action = some a) (ht : pm.timeout_src = some t) :
    _service_proxy_added_port_mapping self prox pm a (some error) =
      ({ self with
          sources := self.sources.filter (fun s => s.id ≠ t)
          actions := self.actions.filter (fun x => x.id ≠ a)
          log := self.log ++ [Effect.emit (Signal.error_mapping_port error
            pm.mapping.protocol pm.mapping.external_port pm.mapping.description)] },
       { pm with action := none, timeout_src := none }) := by
  simp [_service_proxy_added_port_mapping, ha, ht, stop_proxymapping, g_source_destroy,
    g_signal_emit, gupnp_service_proxy_end_action]

theorem add_mapping_timeout_fired (self : FsUpnpSimpleIgd) (pm : ProxyMapping)
    (a t : Nat) (ha : pm.action = some a) (ht : pm.timeout_src = some t) :
    _service_proxy_add_mapping_timeout self pm =
      ({ self with
          sources := self.sources.filter (fun s => s.id ≠ t)
          actions := self.actions.filter (fun x => x.id ≠ a)
          log := self.log ++ [Effect.emit (Signal.error_mapping_port
            ⟨FS_UPNP_SIMPLE_IGD_ERROR, FS_UPNP_SIMPLE_IGD_ERROR_TIMEOUT,
              "Timeout while mapping port"⟩
            pm.mapping.protocol pm.mapping.external_port pm.mapping.description)] },
       { pm with action := none, timeout_src := none }) := by
  simp [_service_proxy_add_mapping_timeout, ha, ht, stop_proxymapping, g_source_destroy,
    g_signal_emit, gupnp_service_proxy_cancel_action]

/-- C2: for a `ProxyMapping` in the requesting state (action in flight, timeout armed,
not mapped, no renewal source), a failed completion of its `AddPortMapping` and the
firing of its request timeout each emit exactly one `error-mapping-port` with the
protocol, external port and description of the mapping, carrying the error of the action
for a failure and the error of the domain of this object with the code of the timeout
for a timeout; afterwards the `ProxyMapping` has no action, no timeout source, no renewal
source and is not mapped, the action is not in flight and the timeout source not
attached, and nothing else is logged: no `AddPortMapping` is begun again. -/
theorem add_port_mapping_failure (self : FsUpnpSimpleIgd) (p a t : Nat)
    (pm : ProxyMapping) (prox : Proxy) (error : GError)
    (hpm : find_proxymapping self p = some pm)
    (hprox : find_proxy self pm.proxy = some prox)
    (ha : pm.action = some a) (ht : pm.timeout_src = some t)
    (hm : pm.mapped = false) (hr : pm.renew_src = none) :
    (∃ self', run_added_port_mapping self a p (some error) = some self' ∧
      self'.log = self.log ++ [Effect.emit (Signal.error_mapping_port error
        pm.mapping.protocol pm.mapping.external_port pm.mapping.description)] ∧
      find_proxymapping self' p = some
        { addr := p, proxy := pm.proxy, mapping := pm.mapping, action := none,
          timeout_src := none, mapped := false, renew_src := none } ∧
      self'.actions = self.actions.filter (fun x => x.id ≠ a) ∧
      self'.sources = self.sources.filter (fun s => s.id ≠ t)) ∧
    (∃ self', run_add_mapping_timeout self p = some self' ∧
      self'.log = self.log ++ [Effect.emit (Signal.error_mapping_port
        ⟨FS_UPNP_SIMPLE_IGD_ERROR, FS_UPNP_SIMPLE_IGD_ERROR_TIMEOUT,
          "Timeout while mapping port"⟩
        pm.mapping.protocol pm.mapping.external_port pm.mapping.description)] ∧
      find_proxymapping self' p = some
        { addr := p, proxy := pm.proxy, mapping := pm.mapping, action := none,
          timeout_src := none, mapped := false, renew_src := none } ∧
      self'.actions = self.actions.filter (fun x => x.id ≠ a) ∧
      self'.sources = self.sources.filter (fun s => s.id ≠ t)) := by
  have hp : pm.addr = p := find_proxymapping_addr self p pm hpm
  subst hp
  have hpm' : ({ pm with action := none, timeout_src := none } : ProxyMapping) =
      { addr := pm.addr, proxy := pm.proxy, mapping := pm.mapping, action := none,
        timeout_src := none, mapped := false, renew_src := none } := by
    rw [← hm, ← hr]
  constructor
  · refine ⟨_, by simp only [run_added_port_mapping, hpm, hprox]; rfl, ?_, ?_, ?_, ?_⟩
    · rw [added_port_mapping_failed self prox pm a t error ha ht]; rfl
    · rw [added_port_mapping_failed self prox pm a t error ha ht, ← hpm']
      exact find_store_proxymapping _ _ pm hpm
    · rw [added_port_mapping_failed self prox pm a t error ha ht]; rfl
    · rw [added_port_mapping_failed self prox pm a t error ha ht]; rfl
  · refine ⟨_, by simp only [run_add_mapping_timeout, hpm]; rfl, ?_, ?_, ?_, ?_⟩
    · rw [add_mapping_timeout_fired self pm a t ha ht]; rfl
    · rw [add_mapping_timeout_fired self pm a t ha ht, ← hpm']
      exact find_store_proxymapping _ _ pm hpm
    · rw [add_mapping_timeout_fired self pm a t ha ht]; rfl
    · rw [add_mapping_timeout_fired self pm a t ha ht]; rfl

/-- C3: once the request timeout of a `ProxyMapping` has fired, a completion of an
`AddPortMapping` delivered for it, for any action handle and with success or failure, is
refused by the check `pm->action == action`: the proxies with all their `ProxyMapping`s,
the sources, the actions in flight and the log of signals and calls are unchanged, so no
renewal source is attached and neither `mapped-external-port` nor a second
`error-mapping-port` is emitted; only the failed check is recorded. -/
theorem late_completion_ignored (self : FsUpnpSimpleIgd) (p : Nat)
    (pm : ProxyMapping) (prox : Proxy)
    (hpm : find_proxymapping self p = some pm)
    (hprox : find_proxy self pm.proxy = some prox) :
    ∃ fired, run_add_mapping_timeout self p = some fired ∧
      ∀ (action : Nat) (error : Option GError),
        run_added_port_mapping fired action p error =
          some { fired with criticals := fired.criticals ++ ["pm->action == action"] } := by
  have hp : pm.addr = p := find_proxymapping_addr self p pm hpm
  subst hp
  refine ⟨_, by simp only [run_add_mapping_timeout, hpm]; rfl, ?_⟩
  intro action error
  have hsp := add_mapping_timeout_service_proxies self pm
  have hpm1 : find_proxymapping
      (store_proxymapping (_service_proxy_add_mapping_timeout self pm).1
        (_service_proxy_add_mapping_timeout self pm).2) pm.addr =
      some (_service_proxy_add_mapping_timeout self pm).2 :=
    find_store_proxymapping _ (_service_proxy_add_mapping_timeout self pm).2 pm
      (by rw [find_proxymapping_congr self _ _ hsp]; exact hpm)
  obtain ⟨prox', hprox'⟩ := find_proxy_store_proxymapping
    (_service_proxy_add_mapping_timeout self pm).1
    (_service_proxy_add_mapping_timeout self pm).2 pm.proxy prox
    (by unfold find_proxy at hprox ⊢; rw [hsp]; exact hprox)
  have hproxy : (_service_proxy_add_mapping_timeout self pm).2.proxy = pm.proxy := rfl
  have hact : (_service_proxy_add_mapping_timeout self pm).2.action = none := rfl
  simp only [run_added_port_mapping, hpm1, hproxy, hprox',
    _service_proxy_added_port_mapping, hact]
  simp only [reduceCtorEq, if_false]
  have := store_proxymapping_idem (_service_proxy_add_mapping_timeout self pm).1
    (_service_proxy_add_mapping_timeout self pm).2
  generalize (_service_proxy_add_mapping_timeout self pm).1 = s1 at this ⊢
  generalize (_service_proxy_add_mapping_timeout self pm).2 = pm1 at this ⊢
  have h2 : store_proxymapping (g_critical (store_proxymapping s1 pm1)
      "pm->action == action") pm1 =
      g_critical (store_proxymapping (store_proxymapping s1 pm1) pm1)
        "pm->action == action" := rfl
  rw [h2, this]
  rfl

/-- The scenario for C2: on the device of the scenario, a failure of the request with the
error 718 of the gateway, or the timeout, emits one `error-mapping-port` for
`("UDP", 5000, "voip")`. -/
theorem add_port_mapping_failure_witness :
    (∃ self', run_added_port_mapping scenario_device 4 3
        (some ⟨"gupnp-control-error", 718, "ConflictInMappingEntry"⟩) = some self' ∧
      self'.log = scenario_device.log ++ [Effect.emit (Signal.error_mapping_port
        ⟨"gupnp-control-error", 718, "ConflictInMappingEntry"⟩ "UDP" 5000 "voip")]) ∧
    (∃ self', run_add_mapping_timeout scenario_device 3 = some self' ∧
      self'.log = scenario_device.log ++ [Effect.emit (Signal.error_mapping_port
        ⟨"fs-upnp-simple-igd-error", 0, "Timeout while mapping port"⟩ "UDP" 5000 "voip")]) := by
  obtain ⟨⟨s1, h1, h2, _⟩, ⟨s2, k1, k2, _⟩⟩ :=
    add_port_mapping_failure scenario_device 3 4 5 scenario_pm
      ⟨1, ⟨"uuid:igd-a"⟩, none, some 2, [scenario_pm]⟩
      ⟨"gupnp-control-error", 718, "ConflictInMappingEntry"⟩
      (by decide) (by decide) rfl rfl rfl rfl
  exact ⟨⟨s1, h1, h2⟩, ⟨s2, k1, k2⟩⟩

/-- The scenario for C3: on the device of the scenario, after the timeout has fired every
completion delivered for the `ProxyMapping` is refused. -/
theorem late_completion_ignored_witness :
    ∃ fired, run_add_mapping_timeout scenario_device 3 = some fired ∧
      ∀ (action : Nat) (error : Option GError),
        run_added_port_mapping fired action 3 error =
          some { fired with criticals := fired.criticals ++ ["pm->action == action"] } :=
  late_completion_ignored scenario_device 3 scenario_pm
    ⟨1, ⟨"uuid:igd-a"⟩, none, some 2, [scenario_pm]⟩ (by decide) (by decide)

/-! ## Lemmas on `g_ptr_array_remove_index_fast` -/

theorem set_perm {α : Type} : ∀ (l : List α) (i : Nat) (x y : α),
    l[i]? = some x → List.Perm (x :: l.set i y) (y :: l)
  | [], i, x, y, h => by simp at h
  | a :: l, 0, x, y, h => by
    simp at h
    subst h
    simpa using List.Perm.swap y a l
  | a :: l, i + 1, x, y, h => by
    simp at h
    have ih := set_perm l i x y h
    simp only [List.set_cons_succ]
    exact (List.Perm.swap a x _).trans (((ih.cons a)).trans (List.Perm.swap y a l))

theorem remove_index_fast_cases {α : Type} (l : List α) (i : Nat) (x : α)
    (h : l[i]? = some x) :
    ∃ ys last, l = ys ++ [last] ∧
      ((i = ys.length ∧ x = last ∧ g_ptr_array_remove_index_fast l i = ys) ∨
       (i < ys.length ∧ ys[i]? = some x ∧
          g_ptr_array_remove_index_fast l i = ys.set i last)) := by
  have hi : i < l.length := by
    by_contra hc
    rw [List.getElem?_eq_none (by omega)] at h
    cases h
  have hne : l ≠ [] := by
    intro hl
    subst hl
    simp at hi
  obtain ⟨last, hlast⟩ : ∃ last, l.getLast? = some last := by
    cases hl : l.getLast? with
    | none => simp at hl; exact absurd hl hne
    | some v => exact ⟨v, rfl⟩
  obtain ⟨ys, hys⟩ := List.getLast?_eq_some_iff.mp hlast
  refine ⟨ys, last, hys, ?_⟩
  unfold g_ptr_array_remove_index_fast
  rw [if_pos hi, hlast]
  subst hys
  simp only [List.length_append, List.length_singleton] at hi
  by_cases hlt : i < ys.length
  · right
    refine ⟨hlt, ?_, ?_⟩
    · rw [List.getElem?_append_left hlt] at h
      exact h
    · show ((ys ++ [last]).set i last).dropLast = ys.set i last
      rw [List.set_append_left _ _ hlt]
      simp
  · left
    have hie : i = ys.length := by omega
    subst hie
    refine ⟨rfl, ?_, ?_⟩
    · simpa using h.symm
    · show ((ys ++ [last]).set ys.length last).dropLast = ys
      simp

theorem remove_index_fast_perm {α : Type} (l : List α) (i : Nat) (x : α)
    (h : l[i]? = some x) : List.Perm (x :: g_ptr_array_remove_index_fast l i) l := by
  obtain ⟨ys, last, hl, hc⟩ := remove_index_fast_cases l i x h
  subst hl
  rcases hc with ⟨_, hx, hr⟩ | ⟨_, hx, hr⟩
  · rw [hr, hx]
    exact (List.perm_append_singleton last ys).symm
  · rw [hr]
    exact (set_perm ys i x last hx).trans (List.perm_append_singleton last ys).symm

theorem remove_index_fast_take {α : Type} (l : List α) (i : Nat) (x : α)
    (h : l[i]? = some x) : (g_ptr_array_remove_index_fast l i).take i = l.take i := by
  obtain ⟨ys, last, hl, hc⟩ := remove_index_fast_cases l i x h
  subst hl
  rcases hc with ⟨hi, _, hr⟩ | ⟨hi, _, hr⟩
  · rw [hr, hi]
    simp
  · rw [hr, List.take_append_of_le_length (by omega)]
    rw [List.set_take]
    exact List.set_eq_of_length_le (by simp)


/-! ## Removal of a mapping -/

theorem remove_port_stop_eq (self : FsUpnpSimpleIgd) (prox : Proxy) (m : Mapping)
    (pm : ProxyMapping) :
    remove_port_stop self prox m pm =
      { self with
        sources := self.sources.filter
          (fun s => decide (pm.timeout_src ≠ some s.id ∧ pm.renew_src ≠ some s.id))
        actions := self.actions.filter (fun x => decide (pm.action ≠ some x.id)) ++
          (if pm.mapped then
            [Action.mk self.next prox.proxy
              (Rpc.DeletePortMapping "" m.external_port m.protocol)
              Callback._service_proxy_delete_port_mapping UserData.self]
           else [])
        log := self.log ++
          (if pm.mapped then
            [Effect.call prox.proxy (Rpc.DeletePortMapping "" m.external_port m.protocol)]
           else [])
        next := self.next + (if pm.mapped then 1 else 0) } := by
  unfold remove_port_stop stop_proxymapping
  cases pm.action <;> cases pm.timeout_src <;> cases pm.renew_src <;> cases pm.mapped <;>
    simp [g_source_destroy, gupnp_service_proxy_cancel_action,
      gupnp_service_proxy_begin_action, List.filter_filter, eq_comm] <;>
    (congr 1; funext s; exact Bool.and_comm _ _)


theorem guint_inc_dec (j : Nat) (h : j < 2 ^ 32) : guint_inc (guint_dec j) = j := by
  unfold guint_inc guint_dec
  omega

theorem guint_inc_lt (j : Nat) (h : j + 1 < 2 ^ 32) : guint_inc j = j + 1 := by
  unfold guint_inc
  omega

theorem removeEffect_nil (m : Mapping) (s : FsUpnpSimpleIgd) : RemoveEffect m [] s s where
  log := by simp
  sources := by simp [all_proxymappings, source_kept]
  actions := fun x hx => Or.inl ⟨hx, by simp [all_proxymappings, action_kept]⟩
  quiet := fun _ => ⟨by simp [all_proxymappings, action_kept], rfl⟩
  next_le := Nat.le_refl _
  mappings := rfl
  request_timeout := rfl
  notifies := rfl
  criticals := rfl
  actions_eq := ⟨[], by simp [all_proxymappings, action_kept], by simp⟩

theorem all_proxymappings_cons (prox : Proxy) (rest : List Proxy) :
    all_proxymappings (prox :: rest) = prox.proxymappings ++ all_proxymappings rest := by
  simp [all_proxymappings]

/-- A proxy none of whose `ProxyMapping`s references the mapping contributes nothing. -/
theorem removeEffect_skip (m : Mapping) (prox : Proxy) (rest : List Proxy)
    (s t : FsUpnpSimpleIgd) (hno : ∀ pm ∈ prox.proxymappings, pm.mapping.addr ≠ m.addr)
    (h : RemoveEffect m rest s t) : RemoveEffect m (prox :: rest) s t := by
  have hsk : ∀ id, source_kept m (all_proxymappings (prox :: rest)) id ↔
      source_kept m (all_proxymappings rest) id := by
    intro id
    rw [all_proxymappings_cons]
    unfold source_kept
    constructor
    · intro h1 pm hpm
      exact h1 pm (List.mem_append_right _ hpm)
    · intro h1 pm hpm hm
      rcases List.mem_append.mp hpm with hp | hp
      · exact absurd hm (hno pm hp)
      · exact h1 pm hp hm
  have hak : ∀ id, action_kept m (all_proxymappings (prox :: rest)) id ↔
      action_kept m (all_proxymappings rest) id := by
    intro id
    rw [all_proxymappings_cons]
    unfold action_kept
    constructor
    · intro h1 pm hpm
      exact h1 pm (List.mem_append_right _ hpm)
    · intro h1 pm hpm hm
      rcases List.mem_append.mp hpm with hp | hp
      · exact absurd hm (hno pm hp)
      · exact h1 pm hp hm
  have hcalls : removed_calls m prox = [] := by
    unfold removed_calls
    have : prox.proxymappings.countP
        (fun pm => decide (pm.mapping.addr = m.addr) && pm.mapped) = 0 := by
      rw [List.countP_eq_zero]
      intro pm hpm
      simp [hno pm hpm]
    rw [this]
    rfl
  refine ⟨?_, ?_, ?_, ?_, h.next_le, h.mappings, h.request_timeout, h.notifies, h.criticals,
    ?_⟩
  · rw [h.log]
    simp [hcalls]
  · rw [h.sources]
    apply List.filter_congr
    intro x _
    exact (decide_eq_decide.mpr (hsk x.id)).symm
  · intro x hx
    rcases h.actions x hx with ⟨h1, h2⟩ | h1
    · exact Or.inl ⟨h1, (hak x.id).mpr h2⟩
    · exact Or.inr h1
  · intro hq
    have := h.quiet (fun pm hpm hm => hq pm (by
      rw [all_proxymappings_cons]; exact List.mem_append_right _ hpm) hm)
    refine ⟨?_, this.2⟩
    rw [this.1]
    apply List.filter_congr
    intro x _
    exact (decide_eq_decide.mpr (hak x.id)).symm
  · obtain ⟨new, h1, h2⟩ := h.actions_eq
    refine ⟨new, ?_, h2⟩
    rw [h1]
    congr 1
    apply List.filter_congr
    intro x _
    exact (decide_eq_decide.mpr (hak x.id)).symm

theorem mem_of_perm_cons (pms pms1 : List ProxyMapping) (pm : ProxyMapping)
    (hperm : List.Perm pms (pm :: pms1)) (rest : List ProxyMapping) (q : ProxyMapping) :
    q ∈ pms ++ rest ↔ q = pm ∨ q ∈ pms1 ++ rest := by
  simp only [List.mem_append, hperm.mem_iff, List.mem_cons]
  tauto

/-- One removed `ProxyMapping` followed by the effect on the remaining ones. -/
theorem removeEffect_step (m : Mapping) (p p1 : Proxy) (rest : List Proxy)
    (pm : ProxyMapping) (s t : FsUpnpSimpleIgd)
    (hproxy : p1.proxy = p.proxy) (hm : pm.mapping.addr = m.addr)
    (hperm : List.Perm p.proxymappings (pm :: p1.proxymappings))
    (h : RemoveEffect m (p1 :: rest) (remove_port_stop s p m pm) t) :
    RemoveEffect m (p :: rest) s t := by
  have hmem := mem_of_perm_cons p.proxymappings p1.proxymappings pm hperm
    (all_proxymappings rest)
  have hsk : ∀ id, source_kept m (all_proxymappings (p :: rest)) id ↔
      ((pm.timeout_src ≠ some id ∧ pm.renew_src ≠ some id) ∧
        source_kept m (all_proxymappings (p1 :: rest)) id) := by
    intro id
    simp only [all_proxymappings_cons, source_kept]
    constructor
    · intro h1
      exact ⟨h1 pm ((hmem pm).mpr (Or.inl rfl)) hm,
        fun q hq hqm => h1 q ((hmem q).mpr (Or.inr hq)) hqm⟩
    · intro h1 q hq hqm
      rcases (hmem q).mp hq with rfl | hq1
      · exact h1.1
      · exact h1.2 q hq1 hqm
  have hak : ∀ id, action_kept m (all_proxymappings (p :: rest)) id ↔
      (pm.action ≠ some id ∧ action_kept m (all_proxymappings (p1 :: rest)) id) := by
    intro id
    simp only [all_proxymappings_cons, action_kept]
    constructor
    · intro h1
      exact ⟨h1 pm ((hmem pm).mpr (Or.inl rfl)) hm,
        fun q hq hqm => h1 q ((hmem q).mpr (Or.inr hq)) hqm⟩
    · intro h1 q hq hqm
      rcases (hmem q).mp hq with rfl | hq1
      · exact h1.1
      · exact h1.2 q hq1 hqm
  have hcalls : removed_calls m p =
      (if pm.mapped then
        [Effect.call p.proxy (Rpc.DeletePortMapping "" m.external_port m.protocol)]
       else []) ++ removed_calls m p1 := by
    unfold removed_calls
    rw [hperm.countP_eq, List.countP_cons, hproxy]
    cases pm.mapped <;> simp [hm, List.replicate_succ]
  have hs1 := remove_port_stop_eq s p m pm
  refine ⟨?_, ?_, ?_, ?_, ?_, ?_, ?_, ?_, ?_, ?_⟩
  · rw [h.log, hs1]
    simp [hcalls]
  · rw [h.sources, hs1]
    simp only [List.filter_filter]
    apply List.filter_congr
    intro x _
    rw [← Bool.decide_and]
    exact decide_eq_decide.mpr ((hsk x.id).trans and_comm).symm
  · intro x hx
    rcases h.actions x hx with ⟨h1, h2⟩ | ⟨h1, h2⟩
    · rw [hs1] at h1
      simp only [List.mem_append, List.mem_filter, decide_eq_true_eq] at h1
      rcases h1 with ⟨h3, h4⟩ | h3
      · exact Or.inl ⟨h3, (hak x.id).mpr ⟨h4, h2⟩⟩
      · right
        cases hmp : pm.mapped
        · simp [hmp] at h3
        · simp only [hmp, if_true, List.mem_singleton] at h3
          subst h3
          exact ⟨rfl, Nat.le_refl _⟩
    · right
      refine ⟨h1, Nat.le_trans ?_ h2⟩
      rw [hs1]
      exact Nat.le_add_right _ _
  · intro hq
    have hpm : pm.mapped = false := hq pm (by
      rw [all_proxymappings_cons]; exact (hmem pm).mpr (Or.inl rfl)) hm
    have h2 := h.quiet (fun q hqm hqa => hq q (by
      rw [all_proxymappings_cons] at hqm ⊢; exact (hmem q).mpr (Or.inr hqm)) hqa)
    rw [hs1] at h2
    simp only [hpm, Bool.false_eq_true, if_false, List.append_nil, Nat.add_zero] at h2
    refine ⟨?_, h2.2⟩
    rw [h2.1, List.filter_filter]
    apply List.filter_congr
    intro x _
    rw [← Bool.decide_and]
    exact decide_eq_decide.mpr ((hak x.id).trans and_comm).symm
  · have := h.next_le
    rw [hs1] at this
    exact Nat.le_trans (Nat.le_add_right _ _) this
  · rw [h.mappings, hs1]
  · rw [h.request_timeout, hs1]
  · rw [h.notifies, hs1]
  · rw [h.criticals, hs1]
  · obtain ⟨new, h1, h2⟩ := h.actions_eq
    rw [hs1] at h1 h2
    simp only [List.filter_append, List.filter_filter, List.append_assoc] at h1
    refine ⟨(if pm.mapped then
        [Action.mk s.next p.proxy (Rpc.DeletePortMapping "" m.external_port m.protocol)
          Callback._service_proxy_delete_port_mapping UserData.self]
       else []).filter
        (fun x => decide (action_kept m (all_proxymappings (p1 :: rest)) x.id)) ++ new,
      ?_, ?_⟩
    · rw [h1]
      congr 1
      apply List.filter_congr
      intro x _
      rw [← Bool.decide_and]
      exact decide_eq_decide.mpr ((hak x.id).trans and_comm).symm
    · intro x hx
      rcases List.mem_append.mp hx with hx | hx
      · have hx1 := (List.mem_filter.mp hx).1
        cases hmp : pm.mapped
        · simp [hmp] at hx1
        · simp only [hmp, if_true, List.mem_singleton] at hx1
          subst hx1
          exact ⟨rfl, Nat.le_refl _⟩
      · exact ⟨(h2 x hx).1, Nat.le_trans (Nat.le_add_right _ _) (h2 x hx).2⟩

/-- The inner loop of the removal from index `j`, when no `ProxyMapping` before `j`
references the mapping: with fuel above the number of elements left it returns, the
`ProxyMapping`s kept are those that do not reference the mapping, and its effect followed
by the effect on the other proxies is the effect on all of them. -/
theorem remove_port_inner_spec (m : Mapping) :
    ∀ (fuel : Nat) (self : FsUpnpSimpleIgd) (prox : Proxy) (j : Nat),
      prox.proxymappings.length < 2 ^ 32 → j ≤ prox.proxymappings.length →
      (∀ pm ∈ prox.proxymappings.take j, pm.mapping.addr ≠ m.addr) →
      prox.proxymappings.length - j < fuel →
      ∃ self' pms', remove_port_inner m fuel self prox j =
          some (self', { prox with proxymappings := pms' }) ∧
        List.Perm pms'
          (prox.proxymappings.filter (fun pm => decide (pm.mapping.addr ≠ m.addr))) ∧
        ∀ rest t, RemoveEffect m rest self' t → RemoveEffect m (prox :: rest) self t := by
  intro fuel
  induction fuel with
  | zero => intro self prox j _ _ _ h; omega
  | succ fuel ih =>
    intro self prox j hlen hj hpre hfuel
    unfold remove_port_inner
    cases hget : prox.proxymappings[j]? with
    | none =>
      have hjl : prox.proxymappings.length ≤ j := List.getElem?_eq_none_iff.mp hget
      have hall : ∀ pm ∈ prox.proxymappings, pm.mapping.addr ≠ m.addr := by
        intro pm hpm
        apply hpre pm
        rw [List.take_of_length_le hjl]
        exact hpm
      refine ⟨self, prox.proxymappings, rfl, ?_, ?_⟩
      · rw [List.filter_eq_self.mpr]
        intro pm hpm
        simpa using hall pm hpm
      · intro rest t ht
        exact removeEffect_skip m prox rest self t hall ht
    | some pm =>
      have hjl : j < prox.proxymappings.length := by
        by_contra hc
        rw [List.getElem?_eq_none (by omega)] at hget
        cases hget
      have hperm := remove_index_fast_perm prox.proxymappings j pm hget
      by_cases hm : pm.mapping.addr = m.addr
      · simp only [hm, if_true]
        rw [guint_inc_dec j (by omega)]
        have hlen1 : (g_ptr_array_remove_index_fast prox.proxymappings j).length + 1 =
            prox.proxymappings.length := by
          simpa using hperm.length_eq
        obtain ⟨self', pms', heq, hp, heff⟩ := ih (remove_port_stop self prox m pm)
          { prox with
            proxymappings := g_ptr_array_remove_index_fast prox.proxymappings j } j
          (by simp only; omega) (by simp only; omega)
          (by
            simp only
            rw [remove_index_fast_take prox.proxymappings j pm hget]
            exact hpre)
          (by simp only; omega)
        refine ⟨self', pms', heq, ?_, ?_⟩
        · refine hp.trans ?_
          have := (hperm.filter (fun pm => decide (pm.mapping.addr ≠ m.addr)))
          simpa [hm] using this
        · intro rest t ht
          exact removeEffect_step m prox
            { prox with
              proxymappings := g_ptr_array_remove_index_fast prox.proxymappings j }
            rest pm self t rfl hm hperm.symm (heff rest t ht)
      · simp only [hm, if_false]
        rw [guint_inc_lt j (by omega)]
        obtain ⟨self', pms', heq, hp, heff⟩ := ih self prox (j + 1) hlen (by omega)
          (by
            intro q hq
            rw [List.take_succ, hget] at hq
            simp only [Option.toList, List.mem_append, List.mem_singleton] at hq
            rcases hq with hq | hq
            · exact hpre q hq
            · rw [hq]; exact hm)
          (by omega)
        exact ⟨self', pms', heq, hp, heff⟩

/-- The outer loop of the removal returns; every proxy keeps its fields and the
`ProxyMapping`s that do not reference the mapping. -/
theorem remove_port_outer_spec (m : Mapping) :
    ∀ (proxies : List Proxy) (self : FsUpnpSimpleIgd),
      (∀ prox ∈ proxies, prox.proxymappings.length < 2 ^ 32) →
      ∃ self' proxies', remove_port_outer m self proxies = some (self', proxies') ∧
        List.Forall₂ (fun prox prox' => ∃ pms', prox' = { prox with proxymappings := pms' } ∧
          List.Perm pms'
            (prox.proxymappings.filter (fun pm => decide (pm.mapping.addr ≠ m.addr))))
          proxies proxies' ∧
        RemoveEffect m proxies self self' := by
  intro proxies
  induction proxies with
  | nil =>
    intro self _
    exact ⟨self, [], rfl, List.Forall₂.nil, removeEffect_nil m self⟩
  | cons prox rest ih =>
    intro self hlen
    obtain ⟨self1, pms1, heq1, hp1, heff1⟩ := remove_port_inner_spec m
      (prox.proxymappings.length + 1) self prox 0 (hlen prox (List.mem_cons_self _ _))
      (Nat.zero_le _) (by simp) (by omega)
    obtain ⟨self', rest', heq, hf, heff⟩ := ih self1
      (fun q hq => hlen q (List.mem_cons_of_mem _ hq))
    refine ⟨self', { prox with proxymappings := pms1 } :: rest', ?_, ?_, heff1 rest self' heff⟩
    · simp only [remove_port_outer, heq1, heq]
    · exact List.Forall₂.cons ⟨pms1, rfl, hp1⟩ hf

theorem remove_port_find_some (protocol : String) (external_port : Nat) (m : Mapping) :
    ∀ (l : List Mapping) (i : Nat) (mapping0 : Option Mapping),
      l.find? (fun x => decide (x.external_port = external_port ∧ x.protocol = protocol)) =
        some m →
      ∃ k, remove_port_find protocol external_port l i mapping0 = (i + k, some m) ∧
        l[k]? = some m := by
  intro l
  induction l with
  | nil => intro i m0 h; simp at h
  | cons x rest ih =>
    intro i m0 h
    unfold remove_port_find
    by_cases hx : x.external_port = external_port ∧ x.protocol = protocol
    · rw [if_pos hx]
      rw [List.find?_cons_of_pos _ (by simpa using hx)] at h
      cases h
      exact ⟨0, rfl, by simp⟩
    · rw [if_neg hx]
      rw [List.find?_cons_of_neg _ (by simpa using hx)] at h
      obtain ⟨k, hk, hg⟩ := ih (i + 1) m0 h
      exact ⟨k + 1, by rw [hk]; congr 1; omega, by simpa using hg⟩

theorem remove_port_find_none (protocol : String) (external_port : Nat) :
    ∀ (l : List Mapping) (i : Nat) (mapping0 : Option Mapping),
      l.find? (fun x => decide (x.external_port = external_port ∧ x.protocol = protocol)) =
        none →
      remove_port_find protocol external_port l i mapping0 = (i + l.length, mapping0) := by
  intro l
  induction l with
  | nil => intro i m0 _; rfl
  | cons x rest ih =>
    intro i m0 h
    unfold remove_port_find
    by_cases hx : x.external_port = external_port ∧ x.protocol = protocol
    · rw [List.find?_cons_of_pos _ (by simpa using hx)] at h
      cases h
    · rw [if_neg hx]
      rw [List.find?_cons_of_neg _ (by simpa using hx)] at h
      rw [ih (i + 1) m0 h]
      simp only [List.length_cons]
      congr 1
      omega

/-- The removal of a mapping whose key is in the registry: the function returns, one
occurrence of the first mapping with the key leaves the registry, every proxy keeps its
fields and the `ProxyMapping`s that do not reference it, and the collaborators see the
effect of the loops. -/
theorem remove_port_real_spec (self : FsUpnpSimpleIgd) (protocol : String)
    (external_port : Nat) (mapping0 : Option Mapping) (m : Mapping)
    (hfind : self.mappings.find?
      (fun x => decide (x.external_port = external_port ∧ x.protocol = protocol)) = some m)
    (hlen : ∀ prox ∈ self.service_proxies, prox.proxymappings.length < 2 ^ 32) :
    ∃ self', fs_upnp_simple_igd_remove_port_real self (some protocol) external_port
        mapping0 = some self' ∧
      List.Perm (m :: self'.mappings) self.mappings ∧
      List.Forall₂ (fun prox prox' => ∃ pms', prox' = { prox with proxymappings := pms' } ∧
        List.Perm pms'
          (prox.proxymappings.filter (fun pm => decide (pm.mapping.addr ≠ m.addr))))
        self.service_proxies self'.service_proxies ∧
      RemoveEffect m self.service_proxies self { self' with mappings := self.mappings } := by
  obtain ⟨k, hk, hg⟩ := remove_port_find_some protocol external_port m self.mappings 0
    mapping0 hfind
  obtain ⟨r, proxies', heq, hf, heff⟩ := remove_port_outer_spec m self.service_proxies
    { self with mappings := g_ptr_array_remove_index_fast self.mappings (0 + k) } hlen
  refine ⟨{ r with service_proxies := proxies' }, ?_, ?_, hf, ?_⟩
  · simp only [fs_upnp_simple_igd_remove_port_real, hk, heq]
  · simp only [heff.mappings, Nat.zero_add]
    exact remove_index_fast_perm self.mappings k m hg
  · exact ⟨heff.log, heff.sources, heff.actions, heff.quiet, heff.next_le, rfl,
      heff.request_timeout, heff.notifies, heff.criticals, heff.actions_eq⟩

/-! ## Claims on `remove_port` -/

/-- C4: a `remove_port (protocol, external_port)` whose key is in the registry returns,
and what it adds to the log is, proxy after proxy, one `DeletePortMapping ("",
external_port, protocol)` begun on the proxy for each of its `ProxyMapping`s that
references the removed mapping and is mapped, and nothing else: with one `ProxyMapping`
per proxy and mapping, one call if it was mapped and none if it was not.  For every
`ProxyMapping` referencing the removed mapping the timeout source is destroyed and the
action, whose handle was allocated before, is no longer in flight. -/
theorem remove_port_delete_calls (self : FsUpnpSimpleIgd) (protocol : String)
    (external_port : Nat) (mapping0 : Option Mapping) (m : Mapping)
    (hfind : self.mappings.find?
      (fun x => decide (x.external_port = external_port ∧ x.protocol = protocol)) = some m)
    (hlen : ∀ prox ∈ self.service_proxies, prox.proxymappings.length < 2 ^ 32) :
    ∃ self', fs_upnp_simple_igd_remove_port_real self (some protocol) external_port
        mapping0 = some self' ∧
      self'.log = self.log ++ (self.service_proxies.map (fun prox =>
        List.replicate
          (prox.proxymappings.countP
            (fun pm => decide (pm.mapping.addr = m.addr) && pm.mapped))
          (Effect.call prox.proxy
            (Rpc.DeletePortMapping "" external_port protocol)))).flatten ∧
      (∀ pm ∈ proxymappings self, pm.mapping.addr = m.addr →
        (∀ t, pm.timeout_src = some t → ∀ s ∈ self'.sources, s.id ≠ t) ∧
        (∀ a, pm.action = some a → a < self.next → ∀ x ∈ self'.actions, x.id ≠ a)) := by
  obtain ⟨self', heq, _, _, heff⟩ :=
    remove_port_real_spec self protocol external_port mapping0 m hfind hlen
  have hkey : m.external_port = external_port ∧ m.protocol = protocol := by
    simpa using List.find?_some hfind
  refine ⟨self', heq, ?_, ?_⟩
  · have hc : removed_calls m = fun prox =>
        List.replicate
          (prox.proxymappings.countP
            (fun pm => decide (pm.mapping.addr = m.addr) && pm.mapped))
          (Effect.call prox.proxy
            (Rpc.DeletePortMapping "" external_port protocol)) := by
      funext prox
      rw [removed_calls, hkey.1, hkey.2]
    rw [← hc]
    exact heff.log
  · intro pm hpm hm
    constructor
    · intro t ht s hs
      have h1 : s ∈ self'.sources := hs
      have h2 := heff.sources
      simp only at h2
      rw [h2, List.mem_filter] at h1
      have h3 : source_kept m (all_proxymappings self.service_proxies) s.id := by
        simpa using h1.2
      intro hst
      exact (h3 pm hpm hm).1 (by rw [ht, hst])
    · intro a ha hfresh x hx
      rcases heff.actions x hx with ⟨_, h2⟩ | ⟨_, h2⟩
      · intro hxa
        exact h2 pm hpm hm (by rw [ha, hxa])
      · omega

/-- The scenario for C4: with the `ProxyMapping` of the first device mapped and that of
the second in flight, `remove_port ("UDP", 5000)` begins `DeletePortMapping` on the first
device only. -/
theorem remove_port_delete_calls_witness :
    ∃ self', fs_upnp_simple_igd_remove_port_real scenario_two_devices (some "UDP") 5000
        none = some self' ∧
      self'.log = scenario_two_devices.log ++
        [Effect.call ⟨"uuid:igd-a"⟩ (Rpc.DeletePortMapping "" 5000 "UDP")] := by
  obtain ⟨self', h1, h2, _⟩ := remove_port_delete_calls scenario_two_devices "UDP" 5000
    none scenario_mapping (by decide) (by decide)
  exact ⟨self', h1, h2⟩

/-- C5: a `remove_port` whose key is in the registry returns, for any registry, any
number of proxies and any position of the `ProxyMapping`s in the arrays (index 0
included, where `j--` wraps): one occurrence of the mapping found leaves the registry and
the other mappings stay; every proxy stays, at its place, with its address, its service
proxy, its cached external address and its pending action; and the `ProxyMapping`s of
each proxy afterwards are, up to their order, those that do not reference the removed
mapping, each one unchanged.  What these records name stays as well: the sources attached
afterwards are exactly the sources from before that no `ProxyMapping` of the removed
mapping holds, in their order, and the actions in flight are exactly the actions from
before that no `ProxyMapping` of the removed mapping holds, in their order, followed by
`DeletePortMapping` actions begun by the call.  So for a `ProxyMapping` that stays, the
sources with the handle of its timeout or of its renewal, and the actions with the handle
of its action (allocated before the call), are after the call what they were before it,
handles being held by one `ProxyMapping` each. -/
theorem remove_port_removes_proxymappings (self : FsUpnpSimpleIgd) (protocol : String)
    (external_port : Nat) (mapping0 : Option Mapping) (m : Mapping)
    (hfind : self.mappings.find?
      (fun x => decide (x.external_port = external_port ∧ x.protocol = protocol)) = some m)
    (hlen : ∀ prox ∈ self.service_proxies, prox.proxymappings.length < 2 ^ 32) :
    ∃ self', fs_upnp_simple_igd_remove_port_real self (some protocol) external_port
        mapping0 = some self' ∧
      List.Perm (m :: self'.mappings) self.mappings ∧
      List.Forall₂ (fun prox prox' =>
          prox'.addr = prox.addr ∧ prox'.proxy = prox.proxy ∧
          prox'.external_ip = prox.external_ip ∧
          prox'.external_ip_action = prox.external_ip_action ∧
          List.Perm prox'.proxymappings
            (prox.proxymappings.filter (fun pm => decide (pm.mapping.addr ≠ m.addr))))
        self.service_proxies self'.service_proxies ∧
      self'.sources = self.sources.filter
        (fun s => decide (source_kept m (proxymappings self) s.id)) ∧
      (∃ new,
        self'.actions = self.actions.filter
          (fun x => decide (action_kept m (proxymappings self) x.id)) ++ new ∧
        ∀ x ∈ new, x.rpc = Rpc.DeletePortMapping "" external_port protocol ∧
          self.next ≤ x.id) ∧
      (∀ pm ∈ proxymappings self, pm.mapping.addr ≠ m.addr →
        (∀ t, pm.timeout_src = some t ∨ pm.renew_src = some t →
          source_kept m (proxymappings self) t →
          self'.sources.filter (fun s => decide (s.id = t)) =
            self.sources.filter (fun s => decide (s.id = t))) ∧
        (∀ a, pm.action = some a → a < self.next →
          action_kept m (proxymappings self) a →
          self'.actions.filter (fun x => decide (x.id = a)) =
            self.actions.filter (fun x => decide (x.id = a)))) := by
  obtain ⟨self', heq, hperm, hf, heff⟩ :=
    remove_port_real_spec self protocol external_port mapping0 m hfind hlen
  have hkey : m.external_port = external_port ∧ m.protocol = protocol := by
    simpa using List.find?_some hfind
  have hsrc : self'.sources = self.sources.filter
      (fun s => decide (source_kept m (proxymappings self) s.id)) := heff.sources
  obtain ⟨new, hact, hnew⟩ := heff.actions_eq
  have hact' : self'.actions = self.actions.filter
      (fun x => decide (action_kept m (proxymappings self) x.id)) ++ new := hact
  refine ⟨self', heq, hperm, ?_, hsrc, ⟨new, hact', ?_⟩, ?_⟩
  · refine List.Forall₂.imp ?_ hf
    rintro prox prox' ⟨pms', rfl, hp⟩
    exact ⟨rfl, rfl, rfl, rfl, hp⟩
  · intro x hx
    rw [← hkey.1, ← hkey.2]
    exact hnew x hx
  · intro pm _ _
    constructor
    · intro t _ hk
      rw [hsrc, List.filter_filter]
      apply List.filter_congr
      intro s _
      by_cases hst : s.id = t
      · simp [hst, hk]
      · simp [hst]
    · intro a _ hfresh hk
      rw [hact', List.filter_append, List.filter_filter]
      have hnone : new.filter (fun x => decide (x.id = a)) = [] := by
        rw [List.filter_eq_nil_iff]
        intro x hx
        have := (hnew x hx).2
        simp only [decide_eq_true_eq]
        omega
      rw [hnone, List.append_nil]
      apply List.filter_congr
      intro x _
      by_cases hxa : x.id = a
      · simp [hxa, hk]
      · simp [hxa]

/-- The scenario for C5: the `ProxyMapping` of `("UDP", 5000)` is at index 0 of the array
of the device, before that of `("TCP", 80)`, which names the action 8 and the timeout 9;
after `remove_port ("UDP", 5000)` the registry and the array hold what belongs to
`("TCP", 80)` only, the timeout 9 is the source attached, and the actions in flight are
`GetExternalIPAddress` and the action 8. -/
theorem remove_port_removes_proxymappings_witness :
    ∃ self', fs_upnp_simple_igd_remove_port_real scenario_two_mappings (some "UDP") 5000
        none = some self' ∧
      List.Perm (scenario_mapping :: self'.mappings) scenario_two_mappings.mappings ∧
      List.Forall₂ (fun prox prox' =>
          prox'.addr = prox.addr ∧ prox'.proxy = prox.proxy ∧
          prox'.external_ip = prox.external_ip ∧
          prox'.external_ip_action = prox.external_ip_action ∧
          List.Perm prox'.proxymappings
            (prox.proxymappings.filter
              (fun pm => decide (pm.mapping.addr ≠ scenario_mapping.addr))))
        scenario_two_mappings.service_proxies self'.service_proxies ∧
      self'.sources =
        [⟨9, 5, SourceFunc._service_proxy_add_mapping_timeout, UserData.pm 7⟩] ∧
      self'.actions.filter (fun x => decide (x.id = 8)) =
        [⟨8, ⟨"uuid:igd-a"⟩, Rpc.AddPortMapping "" 80 "TCP" 8080 "10.0.0.5" true "" 600,
          Callback._service_proxy_added_port_mapping, UserData.pm 7⟩] ∧
      ∃ new, self'.actions =
        [⟨3, ⟨"uuid:igd-a"⟩, Rpc.GetExternalIPAddress,
          Callback._service_proxy_got_external_ip_address, UserData.prox 2⟩,
         ⟨8, ⟨"uuid:igd-a"⟩, Rpc.AddPortMapping "" 80 "TCP" 8080 "10.0.0.5" true "" 600,
          Callback._service_proxy_added_port_mapping, UserData.pm 7⟩] ++ new := by
  obtain ⟨self', h1, h2, h3, h4, ⟨new, h5, _⟩, h6⟩ :=
    remove_port_removes_proxymappings scenario_two_mappings "UDP" 5000 none
      scenario_mapping (by decide) (by decide)
  refine ⟨self', h1, h2, h3, ?_, ?_, new, ?_⟩
  · rw [h4]
    decide
  · rw [(h6 ⟨7, 2, ⟨1, "TCP", 80, "10.0.0.5", 8080, 600, ""⟩, some 8, some 9, false, none⟩
      (by decide) (by decide)).2 8 rfl (by decide) (by decide)]
    decide
  · rw [h5]
    rfl

/-- With a key that is not in the registry the local `mapping` of
`fs_upnp_simple_igd_remove_port_real` is never assigned: when it happens to hold `NULL`
the check `g_return_if_fail (mapping)` returns and nothing but the record of the failed
check changes. -/
theorem remove_port_absent_key_null (self : FsUpnpSimpleIgd) (protocol : String)
    (external_port : Nat)
    (hfind : self.mappings.find?
      (fun x => decide (x.external_port = external_port ∧ x.protocol = protocol)) = none) :
    fs_upnp_simple_igd_remove_port_real self (some protocol) external_port none =
      some { self with criticals := self.criticals ++ ["mapping"] } := by
  simp only [fs_upnp_simple_igd_remove_port_real,
    remove_port_find_none protocol external_port self.mappings 0 none hfind]
  rfl

/-- C6, the code at the failing input: no mapping has the key `("TCP", 80)`, and the
uninitialised local `mapping` holds the address of the mapping `("UDP", 5000)`.  The
check `g_return_if_fail (mapping)` passes: no failure is recorded, the registry still
holds `("UDP", 5000)`, but the `ProxyMapping`s of both devices are gone, their sources
destroyed, and `DeletePortMapping ("", 5000, "UDP")` has been begun on the first device.
On a new instance, with an empty registry, the call returns without recording a failure
as well. -/
theorem remove_port_absent_key_stale :
    (fs_upnp_simple_igd_remove_port_real scenario_two_devices (some "TCP") 80
        (some scenario_mapping)).map
      (fun self' => (self'.criticals, self'.mappings,
        self'.service_proxies.map (fun prox => prox.proxymappings), self'.sources,
        self'.log.drop scenario_two_devices.log.length)) =
      some ([], [scenario_mapping], [[], []], [],
        [Effect.call ⟨"uuid:igd-a"⟩ (Rpc.DeletePortMapping "" 5000 "UDP")]) ∧
    fs_upnp_simple_igd_remove_port_real fs_upnp_simple_igd_init (some "UDP") 5000
        (some scenario_mapping) = some fs_upnp_simple_igd_init :=
  ⟨rfl, rfl⟩

/-- The handler `_cp_service_unavail` does not read the proxy it is called for. -/
theorem cp_service_unavail_any (self : FsUpnpSimpleIgd) (p q : GUPnPServiceProxy) :
    _cp_service_unavail self p = _cp_service_unavail self q := by
  unfold _cp_service_unavail
  cases self.service_proxies with
  | nil => rfl
  | cons prox rest => simp [cp_service_unavail_loop]

/-- C10, the code at the failing input: with the devices `uuid:igd-a` and `uuid:igd-b`
known, in this order, the removal of `uuid:igd-b` removes `uuid:igd-a` and keeps
`uuid:igd-b`, and the removal of a device that is not known removes `uuid:igd-a` too. -/
theorem cp_service_unavail_removes_first :
    (_cp_service_unavail scenario_two_devices ⟨"uuid:igd-b"⟩).service_proxies.map
      (fun prox => prox.proxy.udn) = ["uuid:igd-b"] ∧
    (_cp_service_unavail scenario_two_devices ⟨"uuid:igd-c"⟩).service_proxies.map
      (fun prox => prox.proxy.udn) = ["uuid:igd-b"] ∧
    scenario_two_devices.service_proxies.map
      (fun prox => prox.proxy.udn) = ["uuid:igd-a", "uuid:igd-b"] := by
  decide

/-! ## Claims on `add_port` -/

theorem add_port_loop_criticals (m : Mapping) :
    ∀ (proxies : List Proxy) (self : FsUpnpSimpleIgd),
      (add_port_loop self m proxies).1.criticals = self.criticals := by
  intro proxies
  induction proxies with
  | nil => intro self; rfl
  | cons prox rest ih =>
    intro self
    simp only [add_port_loop]
    rw [ih]
    rfl

theorem add_port_loop_mappings (m : Mapping) :
    ∀ (proxies : List Proxy) (self : FsUpnpSimpleIgd),
      (add_port_loop self m proxies).1.mappings = self.mappings := by
  intro proxies
  induction proxies with
  | nil => intro self; rfl
  | cons prox rest ih =>
    intro self
    simp only [add_port_loop]
    rw [ih]
    rfl

/-- C7: `add_port` with a protocol that is neither `"TCP"` nor `"UDP"` (a `NULL`
protocol included) returns at a `g_return_if_fail`: a failed check is recorded, the
address of the mapping allocated before the checks is used up, and the registry, the
proxies with their `ProxyMapping`s, the sources, the actions and the log are unchanged.
With `"TCP"` or `"UDP"` and a local address no check fails and the mapping is appended
to the registry. -/
theorem add_port_protocol_check (self : FsUpnpSimpleIgd) (protocol local_ip : Option String)
    (external_port local_port lease_duration : Nat) (description : Option String) :
    (protocol ≠ some "TCP" → protocol ≠ some "UDP" →
      ∃ check, fs_upnp_simple_igd_add_port_real self protocol external_port local_ip
          local_port lease_duration description =
        { self with criticals := self.criticals ++ [check], next := self.next + 1 }) ∧
    (∀ proto ip, protocol = some proto → local_ip = some ip →
      proto = "TCP" ∨ proto = "UDP" →
      (fs_upnp_simple_igd_add_port_real self protocol external_port local_ip
          local_port lease_duration description).criticals = self.criticals ∧
      (fs_upnp_simple_igd_add_port_real self protocol external_port local_ip
          local_port lease_duration description).mappings = self.mappings ++
        [⟨self.next, proto, external_port, ip, local_port, lease_duration,
          match description with
          | some d => d
          | none => ""⟩]) := by
  constructor
  · intro h1 h2
    unfold fs_upnp_simple_igd_add_port_real
    cases protocol with
    | none => exact ⟨_, rfl⟩
    | some proto =>
      cases local_ip with
      | none => exact ⟨_, rfl⟩
      | some ip =>
        have h3 : ¬ (proto = "UDP" ∨ proto = "TCP") := by
          rintro (h | h)
          · exact h2 (by rw [h])
          · exact h1 (by rw [h])
        simp only [h3, if_false]
        exact ⟨_, rfl⟩
  · intro proto ip hp hip hv
    subst hp hip
    have h3 : proto = "UDP" ∨ proto = "TCP" := hv.symm
    simp only [fs_upnp_simple_igd_add_port_real, h3, if_true]
    exact ⟨add_port_loop_criticals _ _ _, add_port_loop_mappings _ _ _⟩

/-- The scenario for C7: on a new instance `add_port` with the protocol `"SCTP"` records
a failed check and inserts nothing, and with `"TCP"` it appends the mapping. -/
theorem add_port_protocol_check_witness :
    (∃ check, fs_upnp_simple_igd_add_port_real fs_upnp_simple_igd_init (some "SCTP") 80
        (some "10.0.0.5") 8080 600 none =
      { fs_upnp_simple_igd_init with criticals := [check], next := 1 }) ∧
    (fs_upnp_simple_igd_add_port_real fs_upnp_simple_igd_init (some "TCP") 80
        (some "10.0.0.5") 8080 600 none).mappings =
      [⟨0, "TCP", 80, "10.0.0.5", 8080, 600, ""⟩] :=
  ⟨(add_port_protocol_check fs_upnp_simple_igd_init (some "SCTP") (some "10.0.0.5") 80
      8080 600 none).1 (by decide) (by decide),
   ((add_port_protocol_check fs_upnp_simple_igd_init (some "TCP") (some "10.0.0.5") 80
      8080 600 none).2 "TCP" "10.0.0.5" rfl rfl (Or.inl rfl)).2⟩

/-! ## Creation of `ProxyMapping`s -/

theorem add_proxy_mapping_eq (self : FsUpnpSimpleIgd) (prox : Proxy) (m : Mapping) :
    fs_upnp_simple_igd_add_proxy_mapping self prox m =
      ({ self with
          actions := self.actions ++ [request_action self.next prox.proxy m]
          sources := self.sources ++ [request_timeout_source self.next self.request_timeout]
          log := self.log ++ [Effect.call prox.proxy (add_port_mapping_rpc m)]
          next := self.next + 3 },
       { prox with
          proxymappings := prox.proxymappings ++ [requesting self.next prox.addr m] }) :=
  rfl

theorem add_port_loop_eq (m : Mapping) :
    ∀ (proxies : List Proxy) (self : FsUpnpSimpleIgd),
      add_port_loop self m proxies =
        ({ self with
            actions := self.actions ++
              proxies.mapIdx (fun k prox => request_action (self.next + 3 * k) prox.proxy m)
            sources := self.sources ++
              proxies.mapIdx (fun k _ =>
                request_timeout_source (self.next + 3 * k) self.request_timeout)
            log := self.log ++
              proxies.map (fun prox => Effect.call prox.proxy (add_port_mapping_rpc m))
            next := self.next + 3 * proxies.length },
         proxies.mapIdx (fun k prox => { prox with
            proxymappings := prox.proxymappings ++
              [requesting (self.next + 3 * k) prox.addr m] })) := by
  intro proxies
  induction proxies with
  | nil => intro self; simp [add_port_loop]
  | cons prox rest ih =>
    intro self
    simp only [add_port_loop, ih, add_proxy_mapping_eq, List.mapIdx_cons, List.map_cons,
      List.length_cons, List.append_assoc, List.singleton_append, Nat.mul_zero,
      Nat.add_zero]
    have h : ∀ k, self.next + 3 + 3 * k = self.next + 3 * (k + 1) := fun k => by omega
    simp only [h]

theorem cp_service_avail_loop_eq :
    ∀ (mappings : List Mapping) (self : FsUpnpSimpleIgd) (prox : Proxy),
      cp_service_avail_loop self prox mappings =
        ({ self with
            actions := self.actions ++
              mappings.mapIdx (fun k m => request_action (self.next + 3 * k) prox.proxy m)
            sources := self.sources ++
              mappings.mapIdx (fun k _ =>
                request_timeout_source (self.next + 3 * k) self.request_timeout)
            log := self.log ++
              mappings.map (fun m => Effect.call prox.proxy (add_port_mapping_rpc m))
            next := self.next + 3 * mappings.length },
         { prox with
            proxymappings := prox.proxymappings ++
              mappings.mapIdx (fun k m => requesting (self.next + 3 * k) prox.addr m) }) := by
  intro mappings
  induction mappings with
  | nil => intro self prox; simp [cp_service_avail_loop]
  | cons m rest ih =>
    intro self prox
    simp only [cp_service_avail_loop, ih, add_proxy_mapping_eq, List.mapIdx_cons,
      List.map_cons, List.length_cons, List.append_assoc, List.singleton_append,
      Nat.mul_zero, Nat.add_zero]
    have h : ∀ k, self.next + 3 + 3 * k = self.next + 3 * (k + 1) := fun k => by omega
    simp only [h]

theorem add_port_real_eq (self : FsUpnpSimpleIgd) (protocol local_ip : String)
    (external_port local_port lease_duration : Nat) (description : Option String)
    (m : Mapping) (hp : protocol = "UDP" ∨ protocol = "TCP")
    (hm : m = ⟨self.next, protocol, external_port, local_ip, local_port, lease_duration,
      match description with
      | some d => d
      | none => ""⟩) :
    fs_upnp_simple_igd_add_port_real self (some protocol) external_port (some local_ip)
        local_port lease_duration description =
      { self with
        mappings := self.mappings ++ [m]
        service_proxies := self.service_proxies.mapIdx (fun k prox => { prox with
          proxymappings := prox.proxymappings ++
            [requesting (self.next + 1 + 3 * k) prox.addr m] })
        actions := self.actions ++ self.service_proxies.mapIdx (fun k prox =>
          request_action (self.next + 1 + 3 * k) prox.proxy m)
        sources := self.sources ++ self.service_proxies.mapIdx (fun k _ =>
          request_timeout_source (self.next + 1 + 3 * k) self.request_timeout)
        log := self.log ++ self.service_proxies.map (fun prox =>
          Effect.call prox.proxy (add_port_mapping_rpc m))
        next := self.next + 1 + 3 * self.service_proxies.length } := by
  subst hm
  simp only [fs_upnp_simple_igd_add_port_real, hp, if_true, add_port_loop_eq, g_slice_new0]

theorem cp_service_avail_eq (self : FsUpnpSimpleIgd) (proxy : GUPnPServiceProxy) :
    _cp_service_avail self proxy =
      { self with
        service_proxies := self.service_proxies ++
          [⟨self.next, proxy, none, some (self.next + 1),
            self.mappings.mapIdx (fun k m => requesting (self.next + 2 + 3 * k) self.next m)⟩]
        actions := self.actions ++
          [⟨self.next + 1, proxy, Rpc.GetExternalIPAddress,
            Callback._service_proxy_got_external_ip_address, UserData.prox self.next⟩] ++
          self.mappings.mapIdx (fun k m => request_action (self.next + 2 + 3 * k) proxy m)
        sources := self.sources ++ self.mappings.mapIdx (fun k _ =>
          request_timeout_source (self.next + 2 + 3 * k) self.request_timeout)
        notifies := self.notifies ++ [self.next]
        log := self.log ++ [Effect.call proxy Rpc.GetExternalIPAddress] ++
          self.mappings.map (fun m => Effect.call proxy (add_port_mapping_rpc m))
        next := self.next + 2 + 3 * self.mappings.length } := by
  simp only [_cp_service_avail, cp_service_avail_loop_eq, g_slice_new0,
    fs_upnp_simple_igd_gather, gupnp_service_proxy_begin_action, List.nil_append,
    List.append_assoc]

/-- C8: a valid `add_port` appends the mapping to the registry and, for each of the `n`
known proxies and no other pair, appends one `ProxyMapping` to the array of the proxy,
begins one `AddPortMapping` on it and attaches one source calling
`_service_proxy_add_mapping_timeout` after `request_timeout` seconds; `device_available`
appends one proxy that has, for each of the `m` mappings of the registry, one
`ProxyMapping` with one `AddPortMapping` begun and one timeout source attached, after one
`GetExternalIPAddress`.  The new `ProxyMapping`s are not mapped and have no renewal
source, the `ProxyMapping`s of the other pairs are untouched, and a new instance has a
`request_timeout` of 5 seconds. -/
theorem proxymapping_creation (self : FsUpnpSimpleIgd) (protocol local_ip : String)
    (external_port local_port lease_duration : Nat) (description : Option String)
    (proxy : GUPnPServiceProxy) (hp : protocol = "UDP" ∨ protocol = "TCP") :
    (∃ m : Mapping,
      m = ⟨self.next, protocol, external_port, local_ip, local_port, lease_duration,
        match description with
        | some d => d
        | none => ""⟩ ∧
      fs_upnp_simple_igd_add_port_real self (some protocol) external_port (some local_ip)
          local_port lease_duration description =
        { self with
          mappings := self.mappings ++ [m]
          service_proxies := self.service_proxies.mapIdx (fun k prox => { prox with
            proxymappings := prox.proxymappings ++
              [requesting (self.next + 1 + 3 * k) prox.addr m] })
          actions := self.actions ++ self.service_proxies.mapIdx (fun k prox =>
            request_action (self.next + 1 + 3 * k) prox.proxy m)
          sources := self.sources ++ self.service_proxies.mapIdx (fun k _ =>
            request_timeout_source (self.next + 1 + 3 * k) self.request_timeout)
          log := self.log ++ self.service_proxies.map (fun prox =>
            Effect.call prox.proxy (add_port_mapping_rpc m))
          next := self.next + 1 + 3 * self.service_proxies.length }) ∧
    _cp_service_avail self proxy =
      { self with
        service_proxies := self.service_proxies ++
          [⟨self.next, proxy, none, some (self.next + 1),
            self.mappings.mapIdx (fun k m => requesting (self.next + 2 + 3 * k) self.next m)⟩]
        actions := self.actions ++
          [⟨self.next + 1, proxy, Rpc.GetExternalIPAddress,
            Callback._service_proxy_got_external_ip_address, UserData.prox self.next⟩] ++
          self.mappings.mapIdx (fun k m => request_action (self.next + 2 + 3 * k) proxy m)
        sources := self.sources ++ self.mappings.mapIdx (fun k _ =>
          request_timeout_source (self.next + 2 + 3 * k) self.request_timeout)
        notifies := self.notifies ++ [self.next]
        log := self.log ++ [Effect.call proxy Rpc.GetExternalIPAddress] ++
          self.mappings.map (fun m => Effect.call proxy (add_port_mapping_rpc m))
        next := self.next + 2 + 3 * self.mappings.length } ∧
    fs_upnp_simple_igd_init.request_timeout = 5 := by
  exact ⟨⟨_, rfl, add_port_real_eq self protocol local_ip external_port local_port
    lease_duration description _ hp rfl⟩, cp_service_avail_eq self proxy, rfl⟩

/-- The scenario of the specification for C8: a mapping added to a new instance, where no
device is known, creates no `ProxyMapping`; the device appearing next gets exactly one
`ProxyMapping`, not mapped, with its action in flight and its timeout of 5 seconds
attached, and exactly one `AddPortMapping` is begun. -/
theorem proxymapping_creation_witness :
    (fs_upnp_simple_igd_add_port_real fs_upnp_simple_igd_init (some "UDP") 5000
      (some "10.0.0.5") 5000 3600 (some "voip")).service_proxies = [] ∧
    scenario_device.service_proxies =
      [⟨1, ⟨"uuid:igd-a"⟩, none, some 2, [scenario_pm]⟩] ∧
    scenario_device.sources =
      [⟨5, 5, SourceFunc._service_proxy_add_mapping_timeout, UserData.pm 3⟩] ∧
    scenario_device.log =
      [Effect.call ⟨"uuid:igd-a"⟩ Rpc.GetExternalIPAddress,
       Effect.call ⟨"uuid:igd-a"⟩
        (Rpc.AddPortMapping "" 5000 "UDP" 5000 "10.0.0.5" true "voip" 3600)] := by
  obtain ⟨⟨m, hm, h1⟩, _, _⟩ := proxymapping_creation fs_upnp_simple_igd_init "UDP"
    "10.0.0.5" 5000 5000 3600 (some "voip") ⟨"uuid:igd-a"⟩ (Or.inl rfl)
  obtain ⟨_, h2, _⟩ := proxymapping_creation
    (fs_upnp_simple_igd_add_port_real fs_upnp_simple_igd_init (some "UDP") 5000
      (some "10.0.0.5") 5000 3600 (some "voip")) "UDP"
    "10.0.0.5" 5000 5000 3600 (some "voip") ⟨"uuid:igd-a"⟩ (Or.inl rfl)
  refine ⟨by rw [h1]; rfl, ?_, ?_, ?_⟩
  · rw [scenario_device, h2]; rfl
  · rw [scenario_device, h2]; rfl
  · rw [scenario_device, h2]; rfl

/-! ## `add_port` followed by `remove_port` -/

theorem mem_all_proxymappings (proxies : List Proxy) (pm : ProxyMapping) :
    pm ∈ all_proxymappings proxies ↔ ∃ prox ∈ proxies, pm ∈ prox.proxymappings := by
  simp [all_proxymappings]

theorem got_external_ip_address_loop_eq (prox : Proxy) (ip : String) :
    ∀ (pms : List ProxyMapping) (self : FsUpnpSimpleIgd),
      got_external_ip_address_loop self prox ip pms =
        { self with log := self.log ++ mapped_events ip prox.external_ip pms } := by
  intro pms
  induction pms with
  | nil => intro self; simp [got_external_ip_address_loop, mapped_events]
  | cons pm rest ih =>
    intro self
    simp only [got_external_ip_address_loop, ih]
    cases hm : pm.mapped <;>
      simp [hm, mapped_events, g_signal_emit, List.filter_cons]

theorem external_ip_address_changed_loop_eq (prox : Proxy) (ip : String) :
    ∀ (pms : List ProxyMapping) (self : FsUpnpSimpleIgd),
      external_ip_address_changed_loop self prox ip pms =
        { self with log := self.log ++ mapped_events ip prox.external_ip pms } := by
  intro pms
  induction pms with
  | nil => intro self; simp [external_ip_address_changed_loop, mapped_events]
  | cons pm rest ih =>
    intro self
    simp only [external_ip_address_changed_loop, ih]
    cases hm : pm.mapped <;>
      simp [hm, mapped_events, g_signal_emit, List.filter_cons]

theorem got_external_ip_address_ok (self : FsUpnpSimpleIgd) (prox : Proxy) (a : Nat)
    (ip : String) (pm : ProxyMapping) (ha : prox.external_ip_action = some a) :
    _service_proxy_got_external_ip_address self prox a (Except.ok ip) pm =
      ({ self with
          actions := self.actions.filter (fun x => x.id ≠ a)
          log := self.log ++ mapped_events ip prox.external_ip prox.proxymappings ++
            [Effect.emit (Signal.new_external_ip ip)] },
       { prox with external_ip := some ip, external_ip_action := none }) := by
  simp [_service_proxy_got_external_ip_address, ha, got_external_ip_address_loop_eq,
    g_signal_emit, gupnp_service_proxy_end_action]

theorem external_ip_address_changed_eq (self : FsUpnpSimpleIgd) (prox : Proxy)
    (ip : String) :
    _external_ip_address_changed self prox ip =
      ({ self with
          log := self.log ++ mapped_events ip prox.external_ip prox.proxymappings },
       { prox with external_ip := some ip }) := by
  simp [_external_ip_address_changed, external_ip_address_changed_loop_eq]

theorem find_proxy_addr (self : FsUpnpSimpleIgd) (x : Nat) (prox : Proxy)
    (h : find_proxy self x = some prox) : prox.addr = x := by
  unfold find_proxy at h
  simpa using List.find?_some h

theorem find_store_proxy (self : FsUpnpSimpleIgd) (prox q : Proxy)
    (h : find_proxy self prox.addr = some q) :
    find_proxy (store_proxy self prox) prox.addr = some prox := by
  unfold find_proxy at *
  simp only [store_proxy, List.find?_map]
  have : ((fun r : Proxy => decide (r.addr = prox.addr)) ∘
      fun r => if r.addr = prox.addr then prox else r) =
      fun r => decide (r.addr = prox.addr) := by
    funext r
    by_cases hr : r.addr = prox.addr <;> simp [hr]
  rw [this, h]
  have hq : q.addr = prox.addr := by simpa using List.find?_some h
  simp [hq]

/-- C11: when the completion of the pending `GetExternalIPAddress` of a proxy reports
success with the address `ip`, the cached address of the proxy becomes `ip` and its
pending action is cleared; the log gains one `mapped-external-port` (protocol, `ip`, the
address cached before or none, external port, local address, local port, description)
for each mapped `ProxyMapping` of the proxy and none for the others, then one
`new-external-ip (ip)`; the `ProxyMapping`s of the proxy, the other proxies and the
sources are unchanged, and only the completed action leaves the actions in flight. -/
theorem got_external_ip_address_success (self : FsUpnpSimpleIgd) (x a : Nat)
    (prox : Proxy) (ip : String) (pm : ProxyMapping)
    (hprox : find_proxy self x = some prox)
    (ha : prox.external_ip_action = some a) :
    ∃ self', run_got_external_ip_address self a x (Except.ok ip) pm = some self' ∧
      find_proxy self' x = some
        { prox with external_ip := some ip, external_ip_action := none } ∧
      self'.log = self.log ++ mapped_events ip prox.external_ip prox.proxymappings ++
        [Effect.emit (Signal.new_external_ip ip)] ∧
      self'.service_proxies = self.service_proxies.map (fun q =>
        if q.addr = x then
          { prox with external_ip := some ip, external_ip_action := none }
        else q) ∧
      self'.sources = self.sources ∧
      self'.actions = self.actions.filter (fun y => y.id ≠ a) ∧
      self'.mappings = self.mappings := by
  have hx : prox.addr = x := find_proxy_addr self x prox hprox
  subst hx
  refine ⟨_, by simp only [run_got_external_ip_address, hprox]; rfl, ?_, ?_, ?_, ?_, ?_, ?_⟩
  all_goals rw [got_external_ip_address_ok self prox a ip pm ha]
  · exact find_store_proxy _ _ prox hprox
  all_goals rfl

/-- The scenario for C11: the device of the scenario, with the address `203.0.113.4`
cached and its `ProxyMapping` mapped, completes `GetExternalIPAddress` with
`198.51.100.7`: one `mapped-external-port` replacing `203.0.113.4` and one
`new-external-ip`. -/
theorem got_external_ip_address_success_witness :
    ∃ self', run_got_external_ip_address scenario_mapped 2 1 (Except.ok "198.51.100.7")
        scenario_pm = some self' ∧
      find_proxy self' 1 = some
        { scenario_proxy_mapped with
          external_ip := some "198.51.100.7", external_ip_action := none } ∧
      self'.log = scenario_mapped.log ++
        [Effect.emit (Signal.mapped_external_port "UDP" "198.51.100.7"
          (some "203.0.113.4") 5000 "10.0.0.5" 5000 "voip"),
         Effect.emit (Signal.new_external_ip "198.51.100.7")] := by
  obtain ⟨self', h1, h2, h3, _⟩ := got_external_ip_address_success scenario_mapped 1 2
    scenario_proxy_mapped "198.51.100.7" scenario_pm (by decide) rfl
  exact ⟨self', h1, h2, h3⟩

theorem got_external_ip_address_failed (self : FsUpnpSimpleIgd) (prox : Proxy) (a : Nat)
    (error : GError) (pm : ProxyMapping) (ha : prox.external_ip_action = some a) :
    _service_proxy_got_external_ip_address self prox a (Except.error error) pm =
      ({ self with
          actions := self.actions.filter (fun x => x.id ≠ a)
          log := self.log ++ [Effect.emit (Signal.error_mapping_port error
            pm.mapping.protocol pm.mapping.external_port pm.mapping.description)] },
       { prox with external_ip_action := none }) := by
  simp [_service_proxy_got_external_ip_address, ha, g_signal_emit,
    gupnp_service_proxy_end_action]

/-- C12, the code at the failing input: on the device of the scenario the pending
`GetExternalIPAddress` fails with the error 501 of the gateway.  Whatever the name `pm`
of the failure branch stands for, what the log gains is one `error-mapping-port`
carrying the fields of that `ProxyMapping`, and no `error` signal; the proxies keep their
cached address and `ProxyMapping`s, and the sources are unchanged. -/
theorem got_external_ip_address_failure_emits (pm : ProxyMapping) :
    (run_got_external_ip_address scenario_device 2 1
        (Except.error ⟨"gupnp-control-error", 501, "Action Failed"⟩) pm).map
      (fun self' => (self'.log.drop scenario_device.log.length,
        self'.service_proxies.map (fun prox => (prox.external_ip, prox.proxymappings)),
        self'.sources)) =
      some ([Effect.emit (Signal.error_mapping_port
          ⟨"gupnp-control-error", 501, "Action Failed"⟩ pm.mapping.protocol
          pm.mapping.external_port pm.mapping.description)],
        scenario_device.service_proxies.map
          (fun prox => (prox.external_ip, prox.proxymappings)),
        scenario_device.sources) ∧
    ∀ self', run_got_external_ip_address scenario_device 2 1
        (Except.error ⟨"gupnp-control-error", 501, "Action Failed"⟩) pm = some self' →
      Effect.emit (Signal.error ⟨"gupnp-control-error", 501, "Action Failed"⟩) ∉
        self'.log := by
  have hfind : find_proxy scenario_device 1 = some scenario_proxy := by decide
  have hrun : run_got_external_ip_address scenario_device 2 1
      (Except.error ⟨"gupnp-control-error", 501, "Action Failed"⟩) pm =
      some (store_proxy
        { scenario_device with
          actions := scenario_device.actions.filter (fun x => x.id ≠ 2)
          log := scenario_device.log ++ [Effect.emit (Signal.error_mapping_port
            ⟨"gupnp-control-error", 501, "Action Failed"⟩ pm.mapping.protocol
            pm.mapping.external_port pm.mapping.description)] }
        { scenario_proxy with external_ip_action := none }) := by
    simp only [run_got_external_ip_address, hfind]
    rw [got_external_ip_address_failed scenario_device scenario_proxy 2 _ pm rfl]
  constructor
  · rw [hrun]
    rfl
  · intro self' h
    rw [hrun] at h
    cases h
    simp [store_proxy]
    decide

/-- The difference between the two handlers that learn the external address: the
completion of `GetExternalIPAddress` emits `new-external-ip` after the signals that both
emit, and clears the pending action. -/
theorem got_external_ip_address_vs_changed (self : FsUpnpSimpleIgd) (prox : Proxy)
    (a : Nat) (ip : String) (pm : ProxyMapping) (ha : prox.external_ip_action = some a) :
    (_service_proxy_got_external_ip_address self prox a (Except.ok ip) pm).1.log =
      (_external_ip_address_changed self prox ip).1.log ++
        [Effect.emit (Signal.new_external_ip ip)] ∧
    (_service_proxy_got_external_ip_address self prox a (Except.ok ip) pm).2.external_ip =
      (_external_ip_address_changed self prox ip).2.external_ip := by
  rw [got_external_ip_address_ok self prox a ip pm ha, external_ip_address_changed_eq]
  exact ⟨rfl, rfl⟩

/-- C13, the code at the failing input: on the device of the scenario, with
`203.0.113.4` cached and its `ProxyMapping` mapped, the notification of the address
`198.51.100.7` emits one `mapped-external-port` and nothing else, where the successful
completion of `GetExternalIPAddress` with the same address emits the same
`mapped-external-port` followed by `new-external-ip`; the cached address is the same
after both. -/
theorem external_ip_address_changed_omits_new_external_ip :
    (run_external_ip_address_changed scenario_mapped 1 "198.51.100.7").map
      (fun self' => (self'.log.drop scenario_mapped.log.length,
        self'.service_proxies.map (fun prox => prox.external_ip))) =
      some ([Effect.emit (Signal.mapped_external_port "UDP" "198.51.100.7"
          (some "203.0.113.4") 5000 "10.0.0.5" 5000 "voip")],
        [some "198.51.100.7"]) ∧
    (run_got_external_ip_address scenario_mapped 2 1 (Except.ok "198.51.100.7")
        scenario_pm).map
      (fun self' => (self'.log.drop scenario_mapped.log.length,
        self'.service_proxies.map (fun prox => prox.external_ip))) =
      some ([Effect.emit (Signal.mapped_external_port "UDP" "198.51.100.7"
          (some "203.0.113.4") 5000 "10.0.0.5" 5000 "voip"),
         Effect.emit (Signal.new_external_ip "198.51.100.7")],
        [some "198.51.100.7"]) :=
  ⟨rfl, rfl⟩

theorem find_proxy_store_proxymapping_eq (self : FsUpnpSimpleIgd) (pm : ProxyMapping)
    (x : Nat) :
    find_proxy (store_proxymapping self pm) x =
      (find_proxy self x).map (fun q => Proxy.mk q.addr q.proxy q.external_ip
        q.external_ip_action
        (q.proxymappings.map (fun r => if r.addr = pm.addr then pm else r))) := by
  unfold find_proxy
  simp only [store_proxymapping, List.find?_map]
  rfl

theorem mapped_events_append (ip : String) (prev : Option String)
    (l₁ l₂ : List ProxyMapping) :
    mapped_events ip prev (l₁ ++ l₂) = mapped_events ip prev l₁ ++ mapped_events ip prev l₂ := by
  simp [mapped_events, List.filter_append]

theorem map_store_eq_self (p : Nat) (pm' : ProxyMapping) (l : List ProxyMapping)
    (h : ∀ q ∈ l, q.addr ≠ p) :
    l.map (fun r => if r.addr = p then pm' else r) = l := by
  conv => rhs; rw [← List.map_id l]
  apply List.map_congr_left
  intro q hq
  simp [h q hq]

/-- C20: when the `AddPortMapping` of a `ProxyMapping` succeeds while its proxy has no
cached external address, nothing is emitted, the `ProxyMapping` becomes mapped and its
renewal source is attached; when the address `ip` of the proxy is learned next, by the
notification or by the completion of the pending `GetExternalIPAddress`, the log gains
the `mapped-external-port` signals of the mapped `ProxyMapping`s of the proxy in the
order of the array, among them, at the place of this `ProxyMapping`, exactly one
`mapped-external-port` (protocol, `ip`, none, external port, local address, local port,
description) for it (followed by `new-external-ip` for the completion). -/
theorem mapped_then_external_ip (self : FsUpnpSimpleIgd) (p a t : Nat)
    (pm : ProxyMapping) (prox : Proxy) (pre post : List ProxyMapping) (ip : String)
    (hpm : find_proxymapping self p = some pm)
    (hprox : find_proxy self pm.proxy = some prox)
    (ha : pm.action = some a) (ht : pm.timeout_src = some t) (hfresh : t < self.next)
    (hip : prox.external_ip = none)
    (hpms : prox.proxymappings = pre ++ pm :: post)
    (hpre : ∀ q ∈ pre, q.addr ≠ p) (hpost : ∀ q ∈ post, q.addr ≠ p) :
    ∃ s1, run_added_port_mapping self a p none = some s1 ∧
      s1.log = self.log ∧
      find_proxymapping s1 p = some { pm with
          action := none, timeout_src := none, mapped := true,
          renew_src := some self.next } ∧
      GSource.mk self.next (pm.mapping.lease_duration / 2)
          SourceFunc._renew_mapping_timeout (UserData.pm p) ∈ s1.sources ∧
      (∃ s2, run_external_ip_address_changed s1 pm.proxy ip = some s2 ∧
        s2.log = s1.log ++ mapped_events ip none pre ++
          [Effect.emit (Signal.mapped_external_port pm.mapping.protocol ip none
            pm.mapping.external_port pm.mapping.local_ip pm.mapping.local_port
            pm.mapping.description)] ++ mapped_events ip none post) ∧
      (∀ (b : Nat) (pm0 : ProxyMapping), prox.external_ip_action = some b →
        ∃ s2, run_got_external_ip_address s1 b pm.proxy (Except.ok ip) pm0 = some s2 ∧
          s2.log = s1.log ++ mapped_events ip none pre ++
            [Effect.emit (Signal.mapped_external_port pm.mapping.protocol ip none
              pm.mapping.external_port pm.mapping.local_ip pm.mapping.local_port
              pm.mapping.description)] ++ mapped_events ip none post ++
            [Effect.emit (Signal.new_external_ip ip)]) := by
  have hp : pm.addr = p := find_proxymapping_addr self p pm hpm
  subst hp
  have hne : self.next ≠ t := by omega
  have hrun : run_added_port_mapping self a pm.addr none =
      some (store_proxymapping (_service_proxy_added_port_mapping self prox pm a none).1
        (_service_proxy_added_port_mapping self prox pm a none).2) := by
    simp only [run_added_port_mapping, hpm, hprox]
  rw [added_port_mapping_ok self prox pm a t ha ht] at hrun
  simp only [hip, List.append_nil] at hrun
  obtain ⟨pm', hpm'⟩ : ∃ pm', ProxyMapping.mk pm.addr pm.proxy pm.mapping none none true
      (some self.next) = pm' := ⟨_, rfl⟩
  rw [hpm'] at hrun
  have hpm'a : pm'.addr = pm.addr := by rw [← hpm']
  have hpm'm : pm'.mapped = true := by rw [← hpm']
  have hpm'map : pm'.mapping = pm.mapping := by rw [← hpm']
  generalize hs1 : store_proxymapping _ pm' = s1 at hrun
  have hfp : find_proxy s1 pm.proxy = some
      { prox with proxymappings := pre ++ pm' :: post } := by
    rw [← hs1, find_proxy_store_proxymapping_eq]
    have : find_proxy { self with
        sources := (self.sources ++ [GSource.mk self.next (pm.mapping.lease_duration / 2)
          SourceFunc._renew_mapping_timeout (UserData.pm pm.addr)]).filter
            (fun s => s.id ≠ t)
        actions := self.actions.filter (fun x => x.id ≠ a)
        log := self.log
        next := self.next + 1 } pm.proxy = some prox := hprox
    rw [this]
    simp only [Option.map_some', hpms, List.map_append, List.map_cons, hpm'a, if_true]
    rw [map_store_eq_self pm.addr pm' pre hpre, map_store_eq_self pm.addr pm' post hpost]
  have hev : mapped_events ip none (pre ++ pm' :: post) =
      mapped_events ip none pre ++
        [Effect.emit (Signal.mapped_external_port pm.mapping.protocol ip none
          pm.mapping.external_port pm.mapping.local_ip pm.mapping.local_port
          pm.mapping.description)] ++ mapped_events ip none post := by
    have : pre ++ pm' :: post = pre ++ ([pm'] ++ post) := rfl
    rw [this, mapped_events_append, mapped_events_append]
    simp [mapped_events, hpm'm, hpm'map]
  refine ⟨s1, hrun, by rw [← hs1]; rfl, ?_, ?_, ?_, ?_⟩
  · rw [hpm', ← hs1, ← hpm'a]
    exact find_store_proxymapping _ _ pm (by rw [hpm'a]; exact hpm)
  · rw [← hs1]
    simp [store_proxymapping, List.filter_append, hne]
  · refine ⟨_, by simp only [run_external_ip_address_changed, hfp]; rfl, ?_⟩
    rw [external_ip_address_changed_eq]
    simp only [store_proxy, hip]
    rw [hev]
    simp [List.append_assoc]
  · intro b pm0 hb
    refine ⟨_, by simp only [run_got_external_ip_address, hfp]; rfl, ?_⟩
    rw [got_external_ip_address_ok _ { prox with proxymappings := pre ++ pm' :: post } b ip
      pm0 hb]
    simp only [store_proxy, hip]
    rw [hev]
    simp [List.append_assoc]

/-- The scenario for C20: on the device of the scenario, with no external address
cached, the request succeeds without a signal; the notification of `203.0.113.4` then
emits one `mapped-external-port` for the mapping, with no replaced address. -/
theorem mapped_then_external_ip_witness :
    ∃ s1, run_added_port_mapping scenario_device 4 3 none = some s1 ∧
      s1.log = scenario_device.log ∧
      ∃ s2, run_external_ip_address_changed s1 1 "203.0.113.4" = some s2 ∧
        s2.log = s1.log ++ [Effect.emit (Signal.mapped_external_port "UDP" "203.0.113.4"
          none 5000 "10.0.0.5" 5000 "voip")] := by
  obtain ⟨s1, h1, h2, _, _, ⟨s2, h3, h4⟩, _⟩ := mapped_then_external_ip scenario_device
    3 4 5 scenario_pm scenario_proxy [] [] "203.0.113.4" (by decide) (by decide) rfl rfl
    (by decide) rfl rfl (by simp) (by simp)
  exact ⟨s1, h1, h2, s2, h3, by
    rw [h4]
    simp only [mapped_events, List.filter_nil, List.map_nil, List.append_nil]
    rfl⟩

/-! ## Renewal -/

theorem run_renew_mapping_timeout_eq (self : FsUpnpSimpleIgd) (r p : Nat)
    (pm : ProxyMapping) (prox : Proxy)
    (hpm : find_proxymapping self p = some pm)
    (hprox : find_proxy self pm.proxy = some prox) :
    run_renew_mapping_timeout self r p =
      some { self with
        actions := self.actions ++ [⟨self.next, prox.proxy,
          Rpc.AddPortMapping "" pm.mapping.external_port pm.mapping.protocol
            pm.mapping.local_port pm.mapping.local_ip true pm.mapping.description
            pm.mapping.lease_duration,
          Callback._service_proxy_renewed_port_mapping, UserData.pm pm.addr⟩]
        log := self.log ++ [Effect.call prox.proxy
          (Rpc.AddPortMapping "" pm.mapping.external_port pm.mapping.protocol
            pm.mapping.local_port pm.mapping.local_ip true pm.mapping.description
            pm.mapping.lease_duration)]
        next := self.next + 1 } := by
  simp only [run_renew_mapping_timeout, hpm, hprox]
  rfl

/-- C15: for a mapped `ProxyMapping` with its renewal source, the completion of a renewal
`AddPortMapping` that reports failure emits exactly one `error-mapping-port` with the
error of the action and the protocol, external port and description of the mapping; the
completion that reports success emits nothing.  In both cases the proxies with all their
`ProxyMapping`s (so this one stays mapped, with its renewal source) and the sources
attached are unchanged; only the completed action leaves the actions in flight. -/
theorem renewed_port_mapping_completion (self : FsUpnpSimpleIgd) (action p r : Nat)
    (pm : ProxyMapping) (prox : Proxy)
    (hpm : find_proxymapping self p = some pm)
    (hprox : find_proxy self pm.proxy = some prox)
    (hm : pm.mapped = true) (hr : pm.renew_src = some r) :
    (∀ error, run_renewed_port_mapping self action p (some error) =
      some { self with
        actions := self.actions.filter (fun x => x.id ≠ action)
        log := self.log ++ [Effect.emit (Signal.error_mapping_port error
          pm.mapping.protocol pm.mapping.external_port pm.mapping.description)] }) ∧
    run_renewed_port_mapping self action p none =
      some { self with actions := self.actions.filter (fun x => x.id ≠ action) } ∧
    (∀ error self', run_renewed_port_mapping self action p error = some self' →
      self'.sources = self.sources ∧
      ∃ q, find_proxymapping self' p = some q ∧ q.mapped = true ∧
        q.renew_src = some r) := by
  refine ⟨?_, ?_, ?_⟩
  · intro error
    simp only [run_renewed_port_mapping, hpm, hprox]
    rfl
  · simp only [run_renewed_port_mapping, hpm, hprox]
    rfl
  · intro error self' h
    simp only [run_renewed_port_mapping, hpm, hprox, Option.some.injEq] at h
    subst h
    cases error with
    | none => exact ⟨rfl, pm, hpm, hm, hr⟩
    | some e => exact ⟨rfl, pm, hpm, hm, hr⟩

/-- The scenario for C15: on the device with the mapping of 100 seconds mapped, a renewal
that fails with the error 718 of the gateway emits one `error-mapping-port` for
`("UDP", 6000, "game")`; the renewal source stays attached. -/
theorem renewed_port_mapping_completion_witness :
    ∃ self', run_renewed_port_mapping scenario_lease 7 3
        (some ⟨"gupnp-control-error", 718, "ConflictInMappingEntry"⟩) = some self' ∧
      self'.log = scenario_lease.log ++ [Effect.emit (Signal.error_mapping_port
        ⟨"gupnp-control-error", 718, "ConflictInMappingEntry"⟩ "UDP" 6000 "game")] ∧
      self'.sources = [⟨6, 50, SourceFunc._renew_mapping_timeout, UserData.pm 3⟩] ∧
      find_proxymapping self' 3 = some scenario_lease_pm := by
  have h := renewed_port_mapping_completion scenario_lease 7 3 6 scenario_lease_pm
    ⟨1, ⟨"uuid:igd-a"⟩, none, some 2, [scenario_lease_pm]⟩ (by decide) (by decide) rfl rfl
  exact ⟨_, h.1 _, rfl, rfl, by decide⟩

/-- C16: for a mapped `ProxyMapping` whose renewal source, of interval
`lease_duration / 2`, is attached, the first `n` firings of the source return, for every
`n`; each one begins one `AddPortMapping` on the proxy with an empty remote host, the
external port, the protocol, the local port, the local address, enabled, the description
and the lease duration, which are the arguments of the request made when the
`ProxyMapping` was created; the sources are unchanged, so no timeout is attached and the
renewal source stays attached with its interval, and the `k`-th firing is due
`k * (lease_duration / 2)` seconds after it was attached; the proxies and their
`ProxyMapping`s are unchanged. -/
theorem renewal_firings (self : FsUpnpSimpleIgd) (p r : Nat) (pm : ProxyMapping)
    (prox : Proxy)
    (hpm : find_proxymapping self p = some pm)
    (hprox : find_proxy self pm.proxy = some prox)
    (hm : pm.mapped = true) (hr : pm.renew_src = some r)
    (hsrc : GSource.mk r (pm.mapping.lease_duration / 2)
      SourceFunc._renew_mapping_timeout (UserData.pm p) ∈ self.sources) (n : Nat) :
    (∃ self', renewals r p n self = some self' ∧
      self'.log = self.log ++ List.replicate n (Effect.call prox.proxy
        (Rpc.AddPortMapping "" pm.mapping.external_port pm.mapping.protocol
          pm.mapping.local_port pm.mapping.local_ip true pm.mapping.description
          pm.mapping.lease_duration)) ∧
      self'.sources = self.sources ∧
      GSource.mk r (pm.mapping.lease_duration / 2)
        SourceFunc._renew_mapping_timeout (UserData.pm p) ∈ self'.sources ∧
      self'.service_proxies = self.service_proxies ∧
      ∃ q, find_proxymapping self' p = some q ∧ q.mapped = true ∧
        q.renew_src = some r) ∧
    (∀ s : FsUpnpSimpleIgd,
      (fs_upnp_simple_igd_add_proxy_mapping s prox pm.mapping).1.log =
        s.log ++ [Effect.call prox.proxy
          (Rpc.AddPortMapping "" pm.mapping.external_port pm.mapping.protocol
            pm.mapping.local_port pm.mapping.local_ip true pm.mapping.description
            pm.mapping.lease_duration)]) ∧
    (∀ k, g_timeout_due (pm.mapping.lease_duration / 2) k =
      k * (pm.mapping.lease_duration / 2)) := by
  refine ⟨?_, fun s => rfl, fun k => rfl⟩
  suffices h : ∀ (n : Nat) (s : FsUpnpSimpleIgd),
      s.service_proxies = self.service_proxies →
      ∃ self', renewals r p n s = some self' ∧
        self'.log = s.log ++ List.replicate n (Effect.call prox.proxy
          (Rpc.AddPortMapping "" pm.mapping.external_port pm.mapping.protocol
            pm.mapping.local_port pm.mapping.local_ip true pm.mapping.description
            pm.mapping.lease_duration)) ∧
        self'.sources = s.sources ∧ self'.service_proxies = s.service_proxies by
    obtain ⟨self', h1, h2, h3, h4⟩ := h n self rfl
    exact ⟨self', h1, h2, h3, by rw [h3]; exact hsrc, h4, pm,
      by rw [find_proxymapping_congr self self' p h4]; exact hpm, hm, hr⟩
  intro n
  induction n with
  | zero => intro s _; exact ⟨s, rfl, by simp, rfl, rfl⟩
  | succ n ih =>
    intro s hs
    have hpm' : find_proxymapping s p = some pm := by
      rw [find_proxymapping_congr self s p hs]; exact hpm
    have hprox' : find_proxy s pm.proxy = some prox := by
      unfold find_proxy at hprox ⊢; rw [hs]; exact hprox
    obtain ⟨self', h1, h2, h3, h4⟩ := ih _ (show ({ s with
        actions := s.actions ++ [⟨s.next, prox.proxy,
          Rpc.AddPortMapping "" pm.mapping.external_port pm.mapping.protocol
            pm.mapping.local_port pm.mapping.local_ip true pm.mapping.description
            pm.mapping.lease_duration,
          Callback._service_proxy_renewed_port_mapping, UserData.pm pm.addr⟩]
        log := s.log ++ [Effect.call prox.proxy
          (Rpc.AddPortMapping "" pm.mapping.external_port pm.mapping.protocol
            pm.mapping.local_port pm.mapping.local_ip true pm.mapping.description
            pm.mapping.lease_duration)]
        next := s.next + 1 } : FsUpnpSimpleIgd).service_proxies = self.service_proxies
      from hs)
    refine ⟨self', ?_, ?_, h3, h4⟩
    · simp only [renewals, run_renew_mapping_timeout_eq s r p pm prox hpm' hprox']
      exact h1
    · rw [h2]
      simp [List.replicate_succ]

/-- The scenario of the specification for C16: with a lease of 100 seconds the renewal
source has an interval of 50 seconds; its first three firings, due at 50, 100 and 150
seconds, each begin the `AddPortMapping` of the request again and leave the source
attached. -/
theorem renewal_firings_witness :
    (∃ self', renewals 6 3 3 scenario_lease = some self' ∧
      self'.log = scenario_lease.log ++ List.replicate 3
        (Effect.call ⟨"uuid:igd-a"⟩
          (Rpc.AddPortMapping "" 6000 "UDP" 6000 "10.0.0.5" true "game" 100)) ∧
      self'.sources = [⟨6, 50, SourceFunc._renew_mapping_timeout, UserData.pm 3⟩]) ∧
    [g_timeout_due 50 1, g_timeout_due 50 2, g_timeout_due 50 3] = [50, 100, 150] := by
  obtain ⟨⟨self', h1, h2, h3, _⟩, _, _⟩ := renewal_firings scenario_lease 3 6
    scenario_lease_pm ⟨1, ⟨"uuid:igd-a"⟩, none, some 2, [scenario_lease_pm]⟩
    (by decide) (by decide) rfl rfl (by decide) 3
  exact ⟨⟨self', h1, h2, by rw [h3]; rfl⟩, rfl⟩

/-! ## Isolation of failures -/

theorem find_store_proxymapping_ne (self : FsUpnpSimpleIgd) (pm : ProxyMapping) (q : Nat)
    (hq : q ≠ pm.addr) :
    find_proxymapping (store_proxymapping self pm) q = find_proxymapping self q := by
  unfold find_proxymapping
  rw [proxymappings_store, List.find?_map]
  have : ((fun r : ProxyMapping => decide (r.addr = q)) ∘
      fun r => if r.addr = pm.addr then pm else r) = fun r => decide (r.addr = q) := by
    funext r
    by_cases hr : r.addr = pm.addr
    · have h1 : r.addr ≠ q := by rw [hr]; exact Ne.symm hq
      simp [hr, h1, Ne.symm hq]
    · simp [hr]
  rw [this]
  cases h : List.find? (fun r => decide (r.addr = q)) (proxymappings self) with
  | none => rfl
  | some r =>
    have hr : r.addr = q := by simpa using List.find?_some h
    have : r.addr ≠ pm.addr := by rw [hr]; exact hq
    simp [this]

theorem run_added_port_mapping_failed (self : FsUpnpSimpleIgd) (p a t : Nat)
    (pm : ProxyMapping) (prox : Proxy) (error : GError)
    (hpm : find_proxymapping self p = some pm)
    (hprox : find_proxy self pm.proxy = some prox)
    (ha : pm.action = some a) (ht : pm.timeout_src = some t) :
    run_added_port_mapping self a p (some error) =
      some (store_proxymapping
        { self with
          sources := self.sources.filter (fun s => s.id ≠ t)
          actions := self.actions.filter (fun x => x.id ≠ a)
          log := self.log ++ [Effect.emit (Signal.error_mapping_port error
            pm.mapping.protocol pm.mapping.external_port pm.mapping.description)] }
        { pm with action := none, timeout_src := none }) := by
  simp only [run_added_port_mapping, hpm, hprox]
  rw [added_port_mapping_failed self prox pm a t error ha ht]

theorem run_add_mapping_timeout_fired (self : FsUpnpSimpleIgd) (p a t : Nat)
    (pm : ProxyMapping)
    (hpm : find_proxymapping self p = some pm)
    (ha : pm.action = some a) (ht : pm.timeout_src = some t) :
    run_add_mapping_timeout self p =
      some (store_proxymapping
        { self with
          sources := self.sources.filter (fun s => s.id ≠ t)
          actions := self.actions.filter (fun x => x.id ≠ a)
          log := self.log ++ [Effect.emit (Signal.error_mapping_port
            ⟨FS_UPNP_SIMPLE_IGD_ERROR, FS_UPNP_SIMPLE_IGD_ERROR_TIMEOUT,
              "Timeout while mapping port"⟩
            pm.mapping.protocol pm.mapping.external_port pm.mapping.description)] }
        { pm with action := none, timeout_src := none }) := by
  simp only [run_add_mapping_timeout, hpm]
  rw [add_mapping_timeout_fired self pm a t ha ht]

/-- After a write to the `ProxyMapping` at another address, the success of the request
of the `ProxyMapping` at `q` makes it mapped. -/
theorem added_port_mapping_after_store (s : FsUpnpSimpleIgd) (pm' : ProxyMapping)
    (q b u : Nat) (pmq : ProxyMapping) (proxq : Proxy)
    (hq : q ≠ pm'.addr)
    (hpmq : find_proxymapping s q = some pmq)
    (hproxq : find_proxy s pmq.proxy = some proxq)
    (hb : pmq.action = some b) (hu : pmq.timeout_src = some u) :
    ∃ s2, run_added_port_mapping (store_proxymapping s pm') b q none = some s2 ∧
      find_proxymapping s2 q = some { pmq with
        action := none, timeout_src := none, mapped := true, renew_src := some s.next } := by
  have hqa : pmq.addr = q := find_proxymapping_addr s q pmq hpmq
  have h1 : find_proxymapping (store_proxymapping s pm') q = some pmq := by
    rw [find_store_proxymapping_ne s pm' q hq]; exact hpmq
  have h2 := find_proxy_store_proxymapping_eq s pm' pmq.proxy
  rw [hproxq] at h2
  simp only [Option.map_some'] at h2
  refine ⟨_, by simp only [run_added_port_mapping, h1, h2]; rfl, ?_⟩
  rw [added_port_mapping_ok _ _ pmq b u hb hu]
  subst hqa
  exact find_store_proxymapping _ _ pmq h1

/-- C17: for a `ProxyMapping` `P` at address `p` whose request is in flight, the failed
completion of its `AddPortMapping` and the firing of its request timeout each emit
exactly one `error-mapping-port` and write `P` only: in the arrays of all the proxies
every `ProxyMapping` at another address is unchanged at its place, the proxies keep their
cached external address, the registry is unchanged, and of the sources and actions only
the timeout and the action of `P` are removed (`error` is the error of the failed
completion, or none for the timeout).  A request in flight for a `ProxyMapping`
at another address that succeeds afterwards makes that `ProxyMapping` mapped. -/
theorem failure_isolated (self : FsUpnpSimpleIgd) (p a t : Nat) (pm : ProxyMapping)
    (prox : Proxy) (error : Option GError)
    (hpm : find_proxymapping self p = some pm)
    (hprox : find_proxy self pm.proxy = some prox)
    (ha : pm.action = some a) (ht : pm.timeout_src = some t) :
    ∃ self' e,
      (match error with
        | some err => run_added_port_mapping self a p (some err) = some self' ∧ e = err
        | none => run_add_mapping_timeout self p = some self' ∧
            e = ⟨FS_UPNP_SIMPLE_IGD_ERROR, FS_UPNP_SIMPLE_IGD_ERROR_TIMEOUT,
              "Timeout while mapping port"⟩) ∧
      self'.log = self.log ++ [Effect.emit (Signal.error_mapping_port e
        pm.mapping.protocol pm.mapping.external_port pm.mapping.description)] ∧
      self'.service_proxies = self.service_proxies.map (fun x =>
        { x with proxymappings := x.proxymappings.map (fun q =>
            if q.addr = p then { pm with action := none, timeout_src := none } else q) }) ∧
      (∀ q, q ≠ p → find_proxymapping self' q = find_proxymapping self q) ∧
      self'.mappings = self.mappings ∧
      self'.sources = self.sources.filter (fun s => s.id ≠ t) ∧
      self'.actions = self.actions.filter (fun x => x.id ≠ a) ∧
      (∀ (q b u : Nat) (pmq : ProxyMapping) (proxq : Proxy), q ≠ p →
        find_proxymapping self q = some pmq → find_proxy self pmq.proxy = some proxq →
        pmq.action = some b → pmq.timeout_src = some u →
        ∃ s2, run_added_port_mapping self' b q none = some s2 ∧
          find_proxymapping s2 q = some { pmq with
            action := none, timeout_src := none, mapped := true,
            renew_src := some self.next }) := by
  have hp : pm.addr = p := find_proxymapping_addr self p pm hpm
  subst hp
  cases error with
  | some err =>
    refine ⟨_, err, ⟨run_added_port_mapping_failed self pm.addr a t pm prox err hpm hprox
      ha ht, rfl⟩, rfl, rfl, ?_, rfl, rfl, rfl, ?_⟩
    · intro q hq
      exact find_store_proxymapping_ne _ _ q hq
    · intro q b u pmq proxq hq hpmq hproxq hb hu
      exact added_port_mapping_after_store _ _ q b u pmq proxq hq hpmq hproxq hb hu
  | none =>
    refine ⟨_, _, ⟨run_add_mapping_timeout_fired self pm.addr a t pm hpm ha ht, rfl⟩,
      rfl, rfl, ?_, rfl, rfl, rfl, ?_⟩
    · intro q hq
      exact find_store_proxymapping_ne _ _ q hq
    · intro q b u pmq proxq hq hpmq hproxq hb hu
      exact added_port_mapping_after_store _ _ q b u pmq proxq hq hpmq hproxq hb hu

/-- The scenario of the specification for C17: with two devices and one mapping, the
request fails on the first device: one `error-mapping-port`; the request of the second
device succeeds afterwards and its `ProxyMapping` is mapped. -/
theorem failure_isolated_witness :
    ∃ self', run_added_port_mapping scenario_two_requesting 4 3
        (some ⟨"gupnp-control-error", 718, "ConflictInMappingEntry"⟩) = some self' ∧
      self'.log = scenario_two_requesting.log ++ [Effect.emit (Signal.error_mapping_port
        ⟨"gupnp-control-error", 718, "ConflictInMappingEntry"⟩ "UDP" 5000 "voip")] ∧
      ∃ s2, run_added_port_mapping self' 9 8 none = some s2 ∧
        find_proxymapping s2 8 = some
          ⟨8, 6, scenario_mapping, none, none, true, some 11⟩ := by
  obtain ⟨self', e, h1, h2, _, _, _, _, _, h3⟩ := failure_isolated scenario_two_requesting
    3 4 5 scenario_pm scenario_proxy
    (some ⟨"gupnp-control-error", 718, "ConflictInMappingEntry"⟩)
    (by decide) (by decide) rfl rfl
  obtain ⟨h1a, rfl⟩ := h1
  exact ⟨self', h1a, h2, h3 8 9 10 ⟨8, 6, scenario_mapping, some 9, some 10, false, none⟩
    ⟨6, ⟨"uuid:igd-b"⟩, none, some 7,
      [⟨8, 6, scenario_mapping, some 9, some 10, false, none⟩]⟩
    (by decide) (by decide) (by decide) rfl rfl⟩

/-! ## Removal of a device -/

/-- The function `stop_proxymapping` leaves the renewal source of the `ProxyMapping`
alone: the field is kept and only the timeout is taken out of the sources. -/
theorem stop_proxymapping_keeps_renewal (self : FsUpnpSimpleIgd) (pm : ProxyMapping) :
    (stop_proxymapping self pm).2.renew_src = pm.renew_src ∧
    ∀ s ∈ self.sources, pm.timeout_src ≠ some s.id →
      s ∈ (stop_proxymapping self pm).1.sources := by
  refine ⟨rfl, ?_⟩
  intro s hs hne
  unfold stop_proxymapping
  cases ha : pm.action <;> cases ht : pm.timeout_src <;>
    simp_all [g_source_destroy, gupnp_service_proxy_cancel_action, eq_comm]

/-- C18, the code at the failing input: with the `ProxyMapping` of the device
`uuid:igd-a` mapped and its renewal source (6, every 1800 seconds) attached, the removal
of the device takes the proxy out of the array, and the `ProxyMapping` at 3 with it, but
the renewal source of that `ProxyMapping` is still attached; after the teardown of the
instance it is still attached as well. -/
theorem device_removal_leaves_renewal :
    (_cp_service_unavail scenario_two_devices ⟨"uuid:igd-a"⟩).service_proxies.map
      (fun prox => prox.proxy.udn) = ["uuid:igd-b"] ∧
    find_proxymapping (_cp_service_unavail scenario_two_devices ⟨"uuid:igd-a"⟩) 3 = none ∧
    GSource.mk 6 1800 SourceFunc._renew_mapping_timeout (UserData.pm 3) ∈
      (_cp_service_unavail scenario_two_devices ⟨"uuid:igd-a"⟩).sources ∧
    (fs_upnp_simple_igd_dispose scenario_two_devices).map
      (fun self' => (self'.service_proxies, self'.sources)) =
      some ([], [GSource.mk 6 1800 SourceFunc._renew_mapping_timeout (UserData.pm 3)]) := by
  refine ⟨by decide, by decide, by decide, rfl⟩

/-! ## Consistency of the reachable states -/

theorem skeleton_addrs (proxies : List Proxy) :
    proxies.map (fun prox => prox.addr) = (skeleton proxies).map (fun x => x.1) := by
  simp [skeleton, List.map_map, Function.comp]

theorem skeleton_pm_addrs (proxies : List Proxy) :
    (all_proxymappings proxies).map (fun pm => pm.addr) =
      ((skeleton proxies).map (fun x => x.2.map (fun t => t.1))).flatten := by
  unfold skeleton all_proxymappings
  rw [List.map_flatten, List.map_map, List.map_map]
  congr 1
  apply List.map_congr_left
  intro prox _
  simp [List.map_map, Function.comp]

theorem skeleton_mem (proxies : List Proxy) (prox : Proxy) (h : prox ∈ proxies) :
    (prox.addr, prox.proxymappings.map (fun pm => (pm.addr, pm.proxy, pm.mapping))) ∈
      skeleton proxies :=
  List.mem_map.mpr ⟨prox, h, rfl⟩

/-- Consistency depends only on the registry, the skeleton of the proxies and, upwards,
on the allocation counter. -/
theorem Consistent.congr {s t : FsUpnpSimpleIgd} (h : Consistent s)
    (hm : t.mappings = s.mappings)
    (hsk : skeleton t.service_proxies = skeleton s.service_proxies)
    (hn : s.next ≤ t.next) : Consistent t := by
  have hback : ∀ prox ∈ t.service_proxies, ∃ prox0 ∈ s.service_proxies,
      prox0.addr = prox.addr ∧
      prox0.proxymappings.map (fun pm => (pm.addr, pm.proxy, pm.mapping)) =
        prox.proxymappings.map (fun pm => (pm.addr, pm.proxy, pm.mapping)) := by
    intro prox hp
    have := skeleton_mem _ prox hp
    rw [hsk] at this
    obtain ⟨prox0, h0, heq⟩ := List.mem_map.mp this
    simp only [Prod.mk.injEq] at heq
    exact ⟨prox0, h0, heq.1, heq.2⟩
  refine ⟨?_, ?_, ?_, ?_, ?_, ?_, ?_, ?_⟩
  · rw [hm]; exact h.mappings_nodup
  · intro m hmem
    rw [hm] at hmem
    exact Nat.lt_of_lt_of_le (h.mappings_fresh m hmem) hn
  · rw [skeleton_addrs, hsk, ← skeleton_addrs]; exact h.proxies_nodup
  · intro prox hp
    obtain ⟨prox0, h0, ha, _⟩ := hback prox hp
    rw [← ha]
    exact Nat.lt_of_lt_of_le (h.proxies_fresh prox0 h0) hn
  · rw [skeleton_pm_addrs, hsk, ← skeleton_pm_addrs]; exact h.pms_nodup
  · intro pm hpm
    have h1 : pm.addr ∈ (all_proxymappings t.service_proxies).map (fun pm => pm.addr) :=
      List.mem_map.mpr ⟨pm, hpm, rfl⟩
    rw [skeleton_pm_addrs, hsk, ← skeleton_pm_addrs] at h1
    obtain ⟨pm0, h0, ha⟩ := List.mem_map.mp h1
    rw [← ha]
    exact Nat.lt_of_lt_of_le (h.pms_fresh pm0 h0) hn
  · intro prox hp
    obtain ⟨prox0, h0, _, hpms⟩ := hback prox hp
    have h1 : List.map (fun pm => pm.mapping) prox0.proxymappings =
        List.map (fun pm => pm.mapping) prox.proxymappings := by
      have := congrArg (List.map (fun t : Nat × Nat × Mapping => t.2.2)) hpms
      rw [List.map_map, List.map_map] at this
      exact this
    rw [hm, ← h1]
    exact h.referenced prox0 h0
  · intro prox hp pm hpm
    obtain ⟨prox0, h0, ha, hpms⟩ := hback prox hp
    have h1 : (pm.addr, pm.proxy, pm.mapping) ∈
        prox.proxymappings.map (fun pm => (pm.addr, pm.proxy, pm.mapping)) :=
      List.mem_map.mpr ⟨pm, hpm, rfl⟩
    rw [← hpms] at h1
    obtain ⟨pm0, hpm0, heq⟩ := List.mem_map.mp h1
    simp only [Prod.mk.injEq] at heq
    rw [← heq.2.1, ← ha]
    exact h.owner prox0 h0 pm0 hpm0

theorem consistent_init : Consistent fs_upnp_simple_igd_init :=
  ⟨by decide, by simp [fs_upnp_simple_igd_init], by decide,
    by simp [fs_upnp_simple_igd_init], by decide,
    by simp [fs_upnp_simple_igd_init, all_proxymappings],
    by simp [fs_upnp_simple_igd_init], by simp [fs_upnp_simple_igd_init]⟩

theorem find_proxymapping_mem (s : FsUpnpSimpleIgd) (p : Nat) (pm : ProxyMapping)
    (h : find_proxymapping s p = some pm) : pm ∈ all_proxymappings s.service_proxies :=
  List.mem_of_find?_eq_some h

theorem find_proxy_mem (s : FsUpnpSimpleIgd) (x : Nat) (prox : Proxy)
    (h : find_proxy s x = some prox) : prox ∈ s.service_proxies :=
  List.mem_of_find?_eq_some h

theorem skeleton_store_proxymapping (s r : FsUpnpSimpleIgd) (p : Nat)
    (pm pm' : ProxyMapping)
    (hnd : ((all_proxymappings s.service_proxies).map (fun pm => pm.addr)).Nodup)
    (hpm : find_proxymapping s p = some pm)
    (hr : r.service_proxies = s.service_proxies)
    (ha : pm'.addr = pm.addr) (hp : pm'.proxy = pm.proxy) (hm : pm'.mapping = pm.mapping) :
    skeleton (store_proxymapping r pm').service_proxies = skeleton s.service_proxies := by
  simp only [store_proxymapping, skeleton, hr, List.map_map]
  apply List.map_congr_left
  intro prox hprox
  simp only [Function.comp, Prod.mk.injEq, true_and, List.map_map]
  apply List.map_congr_left
  intro q hq
  by_cases hqa : q.addr = pm'.addr
  · have hqmem : q ∈ all_proxymappings s.service_proxies :=
      (mem_all_proxymappings _ q).mpr ⟨prox, hprox, hq⟩
    have hqpm : q = pm := List.inj_on_of_nodup_map hnd hqmem
      (find_proxymapping_mem s p pm hpm) (by rw [hqa, ha])
    simp [hqa, ha, hp, hm, hqpm]
  · simp [hqa]

theorem skeleton_store_proxy (s r : FsUpnpSimpleIgd) (x : Nat) (prox prox' : Proxy)
    (hnd : (s.service_proxies.map (fun prox => prox.addr)).Nodup)
    (hprox : find_proxy s x = some prox)
    (hr : r.service_proxies = s.service_proxies)
    (ha : prox'.addr = prox.addr) (hp : prox'.proxymappings = prox.proxymappings) :
    skeleton (store_proxy r prox').service_proxies = skeleton s.service_proxies := by
  simp only [store_proxy, skeleton, hr, List.map_map]
  apply List.map_congr_left
  intro q hq
  by_cases hqa : q.addr = prox'.addr
  · have hqp : q = prox := List.inj_on_of_nodup_map hnd hq
      (find_proxy_mem s x prox hprox) (by rw [hqa, ha])
    simp [hqa, ha, hp, hqp]
  · simp [hqa]

theorem added_port_mapping_frame (self : FsUpnpSimpleIgd) (prox : Proxy)
    (pm : ProxyMapping) (action : Nat) (error : Option GError) :
    (_service_proxy_added_port_mapping self prox pm action error).1.service_proxies =
      self.service_proxies ∧
    (_service_proxy_added_port_mapping self prox pm action error).1.mappings =
      self.mappings ∧
    self.next ≤ (_service_proxy_added_port_mapping self prox pm action error).1.next ∧
    (_service_proxy_added_port_mapping self prox pm action error).2.addr = pm.addr ∧
    (_service_proxy_added_port_mapping self prox pm action error).2.proxy = pm.proxy ∧
    (_service_proxy_added_port_mapping self prox pm action error).2.mapping =
      pm.mapping := by
  unfold _service_proxy_added_port_mapping stop_proxymapping
  by_cases ha : pm.action = some action
  · cases error <;> cases prox.external_ip <;> cases pm.timeout_src <;>
      simp [ha, g_source_destroy, g_timeout_source_attach, g_signal_emit,
        gupnp_service_proxy_end_action]
  · simp [ha, g_critical]

theorem add_mapping_timeout_frame (self : FsUpnpSimpleIgd) (pm : ProxyMapping) :
    (_service_proxy_add_mapping_timeout self pm).1.service_proxies =
      self.service_proxies ∧
    (_service_proxy_add_mapping_timeout self pm).1.mappings = self.mappings ∧
    (_service_proxy_add_mapping_timeout self pm).1.next = self.next ∧
    (_service_proxy_add_mapping_timeout self pm).2.addr = pm.addr ∧
    (_service_proxy_add_mapping_timeout self pm).2.proxy = pm.proxy ∧
    (_service_proxy_add_mapping_timeout self pm).2.mapping = pm.mapping := by
  unfold _service_proxy_add_mapping_timeout stop_proxymapping
  cases pm.action <;> cases pm.timeout_src <;>
    simp [g_source_destroy, g_signal_emit, gupnp_service_proxy_cancel_action]

theorem got_external_ip_address_frame (self : FsUpnpSimpleIgd) (prox : Proxy)
    (action : Nat) (result : Except GError String) (pm : ProxyMapping) :
    (_service_proxy_got_external_ip_address self prox action result pm).1.service_proxies =
      self.service_proxies ∧
    (_service_proxy_got_external_ip_address self prox action result pm).1.mappings =
      self.mappings ∧
    (_service_proxy_got_external_ip_address self prox action result pm).1.next =
      self.next ∧
    (_service_proxy_got_external_ip_address self prox action result pm).2.addr =
      prox.addr ∧
    (_service_proxy_got_external_ip_address self prox action result pm).2.proxymappings =
      prox.proxymappings := by
  unfold _service_proxy_got_external_ip_address
  by_cases ha : prox.external_ip_action = some action
  · cases result <;>
      simp [ha, got_external_ip_address_loop_eq, g_signal_emit,
        gupnp_service_proxy_end_action]
  · simp [ha, g_critical]

theorem consistent_added_port_mapping (s t : FsUpnpSimpleIgd) (action user_data : Nat)
    (error : Option GError) (h : Consistent s)
    (hrun : run_added_port_mapping s action user_data error = some t) : Consistent t := by
  unfold run_added_port_mapping at hrun
  cases hpm : find_proxymapping s user_data with
  | none => simp [hpm] at hrun
  | some pm =>
    cases hprox : find_proxy s pm.proxy with
    | none => simp [hpm, hprox] at hrun
    | some prox =>
      simp only [hpm, hprox, Option.some.injEq] at hrun
      subst hrun
      obtain ⟨h1, h2, h3, h4, h5, h6⟩ := added_port_mapping_frame s prox pm action error
      exact h.congr h2
        (skeleton_store_proxymapping s _ user_data pm _ h.pms_nodup hpm h1 h4 h5 h6) h3

theorem consistent_add_mapping_timeout (s t : FsUpnpSimpleIgd) (user_data : Nat)
    (h : Consistent s) (hrun : run_add_mapping_timeout s user_data = some t) :
    Consistent t := by
  unfold run_add_mapping_timeout at hrun
  cases hpm : find_proxymapping s user_data with
  | none => simp [hpm] at hrun
  | some pm =>
    simp only [hpm, Option.some.injEq] at hrun
    subst hrun
    obtain ⟨h1, h2, h3, h4, h5, h6⟩ := add_mapping_timeout_frame s pm
    exact h.congr h2
      (skeleton_store_proxymapping s _ user_data pm _ h.pms_nodup hpm h1 h4 h5 h6)
      (Nat.le_of_eq h3.symm)

theorem consistent_renew_mapping_timeout (s t : FsUpnpSimpleIgd) (src user_data : Nat)
    (h : Consistent s) (hrun : run_renew_mapping_timeout s src user_data = some t) :
    Consistent t := by
  cases hpm : find_proxymapping s user_data with
  | none => simp [run_renew_mapping_timeout, hpm] at hrun
  | some pm =>
    cases hprox : find_proxy s pm.proxy with
    | none => simp [run_renew_mapping_timeout, hpm, hprox] at hrun
    | some prox =>
      rw [run_renew_mapping_timeout_eq s src user_data pm prox hpm hprox] at hrun
      simp only [Option.some.injEq] at hrun
      subst hrun
      exact h.congr rfl rfl (Nat.le_succ _)

theorem consistent_renewed_port_mapping (s t : FsUpnpSimpleIgd) (action user_data : Nat)
    (error : Option GError) (h : Consistent s)
    (hrun : run_renewed_port_mapping s action user_data error = some t) :
    Consistent t := by
  unfold run_renewed_port_mapping at hrun
  cases hpm : find_proxymapping s user_data with
  | none => simp [hpm] at hrun
  | some pm =>
    cases hprox : find_proxy s pm.proxy with
    | none => simp [hpm, hprox] at hrun
    | some prox =>
      simp only [hpm, hprox, Option.some.injEq] at hrun
      subst hrun
      cases error <;> exact h.congr rfl rfl (Nat.le_refl _)

theorem consistent_got_external_ip_address (s t : FsUpnpSimpleIgd)
    (action user_data : Nat) (result : Except GError String) (pm : ProxyMapping)
    (h : Consistent s)
    (hrun : run_got_external_ip_address s action user_data result pm = some t) :
    Consistent t := by
  unfold run_got_external_ip_address at hrun
  cases hprox : find_proxy s user_data with
  | none => simp [hprox] at hrun
  | some prox =>
    simp only [hprox, Option.some.injEq] at hrun
    subst hrun
    obtain ⟨h1, h2, h3, h4, h5⟩ := got_external_ip_address_frame s prox action result pm
    exact h.congr h2
      (skeleton_store_proxy s _ user_data prox _ h.proxies_nodup hprox h1 h4 h5)
      (Nat.le_of_eq h3.symm)

theorem consistent_external_ip_address_changed (s t : FsUpnpSimpleIgd) (user_data : Nat)
    (new_ip : String) (h : Consistent s)
    (hrun : run_external_ip_address_changed s user_data new_ip = some t) :
    Consistent t := by
  unfold run_external_ip_address_changed at hrun
  cases hprox : find_proxy s user_data with
  | none => simp [hprox] at hrun
  | some prox =>
    simp only [hprox, Option.some.injEq] at hrun
    subst hrun
    rw [external_ip_address_changed_eq]
    exact h.congr rfl
      (skeleton_store_proxy s _ user_data prox _ h.proxies_nodup hprox rfl rfl rfl)
      (Nat.le_refl _)

theorem map_mapIdx_eq {α β γ : Type} (f : Nat → α → β) (g : β → γ) (l : List α) :
    (l.mapIdx f).map g = l.mapIdx (fun k a => g (f k a)) := by
  apply List.ext_getElem?
  intro i
  simp only [List.getElem?_map, List.getElem?_mapIdx, Option.map_map]
  rfl

theorem mapIdx_eq_self {α : Type} (f : Nat → α → α) (l : List α)
    (h : ∀ k a, f k a = a) : l.mapIdx f = l := by
  apply List.ext_getElem?
  intro i
  rw [List.getElem?_mapIdx]
  cases l[i]? with
  | none => rfl
  | some a => simp [h]

theorem mapIdx_eq_map {α β : Type} (f : Nat → α → β) (g : α → β) (l : List α)
    (h : ∀ k a, f k a = g a) : l.mapIdx f = l.map g := by
  apply List.ext_getElem?
  intro i
  rw [List.getElem?_mapIdx, List.getElem?_map]
  cases l[i]? with
  | none => rfl
  | some a => simp [h]

theorem mapIdx_fresh_nodup {α : Type} :
    ∀ (l : List α) (b : Nat),
      (l.mapIdx (fun k _ => b + 3 * k)).Nodup ∧
      ∀ x ∈ l.mapIdx (fun k _ => b + 3 * k), b ≤ x := by
  intro l
  induction l with
  | nil => intro b; simp
  | cons a rest ih =>
    intro b
    have h : (fun (k : Nat) (_ : α) => b + 3 * (k + 1)) = fun k _ => (b + 3) + 3 * k := by
      funext k _
      omega
    rw [List.mapIdx_cons, h]
    obtain ⟨h1, h2⟩ := ih (b + 3)
    refine ⟨List.nodup_cons.mpr ⟨?_, h1⟩, ?_⟩
    · intro hmem
      have := h2 _ hmem
      omega
    · intro x hx
      rcases List.mem_cons.mp hx with rfl | hx
      · omega
      · have := h2 x hx
        omega

theorem all_proxymappings_append (l₁ l₂ : List Proxy) :
    all_proxymappings (l₁ ++ l₂) = all_proxymappings l₁ ++ all_proxymappings l₂ := by
  simp [all_proxymappings]

theorem consistent_cp_service_avail (s : FsUpnpSimpleIgd) (proxy : GUPnPServiceProxy)
    (h : Consistent s) : Consistent (_cp_service_avail s proxy) := by
  rw [cp_service_avail_eq]
  have hnew : (s.mappings.mapIdx
      (fun k m => requesting (s.next + 2 + 3 * k) s.next m)).map (fun pm => pm.addr) =
      s.mappings.mapIdx (fun k _ => s.next + 2 + 3 * k) := by
    rw [map_mapIdx_eq]
    rfl
  obtain ⟨hnd, hge⟩ := mapIdx_fresh_nodup s.mappings (s.next + 2)
  have hlt : ∀ x ∈ s.mappings.mapIdx (fun k (_ : Mapping) => s.next + 2 + 3 * k),
      x < s.next + 2 + 3 * s.mappings.length := by
    intro x hx
    obtain ⟨k, hk, rfl⟩ := List.mem_mapIdx.mp hx
    omega
  refine ⟨h.mappings_nodup, ?_, ?_, ?_, ?_, ?_, ?_, ?_⟩
  · intro m hm
    have := h.mappings_fresh m hm
    simp only
    omega
  · simp only [List.map_append, List.map_cons, List.map_nil]
    rw [List.nodup_append]
    refine ⟨h.proxies_nodup, by simp, ?_⟩
    intro a ha hb
    simp only [List.mem_singleton] at hb
    obtain ⟨prox, hp, rfl⟩ := List.mem_map.mp ha
    have := h.proxies_fresh prox hp
    omega
  · intro prox hp
    simp only [List.mem_append, List.mem_singleton] at hp
    rcases hp with hp | rfl
    · have := h.proxies_fresh prox hp
      simp only
      omega
    · simp only
      omega
  · simp only [all_proxymappings_append, List.map_append]
    rw [List.nodup_append]
    refine ⟨h.pms_nodup, ?_, ?_⟩
    · simp only [all_proxymappings, List.map_cons, List.map_nil, List.flatten_cons,
        List.flatten_nil, List.append_nil]
      rw [hnew]
      exact hnd
    · intro a ha hb
      simp only [all_proxymappings, List.map_cons, List.map_nil, List.flatten_cons,
        List.flatten_nil, List.append_nil] at hb
      rw [hnew] at hb
      obtain ⟨pm, hp, rfl⟩ := List.mem_map.mp ha
      have := h.pms_fresh pm hp
      have := hge _ hb
      omega
  · intro pm hpm
    simp only [all_proxymappings_append, List.mem_append] at hpm
    rcases hpm with hpm | hpm
    · have := h.pms_fresh pm hpm
      simp only
      omega
    · simp only [all_proxymappings, List.map_cons, List.map_nil, List.flatten_cons,
        List.flatten_nil, List.append_nil] at hpm
      have h1 : pm.addr ∈ s.mappings.mapIdx (fun k _ => s.next + 2 + 3 * k) := by
        rw [← hnew]
        exact List.mem_map.mpr ⟨pm, hpm, rfl⟩
      have := hlt _ h1
      simp only
      omega
  · intro prox hp
    simp only [List.mem_append, List.mem_singleton] at hp
    rcases hp with hp | rfl
    · exact h.referenced prox hp
    · simp only
      rw [map_mapIdx_eq, mapIdx_eq_self
        (fun k a => (requesting (s.next + 2 + 3 * k) s.next a).mapping) _ (fun _ _ => rfl)]
  · intro prox hp pm hpm
    simp only [List.mem_append, List.mem_singleton] at hp
    rcases hp with hp | rfl
    · exact h.owner prox hp pm hpm
    · simp only at hpm
      obtain ⟨k, hk, rfl⟩ := List.mem_mapIdx.mp hpm
      rfl

theorem all_proxymappings_mapIdx_append :
    ∀ (l : List Proxy) (f : Nat → Proxy → ProxyMapping),
      List.Perm
        (all_proxymappings (l.mapIdx (fun k prox =>
          ({ prox with proxymappings := prox.proxymappings ++ [f k prox] } : Proxy))))
        (all_proxymappings l ++ l.mapIdx f) := by
  intro l
  induction l with
  | nil => intro f; simp [all_proxymappings]
  | cons p rest ih =>
    intro f
    rw [List.mapIdx_cons, List.mapIdx_cons, all_proxymappings_cons, all_proxymappings_cons]
    have h1 := ih (fun k => f (k + 1))
    simp only [List.append_assoc]
    refine List.Perm.append_left _ ?_
    refine (List.Perm.append_left _ h1).trans ?_
    simp only [List.singleton_append]
    exact List.perm_middle.symm

theorem consistent_add_port_real (s : FsUpnpSimpleIgd) (protocol local_ip : String)
    (external_port local_port lease_duration : Nat) (description : Option String)
    (hp : protocol = "UDP" ∨ protocol = "TCP") (h : Consistent s) :
    Consistent (fs_upnp_simple_igd_add_port_real s (some protocol) external_port
      (some local_ip) local_port lease_duration description) := by
  obtain ⟨m, hm⟩ : ∃ m : Mapping, m = ⟨s.next, protocol, external_port, local_ip,
      local_port, lease_duration, match description with
        | some d => d
        | none => ""⟩ := ⟨_, rfl⟩
  have hma : m.addr = s.next := by rw [hm]
  rw [add_port_real_eq s protocol local_ip external_port local_port lease_duration
    description m hp hm]
  have hperm := all_proxymappings_mapIdx_append s.service_proxies
    (fun k prox => requesting (s.next + 1 + 3 * k) prox.addr m)
  have hnew : (s.service_proxies.mapIdx
      (fun k prox => requesting (s.next + 1 + 3 * k) prox.addr m)).map (fun pm => pm.addr) =
      s.service_proxies.mapIdx (fun k _ => s.next + 1 + 3 * k) := by
    rw [map_mapIdx_eq]
    rfl
  obtain ⟨hnd, hge⟩ := mapIdx_fresh_nodup s.service_proxies (s.next + 1)
  have hlt : ∀ x ∈ s.service_proxies.mapIdx (fun k (_ : Proxy) => s.next + 1 + 3 * k),
      x < s.next + 1 + 3 * s.service_proxies.length := by
    intro x hx
    obtain ⟨k, hk, rfl⟩ := List.mem_mapIdx.mp hx
    omega
  have hmemidx : ∀ prox' ∈ s.service_proxies.mapIdx (fun k prox =>
      ({ prox with proxymappings := prox.proxymappings ++
        [requesting (s.next + 1 + 3 * k) prox.addr m] } : Proxy)),
      ∃ prox ∈ s.service_proxies, ∃ k, prox' = { prox with
        proxymappings := prox.proxymappings ++
          [requesting (s.next + 1 + 3 * k) prox.addr m] } := by
    intro prox' hp'
    obtain ⟨k, hk, rfl⟩ := List.mem_mapIdx.mp hp'
    exact ⟨_, List.getElem_mem hk, k, rfl⟩
  refine ⟨?_, ?_, ?_, ?_, ?_, ?_, ?_, ?_⟩
  · simp only [List.map_append, List.map_cons, List.map_nil, hma]
    rw [List.nodup_append]
    refine ⟨h.mappings_nodup, by simp, ?_⟩
    intro a ha hb
    simp only [List.mem_singleton] at hb
    obtain ⟨m0, hm0, rfl⟩ := List.mem_map.mp ha
    have := h.mappings_fresh m0 hm0
    omega
  · intro m0 hm0
    simp only [List.mem_append, List.mem_singleton] at hm0
    rcases hm0 with hm0 | rfl
    · have := h.mappings_fresh m0 hm0
      simp only
      omega
    · simp only [hma]
      omega
  · simp only
    rw [map_mapIdx_eq]
    have := mapIdx_eq_map (fun (k : Nat) (a : Proxy) =>
      ({ a with proxymappings := a.proxymappings ++
        [requesting (s.next + 1 + 3 * k) a.addr m] } : Proxy).addr)
      (fun prox : Proxy => prox.addr) s.service_proxies (fun _ _ => rfl)
    rw [this]
    exact h.proxies_nodup
  · intro prox' hp'
    obtain ⟨prox, hpx, k, rfl⟩ := hmemidx prox' hp'
    have := h.proxies_fresh prox hpx
    simp only
    omega
  · simp only
    rw [(hperm.map (fun pm => pm.addr)).nodup_iff, List.map_append, hnew,
      List.nodup_append]
    refine ⟨h.pms_nodup, hnd, ?_⟩
    intro a ha hb
    obtain ⟨pm, hpm, rfl⟩ := List.mem_map.mp ha
    have := h.pms_fresh pm hpm
    have := hge _ hb
    omega
  · intro pm hpm
    simp only at hpm
    rw [hperm.mem_iff, List.mem_append] at hpm
    rcases hpm with hpm | hpm
    · have := h.pms_fresh pm hpm
      simp only
      omega
    · have h1 : pm.addr ∈ s.service_proxies.mapIdx (fun k _ => s.next + 1 + 3 * k) := by
        rw [← hnew]
        exact List.mem_map.mpr ⟨pm, hpm, rfl⟩
      have := hlt _ h1
      simp only
      omega
  · intro prox' hp'
    obtain ⟨prox, hpx, k, rfl⟩ := hmemidx prox' hp'
    simp only [List.map_append, List.map_cons, List.map_nil]
    exact List.Perm.append_right _ (h.referenced prox hpx)
  · intro prox' hp' pm hpm
    obtain ⟨prox, hpx, k, rfl⟩ := hmemidx prox' hp'
    simp only [List.mem_append, List.mem_singleton] at hpm
    rcases hpm with hpm | rfl
    · exact h.owner prox hpx pm hpm
    · rfl

theorem stop_proxymapping_frame (s : FsUpnpSimpleIgd) (pm : ProxyMapping) :
    (stop_proxymapping s pm).1.service_proxies = s.service_proxies ∧
    (stop_proxymapping s pm).1.mappings = s.mappings ∧
    (stop_proxymapping s pm).1.next = s.next := by
  unfold stop_proxymapping
  cases pm.action <;> cases pm.timeout_src <;>
    simp [g_source_destroy, gupnp_service_proxy_cancel_action]

theorem stop_proxymappings_frame :
    ∀ (pms : List ProxyMapping) (s : FsUpnpSimpleIgd),
      (stop_proxymappings s pms).1.service_proxies = s.service_proxies ∧
      (stop_proxymappings s pms).1.mappings = s.mappings ∧
      (stop_proxymappings s pms).1.next = s.next := by
  intro pms
  induction pms with
  | nil => intro s; exact ⟨rfl, rfl, rfl⟩
  | cons pm rest ih =>
    intro s
    obtain ⟨h1, h2, h3⟩ := stop_proxymapping_frame s pm
    obtain ⟨k1, k2, k3⟩ := ih (stop_proxymapping s pm).1
    simp only [stop_proxymappings]
    exact ⟨k1.trans h1, k2.trans h2, k3.trans h3⟩

theorem free_proxy_frame (s : FsUpnpSimpleIgd) (prox : Proxy) :
    (free_proxy s prox).service_proxies = s.service_proxies ∧
    (free_proxy s prox).mappings = s.mappings ∧
    (free_proxy s prox).next = s.next := by
  unfold free_proxy
  obtain ⟨k1, k2, k3⟩ := stop_proxymappings_frame prox.proxymappings
    { (match prox.external_ip_action with
        | some action => gupnp_service_proxy_cancel_action s action
        | none => s) with
      notifies := (match prox.external_ip_action with
        | some action => gupnp_service_proxy_cancel_action s action
        | none => s).notifies.filter (fun n => n ≠ prox.addr) }
  refine ⟨k1.trans ?_, k2.trans ?_, k3.trans ?_⟩ <;>
    cases prox.external_ip_action <;> rfl

theorem cp_service_unavail_frame (s : FsUpnpSimpleIgd) (proxy : GUPnPServiceProxy) :
    (_cp_service_unavail s proxy).mappings = s.mappings ∧
    (_cp_service_unavail s proxy).next = s.next ∧
    (_cp_service_unavail s proxy).service_proxies =
      g_ptr_array_remove_index_fast s.service_proxies 0 := by
  unfold _cp_service_unavail
  cases hsp : s.service_proxies with
  | nil => simp [cp_service_unavail_loop, hsp, g_ptr_array_remove_index_fast]
  | cons prox rest =>
    simp only [cp_service_unavail_loop, if_true]
    obtain ⟨h1, h2, h3⟩ := stop_proxymappings_frame prox.proxymappings s
    obtain ⟨k1, k2, k3⟩ := free_proxy_frame (stop_proxymappings s prox.proxymappings).1
      { prox with proxymappings := (stop_proxymappings s prox.proxymappings).2 }
    refine ⟨k2.trans h2, k3.trans h3, ?_⟩
    show g_ptr_array_remove_index_fast _ 0 = _
    rw [k1, h1, hsp]

/-- Consistency is kept when one proxy is taken out of the array. -/
theorem Consistent.remove_proxy {s t : FsUpnpSimpleIgd} (h : Consistent s) (prox : Proxy)
    (hm : t.mappings = s.mappings) (hn : t.next = s.next)
    (hperm : List.Perm (prox :: t.service_proxies) s.service_proxies) : Consistent t := by
  have hsub : ∀ q ∈ t.service_proxies, q ∈ s.service_proxies :=
    fun q hq => hperm.mem_iff.mp (List.mem_cons_of_mem _ hq)
  have hall : List.Perm (prox.proxymappings ++ all_proxymappings t.service_proxies)
      (all_proxymappings s.service_proxies) := by
    have := (hperm.map (fun prox => prox.proxymappings)).flatten
    simpa [all_proxymappings] using this
  have hsubpm : ∀ pm ∈ all_proxymappings t.service_proxies,
      pm ∈ all_proxymappings s.service_proxies :=
    fun pm hpm => hall.mem_iff.mp (List.mem_append_right _ hpm)
  refine ⟨?_, ?_, ?_, ?_, ?_, ?_, ?_, ?_⟩
  · rw [hm]; exact h.mappings_nodup
  · intro m hmem
    rw [hm] at hmem
    rw [hn]
    exact h.mappings_fresh m hmem
  · have := (hperm.map (fun prox => prox.addr)).nodup_iff.mpr h.proxies_nodup
    exact (List.nodup_cons.mp this).2
  · intro q hq
    rw [hn]
    exact h.proxies_fresh q (hsub q hq)
  · have := (hall.map (fun pm => pm.addr)).nodup_iff.mpr h.pms_nodup
    rw [List.map_append] at this
    exact (List.nodup_append.mp this).2.1
  · intro pm hpm
    rw [hn]
    exact h.pms_fresh pm (hsubpm pm hpm)
  · intro q hq
    rw [hm]
    exact h.referenced q (hsub q hq)
  · intro q hq pm hpm
    exact h.owner q (hsub q hq) pm hpm

theorem consistent_cp_service_unavail (s : FsUpnpSimpleIgd) (proxy : GUPnPServiceProxy)
    (h : Consistent s) : Consistent (_cp_service_unavail s proxy) := by
  obtain ⟨h1, h2, h3⟩ := cp_service_unavail_frame s proxy
  cases hsp : s.service_proxies with
  | nil =>
    refine h.congr h1 ?_ (Nat.le_of_eq h2.symm)
    rw [h3, hsp]
    rfl
  | cons prox rest =>
    refine h.remove_proxy prox h1 h2 ?_
    rw [h3]
    exact remove_index_fast_perm s.service_proxies 0 prox (by rw [hsp]; simp)

theorem forall₂_mem_right {α β : Type} (R : α → β → Prop) :
    ∀ (l : List α) (l' : List β), List.Forall₂ R l l' →
      ∀ b ∈ l', ∃ a ∈ l, R a b
  | _, _, List.Forall₂.nil, b, hb => by cases hb
  | a :: _, _, List.Forall₂.cons h1 h2, b, hb => by
    rcases List.mem_cons.mp hb with rfl | hb
    · exact ⟨a, List.mem_cons_self _ _, h1⟩
    · obtain ⟨x, hx, hr⟩ := forall₂_mem_right R _ _ h2 b hb
      exact ⟨x, List.mem_cons_of_mem _ hx, hr⟩

theorem forall₂_map_eq {α β γ : Type} (R : α → β → Prop) (f : α → γ) (g : β → γ)
    (hfg : ∀ a b, R a b → g b = f a) :
    ∀ (l : List α) (l' : List β), List.Forall₂ R l l' → l'.map g = l.map f
  | _, _, List.Forall₂.nil => rfl
  | _, _, List.Forall₂.cons h1 h2 => by
    rw [List.map_cons, List.map_cons, hfg _ _ h1, forall₂_map_eq R f g hfg _ _ h2]

theorem removedFrom_all_proxymappings (m : Mapping) :
    ∀ (l l' : List Proxy), List.Forall₂ (RemovedFrom m) l l' →
      List.Perm (all_proxymappings l')
        ((all_proxymappings l).filter (fun pm => decide (pm.mapping.addr ≠ m.addr)))
  | _, _, List.Forall₂.nil => by simp [all_proxymappings]
  | _, _, List.Forall₂.cons h1 h2 => by
    obtain ⟨pms', rfl, hp⟩ := h1
    rw [all_proxymappings_cons, all_proxymappings_cons, List.filter_append]
    exact hp.append (removedFrom_all_proxymappings m _ _ h2)

theorem find?_of_exists_mem {α : Type} (p : α → Bool) :
    ∀ (l : List α), (∃ a ∈ l, p a = true) → ∃ b, l.find? p = some b
  | [], h => by obtain ⟨a, ha, _⟩ := h; cases ha
  | x :: l, h => by
    by_cases hx : p x = true
    · exact ⟨x, by simp [List.find?, hx]⟩
    · obtain ⟨a, ha, hpa⟩ := h
      rcases List.mem_cons.mp ha with rfl | ha
      · exact absurd hpa hx
      · obtain ⟨b, hb⟩ := find?_of_exists_mem p l ⟨a, ha, hpa⟩
        refine ⟨b, ?_⟩
        simp only [List.find?, Bool.not_eq_true] at hx ⊢
        rw [hx]
        exact hb

/-- Consistency is kept when a mapping leaves the registry together with the
`ProxyMapping`s that reference it. -/
theorem Consistent.remove_mapping {s t : FsUpnpSimpleIgd} (h : Consistent s) (m : Mapping)
    (hperm : List.Perm (m :: t.mappings) s.mappings)
    (hf : List.Forall₂ (RemovedFrom m) s.service_proxies t.service_proxies)
    (hn : s.next ≤ t.next) : Consistent t := by
  have hnd : (m.addr :: t.mappings.map (fun m => m.addr)).Nodup := by
    have := (hperm.map (fun m => m.addr)).nodup_iff.mpr h.mappings_nodup
    simpa using this
  have hall := removedFrom_all_proxymappings m _ _ hf
  have hsubpm : ∀ pm ∈ all_proxymappings t.service_proxies,
      pm ∈ all_proxymappings s.service_proxies :=
    fun pm hpm => (List.mem_filter.mp (hall.mem_iff.mp hpm)).1
  have haddr : t.service_proxies.map (fun prox => prox.addr) =
      s.service_proxies.map (fun prox => prox.addr) :=
    forall₂_map_eq (RemovedFrom m) _ _
      (fun a b hab => by obtain ⟨pms', rfl, _⟩ := hab; rfl) _ _ hf
  refine ⟨?_, ?_, ?_, ?_, ?_, ?_, ?_, ?_⟩
  · exact (List.nodup_cons.mp hnd).2
  · intro x hx
    exact Nat.lt_of_lt_of_le
      (h.mappings_fresh x (hperm.mem_iff.mp (List.mem_cons_of_mem _ hx))) hn
  · rw [haddr]; exact h.proxies_nodup
  · intro q hq
    obtain ⟨prox, hprox, pms', rfl, _⟩ := forall₂_mem_right _ _ _ hf q hq
    exact Nat.lt_of_lt_of_le (h.proxies_fresh prox hprox) hn
  · refine ((hall.map (fun pm => pm.addr)).nodup_iff).mpr ?_
    exact h.pms_nodup.sublist ((List.filter_sublist _).map _)
  · intro pm hpm
    exact Nat.lt_of_lt_of_le (h.pms_fresh pm (hsubpm pm hpm)) hn
  · intro q hq
    obtain ⟨prox, hprox, pms', rfl, hp⟩ := forall₂_mem_right _ _ _ hf q hq
    show List.Perm (pms'.map (fun pm => pm.mapping)) t.mappings
    have h1 : List.Perm (pms'.map (fun pm => pm.mapping))
        ((prox.proxymappings.map (fun pm => pm.mapping)).filter
          (fun x => decide (x.addr ≠ m.addr))) := by
      rw [List.filter_map]
      exact hp.map _
    have h2 : List.Perm ((prox.proxymappings.map (fun pm => pm.mapping)).filter
          (fun x => decide (x.addr ≠ m.addr)))
        ((m :: t.mappings).filter (fun x => decide (x.addr ≠ m.addr))) :=
      ((h.referenced prox hprox).trans hperm.symm).filter _
    have h3 : (m :: t.mappings).filter (fun x => decide (x.addr ≠ m.addr)) = t.mappings := by
      rw [List.filter_cons_of_neg (by simp)]
      apply List.filter_eq_self.mpr
      intro x hx
      have hne : m.addr ∉ t.mappings.map (fun m => m.addr) := (List.nodup_cons.mp hnd).1
      have : x.addr ≠ m.addr := fun e => hne (e ▸ List.mem_map_of_mem _ hx)
      simpa using this
    exact h3 ▸ h1.trans h2
  · intro q hq pm hpm
    obtain ⟨prox, hprox, pms', rfl, hp⟩ := forall₂_mem_right _ _ _ hf q hq
    exact h.owner prox hprox pm (List.mem_filter.mp (hp.mem_iff.mp hpm)).1

theorem consistent_remove_port (s t : FsUpnpSimpleIgd) (protocol : String)
    (external_port : Nat) (mapping0 : Option Mapping)
    (hex : ∃ m ∈ s.mappings, m.external_port = external_port ∧ m.protocol = protocol)
    (hlen : ∀ prox ∈ s.service_proxies, prox.proxymappings.length < 2 ^ 32)
    (hrun : fs_upnp_simple_igd_remove_port_real s (some protocol) external_port mapping0 =
      some t)
    (h : Consistent s) : Consistent t := by
  obtain ⟨m, hfind⟩ := find?_of_exists_mem
    (fun x => decide (x.external_port = external_port ∧ x.protocol = protocol)) s.mappings
    (by obtain ⟨m, hm, hk⟩ := hex; exact ⟨m, hm, by simpa using hk⟩)
  obtain ⟨t', ht', hperm, hf, heff⟩ :=
    remove_port_real_spec s protocol external_port mapping0 m hfind hlen
  rw [hrun] at ht'
  cases ht'
  exact h.remove_mapping m hperm hf heff.next_le

/-- Every reachable state is consistent. -/
theorem reachable_consistent {s : FsUpnpSimpleIgd} (h : Reachable s) : Consistent s := by
  induction h with
  | init => exact consistent_init
  | add_port s protocol local_ip external_port local_port lease_duration description _ hp ih =>
    exact consistent_add_port_real s protocol local_ip external_port local_port
      lease_duration description hp ih
  | remove_port s t protocol external_port mapping0 _ hex hlen hrun ih =>
    exact consistent_remove_port s t protocol external_port mapping0 hex hlen hrun ih
  | device_available s proxy _ ih => exact consistent_cp_service_avail s proxy ih
  | device_unavailable s proxy _ ih => exact consistent_cp_service_unavail s proxy ih
  | added_port_mapping s t action user_data error _ hrun ih =>
    exact consistent_added_port_mapping s t action user_data error ih hrun
  | add_mapping_timeout s t user_data _ hrun ih =>
    exact consistent_add_mapping_timeout s t user_data ih hrun
  | renew_mapping_timeout s t src user_data _ hrun ih =>
    exact consistent_renew_mapping_timeout s t src user_data ih hrun
  | renewed_port_mapping s t action user_data error _ hrun ih =>
    exact consistent_renewed_port_mapping s t action user_data error ih hrun
  | got_external_ip_address s t action user_data result pm _ hrun ih =>
    exact consistent_got_external_ip_address s t action user_data result pm ih hrun
  | external_ip_address_changed s t user_data new_ip _ hrun ih =>
    exact consistent_external_ip_address_changed s t user_data new_ip ih hrun

theorem countP_referencing (pms : List ProxyMapping) (mappings : List Mapping)
    (hp : List.Perm (pms.map (fun pm => pm.mapping)) mappings)
    (hnd : (mappings.map (fun m => m.addr)).Nodup) (m : Mapping) (hm : m ∈ mappings) :
    pms.countP (fun pm => decide (pm.mapping.addr = m.addr)) = 1 := by
  have h1 : (mappings.map (fun m => m.addr)).count m.addr = 1 :=
    List.count_eq_one_of_mem hnd (List.mem_map_of_mem _ hm)
  have h2 := (hp.map (fun m => m.addr)).count_eq m.addr
  rw [h1, List.map_map, List.count, List.countP_map] at h2
  rw [← h2]
  apply List.countP_congr
  intro pm _
  simp [Function.comp]

/-- C19: in every state reachable from the initial state through valid `add_port` calls,
`remove_port` calls on keys of the registry, devices appearing and disappearing,
completions of `AddPortMapping` (first request and renewal), request and renewal
timeouts, completions of `GetExternalIPAddress` and address notifications, the proxies
and the mappings are at pairwise different addresses and, for every proxy, every mapping
of the registry is referenced by exactly one of its `ProxyMapping`s, and each of its
`ProxyMapping`s references a mapping of the registry and names the proxy as its owner. -/
theorem reachable_proxymappings (s : FsUpnpSimpleIgd) (h : Reachable s) :
    (s.service_proxies.map (fun prox => prox.addr)).Nodup ∧
    (s.mappings.map (fun m => m.addr)).Nodup ∧
    ∀ prox ∈ s.service_proxies,
      (∀ m ∈ s.mappings,
        prox.proxymappings.countP (fun pm => decide (pm.mapping.addr = m.addr)) = 1) ∧
      (∀ pm ∈ prox.proxymappings, pm.mapping ∈ s.mappings ∧ pm.proxy = prox.addr) := by
  have hc := reachable_consistent h
  refine ⟨hc.proxies_nodup, hc.mappings_nodup, ?_⟩
  intro prox hprox
  refine ⟨fun m hm => countP_referencing _ _ (hc.referenced prox hprox) hc.mappings_nodup m hm,
    fun pm hpm => ⟨?_, hc.owner prox hprox pm hpm⟩⟩
  exact (hc.referenced prox hprox).mem_iff.mp (List.mem_map_of_mem _ hpm)

/-- C19 at the scenario of two devices and one mapping after the request of the first
device failed: the state is reachable, and each of the two proxies still owns one
`ProxyMapping` for the mapping of the registry. -/
theorem reachable_proxymappings_witness :
    Reachable scenario_failed ∧
    (scenario_failed.service_proxies.map (fun prox => prox.addr)).Nodup ∧
    (scenario_failed.mappings.map (fun m => m.addr)).Nodup ∧
    ∀ prox ∈ scenario_failed.service_proxies,
      (∀ m ∈ scenario_failed.mappings,
        prox.proxymappings.countP (fun pm => decide (pm.mapping.addr = m.addr)) = 1) ∧
      (∀ pm ∈ prox.proxymappings,
        pm.mapping ∈ scenario_failed.mappings ∧ pm.proxy = prox.addr) :=
  have hr : Reachable scenario_failed :=
    Reachable.added_port_mapping scenario_two_requesting scenario_failed 4 3
      (some ⟨"upnp", 718, "ConflictInMappingEntry"⟩)
      (Reachable.device_available _ _
        (Reachable.device_available _ _
          (Reachable.add_port _ "UDP" "10.0.0.5" 5000 5000 3600 (some "voip")
            Reachable.init (Or.inl rfl))))
      rfl
  ⟨hr, reachable_proxymappings scenario_failed hr⟩

/-! ## The keys of the registry -/

/-- C14, counterexample: two valid `add_port` calls with the key `("UDP", 5000)` on a new
instance give a reachable state whose registry holds both mappings, the first unchanged
and the second after it, so two mappings of the registry have the same key. -/
theorem add_port_duplicate_key :
    Reachable scenario_duplicate ∧
    scenario_duplicate.mappings =
      [⟨0, "UDP", 5000, "10.0.0.5", 5000, 3600, "voip"⟩,
       ⟨1, "UDP", 5000, "10.0.0.5", 5001, 3600, "voip"⟩] ∧
    ¬ (scenario_duplicate.mappings.map mapping_key).Nodup :=
  ⟨Reachable.add_port _ "UDP" "10.0.0.5" 5000 5001 3600 (some "voip")
      (Reachable.add_port _ "UDP" "10.0.0.5" 5000 5000 3600 (some "voip")
        Reachable.init (Or.inl rfl)) (Or.inl rfl),
    by decide, by decide⟩

/-- C14, amended: a valid `add_port` reads no key of the registry: it appends the new
mapping after the mappings of the registry, which stay as they were; the keys of the
registry are pairwise different afterwards exactly when they were before and the key
added was not among them. -/
theorem add_port_appends (self : FsUpnpSimpleIgd) (protocol local_ip : String)
    (external_port local_port lease_duration : Nat) (description : Option String)
    (hp : protocol = "UDP" ∨ protocol = "TCP") :
    (fs_upnp_simple_igd_add_port_real self (some protocol) external_port (some local_ip)
        local_port lease_duration description).mappings =
      self.mappings ++ [⟨self.next, protocol, external_port, local_ip, local_port,
        lease_duration, match description with
          | some d => d
          | none => ""⟩] ∧
    (((fs_upnp_simple_igd_add_port_real self (some protocol) external_port (some local_ip)
        local_port lease_duration description).mappings.map mapping_key).Nodup ↔
      (self.mappings.map mapping_key).Nodup ∧
        (protocol, external_port) ∉ self.mappings.map mapping_key) := by
  rw [add_port_real_eq self protocol local_ip external_port local_port lease_duration
    description _ hp rfl]
  refine ⟨rfl, ?_⟩
  simp only [List.map_append, List.map_cons, List.map_nil, mapping_key]
  rw [List.nodup_append]
  constructor
  · rintro ⟨h1, _, h3⟩
    exact ⟨h1, fun hmem => h3 hmem (List.mem_singleton_self _)⟩
  · rintro ⟨h1, h2⟩
    refine ⟨h1, List.nodup_singleton _, ?_⟩
    intro a ha hb
    rw [List.mem_singleton] at hb
    exact h2 (hb ▸ ha)

/-- C14, amended, at a registry holding `("UDP", 5000)`: a second `add_port` with this
key appends a mapping, and the keys are no longer pairwise different. -/
theorem add_port_appends_witness :
    ("UDP" = "UDP" ∨ "UDP" = "TCP") ∧
    (fs_upnp_simple_igd_add_port_real scenario_device (some "UDP") 5000 (some "10.0.0.5")
        5001 3600 none).mappings =
      scenario_device.mappings ++ [⟨scenario_device.next, "UDP", 5000, "10.0.0.5", 5001,
        3600, ""⟩] ∧
    (((fs_upnp_simple_igd_add_port_real scenario_device (some "UDP") 5000
        (some "10.0.0.5") 5001 3600 none).mappings.map mapping_key).Nodup ↔
      (scenario_device.mappings.map mapping_key).Nodup ∧
        ("UDP", 5000) ∉ scenario_device.mappings.map mapping_key) :=
  ⟨Or.inl rfl, add_port_appends scenario_device "UDP" "10.0.0.5" 5000 5001 3600 none
    (Or.inl rfl)⟩

/-! ## The renewal period -/

/-- C21: when the `AddPortMapping` of a `ProxyMapping` succeeds, with a lease that fits
the 32 bits of `lease_duration`, exactly one source is attached, after the sources that
stay; it calls `_renew_mapping_timeout` for this `ProxyMapping`, which records it as its
renewal source, and its interval is the quotient `lease_duration / 2` rounded down, which
fits 32 bits: it is positive exactly when the lease is at least 2, it is 0 for the leases
0 and 1, where the source is attached all the same, and it never exceeds the lease.
Fired, the source begins the renewal and stays attached with its interval, whatever the
interval is. -/
theorem renewal_period (self : FsUpnpSimpleIgd) (p a t : Nat) (pm : ProxyMapping)
    (prox : Proxy)
    (hpm : find_proxymapping self p = some pm)
    (hprox : find_proxy self pm.proxy = some prox)
    (ha : pm.action = some a) (ht : pm.timeout_src = some t) (hfresh : t < self.next)
    (hlease : pm.mapping.lease_duration < 2 ^ 32) :
    ∃ self' src,
      run_added_port_mapping self a p none = some self' ∧
      self'.sources = self.sources.filter (fun s => s.id ≠ t) ++ [src] ∧
      src.id = self.next ∧
      src.func = SourceFunc._renew_mapping_timeout ∧ src.user_data = UserData.pm p ∧
      (∃ q, find_proxymapping self' p = some q ∧ q.mapped = true ∧
        q.renew_src = some src.id) ∧
      src.interval = pm.mapping.lease_duration / 2 ∧
      2 * src.interval ≤ pm.mapping.lease_duration ∧
      pm.mapping.lease_duration < 2 * src.interval + 2 ∧
      src.interval < 2 ^ 32 ∧
      (0 < src.interval ↔ 2 ≤ pm.mapping.lease_duration) ∧
      (pm.mapping.lease_duration = 0 ∨ pm.mapping.lease_duration = 1 →
        src.interval = 0) ∧
      src.interval ≤ pm.mapping.lease_duration ∧
      ∃ self'', run_renew_mapping_timeout self' src.id p = some self'' ∧
        self''.sources = self'.sources ∧
        self''.log = self'.log ++ [Effect.call prox.proxy
          (Rpc.AddPortMapping "" pm.mapping.external_port pm.mapping.protocol
            pm.mapping.local_port pm.mapping.local_ip true pm.mapping.description
            pm.mapping.lease_duration)] := by
  have hp : pm.addr = p := find_proxymapping_addr self p pm hpm
  subst hp
  have hne : self.next ≠ t := by omega
  have hrun : run_added_port_mapping self a pm.addr none =
      some (store_proxymapping (_service_proxy_added_port_mapping self prox pm a none).1
        (_service_proxy_added_port_mapping self prox pm a none).2) := by
    simp only [run_added_port_mapping, hpm, hprox]
  rw [added_port_mapping_ok self prox pm a t ha ht] at hrun
  obtain ⟨pm', hpm'⟩ : ∃ pm', ProxyMapping.mk pm.addr pm.proxy pm.mapping none none true
      (some self.next) = pm' := ⟨_, rfl⟩
  have hq : find_proxymapping (store_proxymapping _ pm') pm'.addr = some pm' :=
    find_store_proxymapping
      { self with
          sources := (self.sources ++ [GSource.mk self.next (pm.mapping.lease_duration / 2)
            SourceFunc._renew_mapping_timeout (UserData.pm pm.addr)]).filter
              (fun s => s.id ≠ t)
          actions := self.actions.filter (fun x => x.id ≠ a)
          log := self.log ++
            (match prox.external_ip with
             | some ip => [Effect.emit (Signal.mapped_external_port pm.mapping.protocol ip
                 none pm.mapping.external_port pm.mapping.local_ip pm.mapping.local_port
                 pm.mapping.description)]
             | none => [])
          next := self.next + 1 } pm' pm (by subst hpm'; exact hpm)
  obtain ⟨prox', hprox'⟩ := find_proxy_store_proxymapping
    { self with
        sources := (self.sources ++ [GSource.mk self.next (pm.mapping.lease_duration / 2)
          SourceFunc._renew_mapping_timeout (UserData.pm pm.addr)]).filter
            (fun s => s.id ≠ t)
        actions := self.actions.filter (fun x => x.id ≠ a)
        log := self.log ++
          (match prox.external_ip with
           | some ip => [Effect.emit (Signal.mapped_external_port pm.mapping.protocol ip
               none pm.mapping.external_port pm.mapping.local_ip pm.mapping.local_port
               pm.mapping.description)]
           | none => [])
        next := self.next + 1 } pm' pm.proxy prox hprox
  have hpx : prox'.proxy = prox.proxy := by
    rw [find_proxy_store_proxymapping_eq] at hprox'
    have h0 : find_proxy
        { self with
            sources := (self.sources ++ [GSource.mk self.next
              (pm.mapping.lease_duration / 2)
              SourceFunc._renew_mapping_timeout (UserData.pm pm.addr)]).filter
                (fun s => s.id ≠ t)
            actions := self.actions.filter (fun x => x.id ≠ a)
            log := self.log ++
              (match prox.external_ip with
               | some ip => [Effect.emit (Signal.mapped_external_port pm.mapping.protocol
                   ip none pm.mapping.external_port pm.mapping.local_ip
                   pm.mapping.local_port pm.mapping.description)]
               | none => [])
            next := self.next + 1 } pm.proxy = some prox := hprox
    rw [h0] at hprox'
    simp only [Option.map_some', Option.some.injEq] at hprox'
    rw [← hprox']
  subst hpm'
  refine ⟨_, GSource.mk self.next (pm.mapping.lease_duration / 2)
    SourceFunc._renew_mapping_timeout (UserData.pm pm.addr), hrun, ?_, rfl, rfl, rfl,
    ⟨_, hq, rfl, rfl⟩, rfl, ?_, ?_, ?_, ?_, ?_, ?_, ?_⟩
  · simp [store_proxymapping, List.filter_append, hne]
  · show 2 * (pm.mapping.lease_duration / 2) ≤ pm.mapping.lease_duration
    omega
  · show pm.mapping.lease_duration < 2 * (pm.mapping.lease_duration / 2) + 2
    omega
  · show pm.mapping.lease_duration / 2 < 2 ^ 32
    omega
  · show 0 < pm.mapping.lease_duration / 2 ↔ 2 ≤ pm.mapping.lease_duration
    omega
  · show pm.mapping.lease_duration = 0 ∨ pm.mapping.lease_duration = 1 →
      pm.mapping.lease_duration / 2 = 0
    omega
  · show pm.mapping.lease_duration / 2 ≤ pm.mapping.lease_duration
    omega
  · rw [run_renew_mapping_timeout_eq _ self.next pm.addr _ prox' hq hprox', hpx]
    exact ⟨_, rfl, rfl, rfl⟩

/-- C21 at a lease of one second: the success of the request attaches the renewal source
6 with an interval of 0 seconds; fired, the source begins `AddPortMapping` with the lease
of one second and stays attached with the interval 0. -/
theorem renewal_period_witness :
    ∃ self', run_added_port_mapping scenario_lease_one 4 3 none = some self' ∧
      self'.sources = [GSource.mk 6 0 SourceFunc._renew_mapping_timeout (UserData.pm 3)] ∧
      ∃ self'', run_renew_mapping_timeout self' 6 3 = some self'' ∧
        self''.sources =
          [GSource.mk 6 0 SourceFunc._renew_mapping_timeout (UserData.pm 3)] ∧
        self''.log = self'.log ++ [Effect.call ⟨"uuid:igd-a"⟩
          (Rpc.AddPortMapping "" 7000 "UDP" 7000 "10.0.0.5" true "probe" 1)] := by
  obtain ⟨self', src, h1, h2, h3, h4, h5, _, h6, _, _, _, _, _, _, self'', h13, h14,
      h15⟩ :=
    renewal_period scenario_lease_one 3 4 5 scenario_lease_one_pm
      ⟨1, ⟨"uuid:igd-a"⟩, none, some 2, [scenario_lease_one_pm]⟩
      (by decide) (by decide) rfl rfl (by decide) (by decide)
  obtain ⟨id, interval, func, user_data⟩ := src
  simp only at h3 h4 h5 h6
  subst h3 h4 h5 h6
  have hs : self'.sources =
      [GSource.mk 6 0 SourceFunc._renew_mapping_timeout (UserData.pm 3)] := by
    rw [h2]
    rfl
  exact ⟨self', h1, hs, self'', h13, by rw [h14, hs], h15⟩
end FsUpnp
